import Mathlib

/-!
# Swapchain and frame-synchronisation engine of the Vulkan runner

A shallow embedding of the native entry points of `Vulkan_Runner.cpp` and
`affine_vulkan_filter_jni.cpp`.

Conventions of the embedding:

* an opaque 64-bit handle is a `Nat`, the null handle is `0`;
* a `VkResult` is an `Int`, `VK_SUCCESS` is `0`;
* a pointer argument is a pair: the handle value the entry point receives and
  the record it points to;
* the driver is an oracle: every entry point takes the answers the driver gives
  to the calls it may issue, and returns, next to its result, the list of driver
  calls it issued, in order;
* the answer to a creating call is a pair: the result code, and the content of
  the output slot after the call (on success, the new handle).
-/

namespace VulkanRunner

/-! ## Data model (`Vulkantypes.h`) -/

abbrev Handle := Nat
abbrev VkResult := Int

def VK_NULL_HANDLE : Handle := 0
def VK_SUCCESS : VkResult := 0
def VK_SUBOPTIMAL_KHR : VkResult := 1000001003
def VK_ERROR_OUT_OF_DATE_KHR : VkResult := -1000001004
def VK_ERROR_DEVICE_LOST : VkResult := -4
def UINT32_MAX : Nat := 4294967295

def VK_FORMAT_R8G8B8A8_UNORM : Nat := 37
def VK_FORMAT_B8G8R8A8_UNORM : Nat := 44
def VK_COLOR_SPACE_SRGB_NONLINEAR_KHR : Nat := 0
def VK_PRESENT_MODE_FIFO_KHR : Nat := 2
def VK_IMAGE_USAGE_COLOR_ATTACHMENT_BIT : Nat := 16
def VK_COMPOSITE_ALPHA_OPAQUE_BIT_KHR : Nat := 1
def VK_PIPELINE_STAGE_COLOR_ATTACHMENT_OUTPUT_BIT : Nat := 1024

structure VkExtent2D where
  width : Nat
  height : Nat
deriving DecidableEq, Repr

structure VkSurfaceFormatKHR where
  format : Nat
  colorSpace : Nat
deriving DecidableEq, Repr

structure SwapchainInfo where
  swapchain : Handle
  images : List Handle
  imageViews : List Handle
  framebuffers : List Handle
  format : VkSurfaceFormatKHR
  extent : VkExtent2D
deriving DecidableEq, Repr

structure DeviceInfo where
  device : Handle
  physicalDevice : Handle
  graphicsQueue : Handle
  presentQueue : Handle
  graphicsQueueFamily : Nat
  presentQueueFamily : Nat
  surface : Handle
deriving DecidableEq, Repr

structure VkSurfaceCapabilitiesKHR where
  minImageCount : Nat
  maxImageCount : Nat
  currentExtent : VkExtent2D
  minImageExtent : VkExtent2D
  maxImageExtent : VkExtent2D
  currentTransform : Nat
deriving DecidableEq, Repr

/-! ## Driver requests -/

inductive VkSharingMode where
  | EXCLUSIVE
  | CONCURRENT
deriving DecidableEq, Repr

inductive VkImageLayout where
  | UNDEFINED
  | TRANSFER_DST_OPTIMAL
  | SHADER_READ_ONLY_OPTIMAL
deriving DecidableEq, Repr

structure VkFramebufferCreateInfo where
  renderPass : Handle
  attachments : List Handle
  width : Nat
  height : Nat
  layers : Nat
deriving DecidableEq, Repr

structure VkSwapchainCreateInfoKHR where
  surface : Handle
  minImageCount : Nat
  imageFormat : Nat
  imageColorSpace : Nat
  imageExtent : VkExtent2D
  imageArrayLayers : Nat
  imageUsage : Nat
  imageSharingMode : VkSharingMode
  queueFamilyIndices : List Nat
  preTransform : Nat
  compositeAlpha : Nat
  presentMode : Nat
  clipped : Bool
  oldSwapchain : Handle
deriving DecidableEq, Repr

/-- A pointer field is the list it points to, `[]` for `nullptr`. -/
structure VkSubmitInfo where
  waitSemaphoreCount : Nat
  pWaitSemaphores : List Handle
  pWaitDstStageMask : List Nat
  commandBufferCount : Nat
  pCommandBuffers : List Handle
  signalSemaphoreCount : Nat
  pSignalSemaphores : List Handle
deriving DecidableEq, Repr

structure VkImageMemoryBarrier where
  image : Handle
  oldLayout : VkImageLayout
  newLayout : VkImageLayout
deriving DecidableEq, Repr

structure VkPushConstantRange where
  stageFlags : Nat
  offset : Nat
  size : Nat
deriving DecidableEq, Repr

structure VkDescriptorImageInfo where
  sampler : Handle
  imageView : Handle
  imageLayout : VkImageLayout
deriving DecidableEq, Repr

structure VkWriteDescriptorSet where
  dstSet : Handle
  dstBinding : Nat
  dstArrayElement : Nat
  descriptorCount : Nat
  descriptorType : Nat
  pImageInfo : List VkDescriptorImageInfo
deriving DecidableEq, Repr

structure VkDescriptorSetLayoutBinding where
  binding : Nat
  descriptorType : Nat
  descriptorCount : Nat
  stageFlags : Nat
deriving DecidableEq, Repr

/-- One call into the driver, with the arguments the entry points choose. -/
inductive Call where
  | vkCreateFramebuffer (device : Handle) (info : VkFramebufferCreateInfo)
  | vkDestroyFramebuffer (device framebuffer : Handle)
  | vkCreateImageView (device image : Handle) (format : Nat)
  | vkDestroyImageView (device imageView : Handle)
  | vkDeviceWaitIdle (device : Handle)
  | vkGetPhysicalDeviceSurfaceCapabilitiesKHR (physicalDevice surface : Handle)
  | vkGetPhysicalDeviceSurfaceFormatsKHR (physicalDevice surface : Handle)
  | vkCreateSwapchainKHR (device : Handle) (info : VkSwapchainCreateInfoKHR)
  | vkDestroySwapchainKHR (device swapchain : Handle)
  | vkGetSwapchainImagesKHR (device swapchain : Handle)
  | vkAcquireNextImageKHR (device swapchain : Handle) (timeout : Nat) (semaphore fence : Handle)
  | vkQueueSubmit (queue : Handle) (submits : List VkSubmitInfo) (fence : Handle)
  | vkQueueWaitIdle (queue : Handle)
  | vkCreateShaderModule (device : Handle) (codeSize : Nat) (code : List Nat)
  | vkCreateImage (device : Handle) (width height : Nat)
  | vkDestroyImage (device image : Handle)
  | vkGetImageMemoryRequirements (device image : Handle)
  | vkGetBufferMemoryRequirements (device buffer : Handle)
  | vkGetPhysicalDeviceMemoryProperties (physicalDevice : Handle)
  | vkAllocateMemory (device : Handle)
  | vkFreeMemory (device memory : Handle)
  | vkBindImageMemory (device image memory : Handle)
  | vkCreateBuffer (device : Handle) (size : Nat)
  | vkDestroyBuffer (device buffer : Handle)
  | vkBindBufferMemory (device buffer memory : Handle)
  | vkMapMemory (device memory : Handle) (size : Nat)
  | vkUnmapMemory (device memory : Handle)
  | vkCreateCommandPool (device : Handle) (queueFamilyIndex : Nat)
  | vkDestroyCommandPool (device pool : Handle)
  | vkAllocateCommandBuffers (device pool : Handle)
  | vkFreeCommandBuffers (device pool commandBuffer : Handle)
  | vkBeginCommandBuffer (commandBuffer : Handle)
  | vkEndCommandBuffer (commandBuffer : Handle)
  | vkCmdPipelineBarrier (commandBuffer : Handle) (barrier : VkImageMemoryBarrier)
  | vkCmdCopyBufferToImage (commandBuffer buffer image : Handle) (width height : Nat)
  | vkCreateRenderPass (device : Handle) (format : Nat)
  | vkCreateDescriptorSetLayout (device : Handle) (bindings : List VkDescriptorSetLayoutBinding)
  | vkCreatePipelineLayout (device : Handle) (setLayouts : List Handle)
      (pushConstantRanges : List VkPushConstantRange)
  | vkUpdateDescriptorSets (device : Handle) (writes : List VkWriteDescriptorSet)
  | vkCmdPushConstants (commandBuffer layout : Handle) (stageFlags offset size : Nat)
      (values : List Nat)
  | vkCmdBeginRenderPass (commandBuffer renderPass framebuffer : Handle) (extent : VkExtent2D)
  | vkCmdSetViewport (commandBuffer : Handle) (width height : Nat)
  | vkCmdSetScissor (commandBuffer : Handle) (extent : VkExtent2D)
  | vkCreateSemaphore (device : Handle)
  | vkDestroySemaphore (device semaphore : Handle)
  | vkCreateFence (device : Handle) (flags : Nat)
  | vkDestroyFence (device fence : Handle)
  | vkCreateAndroidSurfaceKHR (vkInstance : Handle)
  | vkEnumeratePhysicalDevices (vkInstance : Handle)
  | vkGetPhysicalDeviceQueueFamilyProperties (physicalDevice : Handle)
  | vkGetPhysicalDeviceSurfaceSupportKHR (physicalDevice : Handle) (queueFamilyIndex : Nat)
      (surface : Handle)
  | vkCreateDevice (physicalDevice : Handle) (queueFamilyIndices : List Nat)
  | vkGetDeviceQueue (device : Handle) (queueFamilyIndex queueIndex : Nat)
  | vkCreateSampler (device : Handle)
  | vkDestroySampler (device sampler : Handle)
  | vkWaitForFences (device : Handle) (fences : List Handle) (waitAll : Bool) (timeout : Nat)
  | vkResetFences (device : Handle) (fences : List Handle)
deriving Repr

set_option maxHeartbeats 4000000 in
/-- Equality of calls is decided constructor by constructor: two calls of
different functions differ, two calls of one function are equal when their
arguments are. -/
instance instDecidableEqCall : DecidableEq Call := fun a b => by
  cases a <;> cases b <;>
  first
  | exact isFalse (fun h => Call.noConfusion h)
  | (rename_i x1 x2 x3 x4 x5 x6 y1 y2 y3 y4 y5 y6
     exact decidable_of_iff (x1 = y1 ∧ x2 = y2 ∧ x3 = y3 ∧ x4 = y4 ∧ x5 = y5 ∧ x6 = y6)
       ⟨fun ⟨h1, h2, h3, h4, h5, h6⟩ => by rw [h1, h2, h3, h4, h5, h6],
        fun h => by injection h with h1 h2 h3 h4 h5 h6; exact ⟨h1, h2, h3, h4, h5, h6⟩⟩)
  | (rename_i x1 x2 x3 x4 x5 y1 y2 y3 y4 y5
     exact decidable_of_iff (x1 = y1 ∧ x2 = y2 ∧ x3 = y3 ∧ x4 = y4 ∧ x5 = y5)
       ⟨fun ⟨h1, h2, h3, h4, h5⟩ => by rw [h1, h2, h3, h4, h5],
        fun h => by injection h with h1 h2 h3 h4 h5; exact ⟨h1, h2, h3, h4, h5⟩⟩)
  | (rename_i x1 x2 x3 x4 y1 y2 y3 y4
     exact decidable_of_iff (x1 = y1 ∧ x2 = y2 ∧ x3 = y3 ∧ x4 = y4)
       ⟨fun ⟨h1, h2, h3, h4⟩ => by rw [h1, h2, h3, h4],
        fun h => by injection h with h1 h2 h3 h4; exact ⟨h1, h2, h3, h4⟩⟩)
  | (rename_i x1 x2 x3 y1 y2 y3
     exact decidable_of_iff (x1 = y1 ∧ x2 = y2 ∧ x3 = y3)
       ⟨fun ⟨h1, h2, h3⟩ => by rw [h1, h2, h3],
        fun h => by injection h with h1 h2 h3; exact ⟨h1, h2, h3⟩⟩)
  | (rename_i x1 x2 y1 y2
     exact decidable_of_iff (x1 = y1 ∧ x2 = y2)
       ⟨fun ⟨h1, h2⟩ => by rw [h1, h2],
        fun h => by injection h with h1 h2; exact ⟨h1, h2⟩⟩)
  | (rename_i x1 y1
     exact decidable_of_iff (x1 = y1)
       ⟨fun h1 => by rw [h1], fun h => by injection h⟩)

/-- The value of `v.resize(n)` on a vector of handles: the first `n` elements
are kept, new slots are value-initialised to the null handle. -/
def vectorResize (v : List Handle) (n : Nat) : List Handle :=
  v.take n ++ List.replicate (n - v.length) VK_NULL_HANDLE

/-! ## `nativeCreateFramebuffers` (`Vulkan_Runner.cpp`, lines 60-121) -/

/-- What an entry point working on a `SwapchainInfo` leaves behind: its return
value, the record after the call, and the driver calls issued. -/
structure SwapchainOutcome where
  ret : Bool
  info : SwapchainInfo
  calls : List Call
deriving DecidableEq, Repr

/-- The framebuffer loop of `nativeCreateFramebuffers`, from index `i` on, over
the image views not yet visited. `drv j` is the driver's answer to the `j`-th
`vkCreateFramebuffer`. Returns the success flag, the framebuffer vector and the
calls issued. -/
def createFramebuffersLoop (drv : Nat → VkResult × Handle) (device renderPass : Handle)
    (extent : VkExtent2D) : List Handle → Nat → List Handle → Bool × List Handle × List Call
  | [], _, fbs => (true, fbs, [])
  | view :: rest, i, fbs =>
    let create := Call.vkCreateFramebuffer device
      { renderPass := renderPass, attachments := [view], width := extent.width,
        height := extent.height, layers := 1 }
    let fbs1 := fbs.set i (drv i).2
    if (drv i).1 ≠ VK_SUCCESS then
      (false, [], create :: ((List.range i).map fun j =>
        Call.vkDestroyFramebuffer device (fbs1.getD j VK_NULL_HANDLE)))
    else
      let r := createFramebuffersLoop drv device renderPass extent rest (i + 1) fbs1
      (r.1, r.2.1, create :: r.2.2)

def nativeCreateFramebuffers (drv : Nat → VkResult × Handle)
    (deviceHandle : Handle) (deviceInfo : DeviceInfo)
    (swapchainHandle : Handle) (swapchainInfo : SwapchainInfo)
    (renderPass : Handle) : SwapchainOutcome :=
  if deviceHandle = 0 ∨ swapchainHandle = 0 ∨ renderPass = 0 then
    { ret := false, info := swapchainInfo, calls := [] }
  else
    let fbs := vectorResize swapchainInfo.framebuffers swapchainInfo.imageViews.length
    let r := createFramebuffersLoop drv deviceInfo.device renderPass swapchainInfo.extent
      swapchainInfo.imageViews 0 fbs
    { ret := r.1, info := { swapchainInfo with framebuffers := r.2.1 }, calls := r.2.2 }

/-! ## `nativeCreateSwapchain` (`Vulkan_Runner.cpp`, lines 192-304) -/

/-- The answers of the driver to the calls of `nativeCreateSwapchain` and
`nativeResizeSwapchain`. `image i` is the `i`-th image of the new swapchain,
`imageView i` and `framebuffer i` answer the `i`-th creation of the call. -/
structure SwapchainDriver where
  waitIdle : VkResult
  capsResult : VkResult
  caps : VkSurfaceCapabilitiesKHR
  formats : List VkSurfaceFormatKHR
  createResult : VkResult
  newSwapchain : Handle
  imageCount : Nat
  image : Nat → Handle
  imageView : Nat → VkResult × Handle
  framebuffer : Nat → VkResult × Handle

/-- The `for (const auto& format : formats)` loop with its `break`, started
from the current choice. -/
def selectSurfaceFormat (current : VkSurfaceFormatKHR) : List VkSurfaceFormatKHR → VkSurfaceFormatKHR
  | [] => current
  | format :: rest =>
    if format.format = VK_FORMAT_B8G8R8A8_UNORM ∧
        format.colorSpace = VK_COLOR_SPACE_SRGB_NONLINEAR_KHR then format
    else selectSurfaceFormat current rest

/-- The image-count computation shared by create and resize (32-bit unsigned). -/
def requestedImageCount (capabilities : VkSurfaceCapabilitiesKHR) : Nat :=
  let imageCount := (capabilities.minImageCount + 1) % 2 ^ 32
  if capabilities.maxImageCount > 0 ∧ imageCount > capabilities.maxImageCount then
    capabilities.maxImageCount
  else imageCount

/-- The image-view loop of `nativeCreateSwapchain`: the result of
`vkCreateImageView` is not looked at. -/
def createImageViewsLoop (drv : Nat → VkResult × Handle) (device : Handle) (format : Nat) :
    List Handle → Nat → List Handle → List Handle × List Call
  | [], _, views => (views, [])
  | image :: rest, i, views =>
    let r := createImageViewsLoop drv device format rest (i + 1) (views.set i (drv i).2)
    (r.1, Call.vkCreateImageView device image format :: r.2)

/-- The swapchain creation request of `nativeCreateSwapchain`. -/
def createSwapchainRequest (deviceInfo : DeviceInfo) (capabilities : VkSurfaceCapabilitiesKHR)
    (surfaceFormat : VkSurfaceFormatKHR) (extent : VkExtent2D) : VkSwapchainCreateInfoKHR :=
  let queueFamilyIndices := [deviceInfo.graphicsQueueFamily, deviceInfo.presentQueueFamily]
  let differ := deviceInfo.graphicsQueueFamily ≠ deviceInfo.presentQueueFamily
  { surface := deviceInfo.surface
    minImageCount := requestedImageCount capabilities
    imageFormat := surfaceFormat.format
    imageColorSpace := surfaceFormat.colorSpace
    imageExtent := extent
    imageArrayLayers := 1
    imageUsage := VK_IMAGE_USAGE_COLOR_ATTACHMENT_BIT
    imageSharingMode := if differ then VkSharingMode.CONCURRENT else VkSharingMode.EXCLUSIVE
    queueFamilyIndices := if differ then queueFamilyIndices else []
    preTransform := capabilities.currentTransform
    compositeAlpha := VK_COMPOSITE_ALPHA_OPAQUE_BIT_KHR
    presentMode := VK_PRESENT_MODE_FIFO_KHR
    clipped := true
    oldSwapchain := VK_NULL_HANDLE }

/-- The entry point returns `none` for the sentinel 0 and `some info` for the
address of a freshly allocated record. Reading `formats[0]` of an empty vector
is undefined in the source; here it reads a zero record. -/
def nativeCreateSwapchain (drv : SwapchainDriver) (deviceInfo : DeviceInfo) :
    Option SwapchainInfo × List Call :=
  let capabilities := drv.caps
  let queries :=
    [Call.vkGetPhysicalDeviceSurfaceCapabilitiesKHR deviceInfo.physicalDevice deviceInfo.surface,
     Call.vkGetPhysicalDeviceSurfaceFormatsKHR deviceInfo.physicalDevice deviceInfo.surface,
     Call.vkGetPhysicalDeviceSurfaceFormatsKHR deviceInfo.physicalDevice deviceInfo.surface]
  let surfaceFormat := selectSurfaceFormat (drv.formats.headD ⟨0, 0⟩) drv.formats
  let extent : VkExtent2D :=
    if capabilities.currentExtent.width = UINT32_MAX then ⟨1920, 1080⟩
    else capabilities.currentExtent
  let createInfo := createSwapchainRequest deviceInfo capabilities surfaceFormat extent
  let create := Call.vkCreateSwapchainKHR deviceInfo.device createInfo
  if drv.createResult ≠ VK_SUCCESS then
    (none, queries ++ [create])
  else
    let swapchain := drv.newSwapchain
    let getImages := Call.vkGetSwapchainImagesKHR deviceInfo.device swapchain
    let swapchainImages := (List.range drv.imageCount).map drv.image
    let views := createImageViewsLoop drv.imageView deviceInfo.device surfaceFormat.format
      swapchainImages 0 (List.replicate drv.imageCount VK_NULL_HANDLE)
    (some { swapchain := swapchain, images := swapchainImages, imageViews := views.1,
            framebuffers := [], format := surfaceFormat, extent := extent },
     queries ++ [create, getImages, getImages] ++ views.2)

/-! ## `nativeResizeSwapchain` (`Vulkan_Runner.cpp`, lines 538-748) -/

/-- The value of `static_cast<uint32_t>` on a 32-bit signed integer. -/
def toUInt32 (x : Int) : Nat := (x % 2 ^ 32).toNat

/-- The function `std::clamp`. -/
def clamp (v lo hi : Nat) : Nat := if v < lo then lo else if hi < v then hi else v

/-- The extent chosen by the resize (step 6). -/
def resizeExtent (surfaceCapabilities : VkSurfaceCapabilitiesKHR) (width height : Int) : VkExtent2D :=
  if surfaceCapabilities.currentExtent.width ≠ UINT32_MAX then
    surfaceCapabilities.currentExtent
  else
    { width := clamp (toUInt32 width) surfaceCapabilities.minImageExtent.width
        surfaceCapabilities.maxImageExtent.width
      height := clamp (toUInt32 height) surfaceCapabilities.minImageExtent.height
        surfaceCapabilities.maxImageExtent.height }

/-- The swapchain creation request of `nativeResizeSwapchain` (step 8). -/
def resizeSwapchainRequest (deviceInfo : DeviceInfo) (swapchainInfo : SwapchainInfo)
    (surfaceCapabilities : VkSurfaceCapabilitiesKHR) (newExtent : VkExtent2D)
    (oldSwapchain : Handle) : VkSwapchainCreateInfoKHR :=
  { surface := deviceInfo.surface
    minImageCount := requestedImageCount surfaceCapabilities
    imageFormat := swapchainInfo.format.format
    imageColorSpace := swapchainInfo.format.colorSpace
    imageExtent := newExtent
    imageArrayLayers := 1
    imageUsage := VK_IMAGE_USAGE_COLOR_ATTACHMENT_BIT
    imageSharingMode := VkSharingMode.EXCLUSIVE
    queueFamilyIndices := []
    preTransform := surfaceCapabilities.currentTransform
    compositeAlpha := VK_COMPOSITE_ALPHA_OPAQUE_BIT_KHR
    presentMode := VK_PRESENT_MODE_FIFO_KHR
    clipped := true
    oldSwapchain := oldSwapchain }

/-- The image-view loop of the resize (step 11): a failure returns at once. -/
def resizeImageViewsLoop (drv : Nat → VkResult × Handle) (device : Handle) (format : Nat) :
    List Handle → Nat → List Handle → Bool × List Handle × List Call
  | [], _, views => (true, views, [])
  | image :: rest, i, views =>
    let create := Call.vkCreateImageView device image format
    let views1 := views.set i (drv i).2
    if (drv i).1 ≠ VK_SUCCESS then (false, views1, [create])
    else
      let r := resizeImageViewsLoop drv device format rest (i + 1) views1
      (r.1, r.2.1, create :: r.2.2)

/-- The framebuffer loop of the resize (step 12): a failure returns at once. -/
def resizeFramebuffersLoop (drv : Nat → VkResult × Handle) (device renderPass : Handle)
    (newExtent : VkExtent2D) : List Handle → Nat → List Handle → Bool × List Handle × List Call
  | [], _, fbs => (true, fbs, [])
  | view :: rest, i, fbs =>
    let create := Call.vkCreateFramebuffer device
      { renderPass := renderPass, attachments := [view], width := newExtent.width,
        height := newExtent.height, layers := 1 }
    let fbs1 := fbs.set i (drv i).2
    if (drv i).1 ≠ VK_SUCCESS then (false, fbs1, [create])
    else
      let r := resizeFramebuffersLoop drv device renderPass newExtent rest (i + 1) fbs1
      (r.1, r.2.1, create :: r.2.2)

/-- Steps 10 to 12 of the resize: enumerate the images of the new swapchain,
rebuild the image views, then the framebuffers. `info` already holds the new
swapchain and extent; `calls` are the calls issued so far. -/
def resizeRebuild (drv : SwapchainDriver) (deviceInfo : DeviceInfo) (info : SwapchainInfo)
    (renderPass newSwapchain : Handle) (newExtent : VkExtent2D) (calls : List Call) :
    SwapchainOutcome :=
  let actualImageCount := drv.imageCount
  let getImages := Call.vkGetSwapchainImagesKHR deviceInfo.device newSwapchain
  let images := (List.range actualImageCount).map drv.image
  let views := resizeImageViewsLoop drv.imageView deviceInfo.device info.format.format
    images 0 (vectorResize info.imageViews actualImageCount)
  let info1 := { info with imageViews := views.2.1 }
  let calls1 := calls ++ [getImages, getImages] ++ views.2.2
  if views.1 = false then
    { ret := false, info := info1, calls := calls1 }
  else
    let fbs := resizeFramebuffersLoop drv.framebuffer deviceInfo.device renderPass newExtent
      info1.imageViews 0 (vectorResize info1.framebuffers actualImageCount)
    { ret := fbs.1, info := { info1 with framebuffers := fbs.2.1 }, calls := calls1 ++ fbs.2.2 }

def nativeResizeSwapchain (drv : SwapchainDriver)
    (deviceHandle : Handle) (deviceInfo : DeviceInfo)
    (swapchainHandle : Handle) (swapchainInfo : SwapchainInfo)
    (renderPassHandle : Handle) (width height : Int) : SwapchainOutcome :=
  if width ≤ 0 ∨ height ≤ 0 then
    { ret := false, info := swapchainInfo, calls := [] }
  else if deviceHandle = 0 ∨ swapchainHandle = 0 then
    { ret := false, info := swapchainInfo, calls := [] }
  else
    let waitIdle := [Call.vkDeviceWaitIdle deviceInfo.device]
    if drv.waitIdle ≠ VK_SUCCESS then
      { ret := false, info := swapchainInfo, calls := waitIdle }
    else
      let destroyFramebuffers := (swapchainInfo.framebuffers.filter (· ≠ VK_NULL_HANDLE)).map
        (Call.vkDestroyFramebuffer deviceInfo.device)
      let destroyViews := (swapchainInfo.imageViews.filter (· ≠ VK_NULL_HANDLE)).map
        (Call.vkDestroyImageView deviceInfo.device)
      let cleared := { swapchainInfo with framebuffers := [], imageViews := [] }
      let oldSwapchain := swapchainInfo.swapchain
      let queried := waitIdle ++ destroyFramebuffers ++ destroyViews ++
        [Call.vkGetPhysicalDeviceSurfaceCapabilitiesKHR deviceInfo.physicalDevice
          deviceInfo.surface]
      if drv.capsResult ≠ VK_SUCCESS then
        { ret := false, info := cleared, calls := queried }
      else
        let surfaceCapabilities := drv.caps
        let newExtent := resizeExtent surfaceCapabilities width height
        let createInfo := resizeSwapchainRequest deviceInfo swapchainInfo surfaceCapabilities
          newExtent oldSwapchain
        let created := queried ++ [Call.vkCreateSwapchainKHR deviceInfo.device createInfo]
        if drv.createResult ≠ VK_SUCCESS then
          { ret := false, info := cleared, calls := created }
        else
          let newSwapchain := drv.newSwapchain
          let destroyOld :=
            if oldSwapchain ≠ VK_NULL_HANDLE then
              [Call.vkDestroySwapchainKHR deviceInfo.device oldSwapchain]
            else []
          resizeRebuild drv deviceInfo
            { cleared with swapchain := newSwapchain, extent := newExtent }
            renderPassHandle newSwapchain newExtent (created ++ destroyOld)

/-- The entry point `nativeGetSwapchainImageCount`. -/
def nativeGetSwapchainImageCount (swapchainInfo : SwapchainInfo) : Nat :=
  swapchainInfo.images.length

/-! ## Frame synchronisation (`Vulkan_Runner.cpp`, lines 468-511 and 1276-1339) -/

def UINT64_MAX : Nat := 18446744073709551615

/-- The 64-bit two's-complement pattern of an integer. -/
def bits64 (x : Int) : Nat := (x % 2 ^ 64).toNat

/-- The signed value of a 64-bit pattern. -/
def ofBits64 (p : Nat) : Int := if p < 2 ^ 63 then (p : Int) else (p : Int) - 2 ^ 64

/-- The expression `(static_cast<jlong>(result) << 32) | static_cast<jlong>(imageIndex)`
on 64-bit two's-complement values. -/
def packResultAndIndex (result : VkResult) (imageIndex : Nat) : Int :=
  ofBits64 (((bits64 result <<< 32) % 2 ^ 64) ||| bits64 (imageIndex : Int))

/-- The driver answers `vkAcquireNextImageKHR` with a result code and the
content of `imageIndex` after the call. -/
def nativeAcquireNextImageWithSemaphore (drv : VkResult × Nat) (deviceInfo : DeviceInfo)
    (swapchainInfo : SwapchainInfo) (semaphoreHandle : Handle) : Int × List Call :=
  (packResultAndIndex drv.1 drv.2,
   [Call.vkAcquireNextImageKHR deviceInfo.device swapchainInfo.swapchain UINT64_MAX
      semaphoreHandle VK_NULL_HANDLE])

/-- The caller's side of the packed value: the arithmetic shift right by 32. -/
def unpackResult (v : Int) : Int := v >>> (32 : Nat)

/-- The caller's side of the packed value: the bitwise AND with `0xFFFFFFFF`. -/
def unpackIndex (v : Int) : Nat := bits64 v &&& 0xFFFFFFFF

/-- The synchronous submit; `submitResult` answers `vkQueueSubmit`. -/
def nativeSubmitCommandBuffer (submitResult : VkResult) (deviceInfo : DeviceInfo)
    (commandBufferHandle : Handle) : List Call :=
  let waitStages := [VK_PIPELINE_STAGE_COLOR_ATTACHMENT_OUTPUT_BIT]
  let submitInfo : VkSubmitInfo :=
    { waitSemaphoreCount := 0, pWaitSemaphores := [], pWaitDstStageMask := waitStages,
      commandBufferCount := 1, pCommandBuffers := [commandBufferHandle],
      signalSemaphoreCount := 0, pSignalSemaphores := [] }
  let submit := Call.vkQueueSubmit deviceInfo.graphicsQueue [submitInfo] VK_NULL_HANDLE
  if submitResult ≠ VK_SUCCESS then [submit]
  else [submit, Call.vkQueueWaitIdle deviceInfo.graphicsQueue]

/-- The pipelined submit; `submitResult` answers `vkQueueSubmit`. -/
def nativeSubmitCommandBufferWithSync (submitResult : VkResult) (deviceInfo : DeviceInfo)
    (commandBufferHandle waitSemaphoreHandle signalSemaphoreHandle fenceHandle : Handle) :
    List Call :=
  let waitStages := [VK_PIPELINE_STAGE_COLOR_ATTACHMENT_OUTPUT_BIT]
  let submitInfo : VkSubmitInfo :=
    { waitSemaphoreCount := 1, pWaitSemaphores := [waitSemaphoreHandle],
      pWaitDstStageMask := waitStages,
      commandBufferCount := 1, pCommandBuffers := [commandBufferHandle],
      signalSemaphoreCount := 1, pSignalSemaphores := [signalSemaphoreHandle] }
  let submit := Call.vkQueueSubmit deviceInfo.graphicsQueue [submitInfo] fenceHandle
  if submitResult ≠ VK_SUCCESS then [submit] else [submit]

/-- The two submit entry points of the runner. -/
inductive SubmitEntry where
  | nativeSubmitCommandBuffer
  | nativeSubmitCommandBufferWithSync
deriving DecidableEq, Repr

/-- The calls of a submit entry point on the given arguments. -/
def SubmitEntry.run (e : SubmitEntry) (submitResult : VkResult) (deviceInfo : DeviceInfo)
    (commandBufferHandle waitSemaphoreHandle signalSemaphoreHandle fenceHandle : Handle) :
    List Call :=
  match e with
  | .nativeSubmitCommandBuffer =>
    VulkanRunner.nativeSubmitCommandBuffer submitResult deviceInfo commandBufferHandle
  | .nativeSubmitCommandBufferWithSync =>
    VulkanRunner.nativeSubmitCommandBufferWithSync submitResult deviceInfo commandBufferHandle
      waitSemaphoreHandle signalSemaphoreHandle fenceHandle

/-- Whether a call is the queue-idle wait. -/
def Call.isQueueWaitIdle : Call → Bool
  | .vkQueueWaitIdle _ => true
  | _ => false

/-! ## `nativeCreateShaderModule` (`affine_vulkan_filter_jni.cpp`, lines 104-175) -/

/-- The byte pattern of a `jbyte`. -/
def byteOf (b : Int) : Nat := (b % 256).toNat

/-- The 32-bit words of a buffer filled by `memcpy` from the given bytes, read
in host (little-endian) order; a trailing partial word is dropped. -/
def wordsOfBytes : List Int → List Nat
  | b0 :: b1 :: b2 :: b3 :: rest =>
    (byteOf b0 + byteOf b1 * 2 ^ 8 + byteOf b2 * 2 ^ 16 + byteOf b3 * 2 ^ 24) :: wordsOfBytes rest
  | _ => []

def SPIRV_MAGIC : Nat := 0x07230203

/-- The array `codeArray` is `none` for a null reference. `elementsPinned` tells
whether `GetByteArrayElements` returned a non-null pointer, `drv` answers
`vkCreateShaderModule`. -/
def nativeCreateShaderModule (elementsPinned : Bool) (drv : VkResult × Handle)
    (deviceHandle : Handle) (deviceInfo : DeviceInfo) (codeArray : Option (List Int)) :
    Handle × List Call :=
  if deviceHandle = 0 then (0, [])
  else
    match codeArray with
    | none => (0, [])
    | some bytes =>
      let device := deviceInfo.device
      let codeSize := bytes.length
      if codeSize % 4 ≠ 0 then (0, [])
      else if codeSize < 16 then (0, [])
      else
        if elementsPinned = false then (0, [])
        else
          let alignedCode := wordsOfBytes bytes
          if alignedCode.getD 0 0 ≠ SPIRV_MAGIC then (0, [])
          else
            let create := Call.vkCreateShaderModule device codeSize alignedCode
            if drv.1 ≠ VK_SUCCESS then (0, [create])
            else (drv.2, [create])

/-! ## Input texture (`Vulkan_Runner.cpp`, lines 1615-1856 and 2218-2529) -/

/-- The GPU fields of the texture record. -/
structure InputTextureInfo where
  image : Handle
  memory : Handle
  imageView : Handle
  width : Nat
  height : Nat
deriving DecidableEq, Repr

/-- The answers of the driver to the creating calls of a one-shot upload. -/
structure UploadDriver where
  createBuffer : VkResult × Handle
  allocateMemory : VkResult × Handle
  createCommandPool : VkResult × Handle
  allocateCommandBuffers : VkResult × Handle

/-- The answers of the driver to the calls of `nativeCreateInputTexture`. -/
structure TextureDriver where
  createImage : VkResult × Handle
  allocateMemory : VkResult × Handle
  createImageView : VkResult × Handle
  upload : UploadDriver

/-- The two calls made around `findMemoryType` for the staging buffer. -/
def stagingMemoryQueries (deviceInfo : DeviceInfo) (stagingBuffer : Handle) : List Call :=
  [Call.vkGetBufferMemoryRequirements deviceInfo.device stagingBuffer,
   Call.vkGetPhysicalDeviceMemoryProperties deviceInfo.physicalDevice]

/-- The tail shared by the three upload paths, from the creation of the
temporary command pool to the release of the transient objects: record the
barrier from `oldLayout` to transfer-destination, the copy, the barrier to
shader-read-only, submit and wait for the queue. -/
def recordAndSubmitUpload (drv : UploadDriver) (deviceInfo : DeviceInfo)
    (stagingBuffer stagingMemory image : Handle) (width height : Nat)
    (oldLayout : VkImageLayout) : List Call :=
  let tempPool := drv.createCommandPool.2
  let cmdBuffer := drv.allocateCommandBuffers.2
  let submitInfo : VkSubmitInfo :=
    { waitSemaphoreCount := 0, pWaitSemaphores := [], pWaitDstStageMask := [],
      commandBufferCount := 1, pCommandBuffers := [cmdBuffer],
      signalSemaphoreCount := 0, pSignalSemaphores := [] }
  [Call.vkCreateCommandPool deviceInfo.device deviceInfo.graphicsQueueFamily,
   Call.vkAllocateCommandBuffers deviceInfo.device tempPool,
   Call.vkBeginCommandBuffer cmdBuffer,
   Call.vkCmdPipelineBarrier cmdBuffer
     { image := image, oldLayout := oldLayout,
       newLayout := VkImageLayout.TRANSFER_DST_OPTIMAL },
   Call.vkCmdCopyBufferToImage cmdBuffer stagingBuffer image width height,
   Call.vkCmdPipelineBarrier cmdBuffer
     { image := image, oldLayout := VkImageLayout.TRANSFER_DST_OPTIMAL,
       newLayout := VkImageLayout.SHADER_READ_ONLY_OPTIMAL },
   Call.vkEndCommandBuffer cmdBuffer,
   Call.vkQueueSubmit deviceInfo.graphicsQueue [submitInfo] VK_NULL_HANDLE,
   Call.vkQueueWaitIdle deviceInfo.graphicsQueue,
   Call.vkFreeCommandBuffers deviceInfo.device tempPool cmdBuffer,
   Call.vkDestroyCommandPool deviceInfo.device tempPool,
   Call.vkDestroyBuffer deviceInfo.device stagingBuffer,
   Call.vkFreeMemory deviceInfo.device stagingMemory]

/-- The staging part of the uploads that do not check the driver's results
(`nativeCreateInputTexture`, `nativeUpdateInputTextureColor`). -/
def uncheckedStaging (drv : UploadDriver) (deviceInfo : DeviceInfo) (imageSize : Nat) :
    List Call :=
  let stagingBuffer := drv.createBuffer.2
  let stagingMemory := drv.allocateMemory.2
  [Call.vkCreateBuffer deviceInfo.device imageSize] ++
  stagingMemoryQueries deviceInfo stagingBuffer ++
  [Call.vkAllocateMemory deviceInfo.device,
   Call.vkBindBufferMemory deviceInfo.device stagingBuffer stagingMemory,
   Call.vkMapMemory deviceInfo.device stagingMemory imageSize,
   Call.vkUnmapMemory deviceInfo.device stagingMemory]

/-- The value of a 32-bit signed product; signed overflow, undefined in the
source, wraps here. -/
def wrapInt32 (x : Int) : Int := (x + 2 ^ 31) % 2 ^ 32 - 2 ^ 31

/-- The entry point returns `none` for the sentinel 0 and `some info` for the
address of a freshly allocated record. -/
def nativeCreateInputTexture (drv : TextureDriver) (deviceInfo : DeviceInfo)
    (width height : Int) : Option InputTextureInfo × List Call :=
  let device := deviceInfo.device
  let createImage := [Call.vkCreateImage device (toUInt32 width) (toUInt32 height)]
  if drv.createImage.1 ≠ VK_SUCCESS then (none, createImage)
  else
    let image := drv.createImage.2
    let allocated := createImage ++
      [Call.vkGetImageMemoryRequirements device image,
       Call.vkGetPhysicalDeviceMemoryProperties deviceInfo.physicalDevice,
       Call.vkAllocateMemory device]
    if drv.allocateMemory.1 ≠ VK_SUCCESS then
      (none, allocated ++ [Call.vkDestroyImage device image])
    else
      let imageMemory := drv.allocateMemory.2
      let viewed := allocated ++
        [Call.vkBindImageMemory device image imageMemory,
         Call.vkCreateImageView device image VK_FORMAT_R8G8B8A8_UNORM]
      if drv.createImageView.1 ≠ VK_SUCCESS then
        (none, viewed ++ [Call.vkFreeMemory device imageMemory, Call.vkDestroyImage device image])
      else
        let imageView := drv.createImageView.2
        let imageSize := bits64 (wrapInt32 (width * height * 4))
        (some { image := image, memory := imageMemory, imageView := imageView,
                width := toUInt32 width, height := toUInt32 height },
         viewed ++ uncheckedStaging drv.upload deviceInfo imageSize ++
           recordAndSubmitUpload drv.upload deviceInfo drv.upload.createBuffer.2
             drv.upload.allocateMemory.2 image (toUInt32 width) (toUInt32 height)
             VkImageLayout.UNDEFINED)

/-- The size `textureInfo->width * textureInfo->height * 4`, a product of 32-bit
unsigned values widened to `VkDeviceSize` afterwards. -/
def expectedSize (textureInfo : InputTextureInfo) : Nat :=
  (textureInfo.width * textureInfo.height * 4) % 2 ^ 32

/-- The array `dataArray` is given by its bytes; its length is `dataSize`. -/
def nativeUpdateInputTexture (drv : UploadDriver)
    (deviceHandle : Handle) (deviceInfo : DeviceInfo)
    (textureHandle : Handle) (textureInfo : InputTextureInfo)
    (dataArray : List Int) : List Call :=
  if deviceHandle = 0 ∨ textureHandle = 0 then []
  else
    let dataSize := dataArray.length
    let expectedSize := expectedSize textureInfo
    if dataSize ≠ expectedSize then []
    else
      let createBuffer := [Call.vkCreateBuffer deviceInfo.device expectedSize]
      if drv.createBuffer.1 ≠ VK_SUCCESS then createBuffer
      else
        let stagingBuffer := drv.createBuffer.2
        let allocated := createBuffer ++ stagingMemoryQueries deviceInfo stagingBuffer ++
          [Call.vkAllocateMemory deviceInfo.device]
        if drv.allocateMemory.1 ≠ VK_SUCCESS then
          allocated ++ [Call.vkDestroyBuffer deviceInfo.device stagingBuffer]
        else
          let stagingMemory := drv.allocateMemory.2
          allocated ++
          [Call.vkBindBufferMemory deviceInfo.device stagingBuffer stagingMemory,
           Call.vkMapMemory deviceInfo.device stagingMemory expectedSize,
           Call.vkUnmapMemory deviceInfo.device stagingMemory] ++
          recordAndSubmitUpload drv deviceInfo stagingBuffer stagingMemory textureInfo.image
            textureInfo.width textureInfo.height VkImageLayout.SHADER_READ_ONLY_OPTIMAL

def nativeUpdateInputTextureColor (drv : UploadDriver)
    (deviceHandle : Handle) (deviceInfo : DeviceInfo)
    (textureHandle : Handle) (textureInfo : InputTextureInfo)
    (_r _g _b _a : Int) : List Call :=
  if deviceHandle = 0 ∨ textureHandle = 0 then []
  else
    let imageSize := expectedSize textureInfo
    uncheckedStaging drv deviceInfo imageSize ++
    recordAndSubmitUpload drv deviceInfo drv.createBuffer.2 drv.allocateMemory.2
      textureInfo.image textureInfo.width textureInfo.height
      VkImageLayout.SHADER_READ_ONLY_OPTIMAL

/-- An update of an input texture, with the driver's answers to it. -/
inductive TextureUpdate where
  | pixels (drv : UploadDriver) (dataArray : List Int)
  | color (drv : UploadDriver) (r g b a : Int)

/-- The calls of one update. -/
def TextureUpdate.run (deviceHandle : Handle) (deviceInfo : DeviceInfo)
    (textureHandle : Handle) (textureInfo : InputTextureInfo) : TextureUpdate → List Call
  | .pixels drv dataArray =>
    nativeUpdateInputTexture drv deviceHandle deviceInfo textureHandle textureInfo dataArray
  | .color drv r g b a =>
    nativeUpdateInputTextureColor drv deviceHandle deviceInfo textureHandle textureInfo r g b a

/-- Whether the driver lets the update reach its command recording: a pixel
update needs its staging buffer and staging memory, a colour update does not
look at the driver's results. -/
def TextureUpdate.completes : TextureUpdate → Bool
  | .pixels drv _ => decide (drv.createBuffer.1 = VK_SUCCESS ∧ drv.allocateMemory.1 = VK_SUCCESS)
  | .color _ _ _ _ _ => true

/-- Whether a pixel update carries an array of the size the texture expects. -/
def TextureUpdate.correctlySized (textureInfo : InputTextureInfo) : TextureUpdate → Bool
  | .pixels _ dataArray => decide (dataArray.length = expectedSize textureInfo)
  | .color _ _ _ _ _ => true

/-- The calls of a sequence of updates of one texture, in order. -/
def runTextureUpdates (deviceHandle : Handle) (deviceInfo : DeviceInfo)
    (textureHandle : Handle) (textureInfo : InputTextureInfo) :
    List TextureUpdate → List Call
  | [] => []
  | u :: rest =>
    u.run deviceHandle deviceInfo textureHandle textureInfo ++
      runTextureUpdates deviceHandle deviceInfo textureHandle textureInfo rest

/-- The layout barriers among a list of calls, in recording order. -/
def barriersOf (calls : List Call) : List VkImageMemoryBarrier :=
  calls.filterMap fun c =>
    match c with
    | Call.vkCmdPipelineBarrier _ barrier => some barrier
    | _ => none

/-- Every barrier starts from the layout the barrier before it ended in. -/
def layoutsChained : List VkImageMemoryBarrier → Prop
  | [] => True
  | [_] => True
  | b1 :: b2 :: rest => b2.oldLayout = b1.newLayout ∧ layoutsChained (b2 :: rest)

/-! ## Helpers of `Vulkanutils.cpp` -/

def VK_QUEUE_GRAPHICS_BIT : Nat := 1

/-- The loop of `findQueueFamily` from index `i` on, over the queue flags of the
families not yet visited. `presentSupport i` is the content of `presentSupport`
after `vkGetPhysicalDeviceSurfaceSupportKHR` for family `i`. -/
def findQueueFamilyLoop (presentSupport : Nat → Bool) (physicalDevice : Handle) (flags : Nat)
    (surface : Handle) : List Nat → Nat → Nat × List Call
  | [], _ => (UINT32_MAX, [])
  | queueFlags :: rest, i =>
    if queueFlags &&& flags ≠ 0 then
      if surface ≠ VK_NULL_HANDLE then
        let query := Call.vkGetPhysicalDeviceSurfaceSupportKHR physicalDevice i surface
        if presentSupport i = true then (i, [query])
        else
          let r := findQueueFamilyLoop presentSupport physicalDevice flags surface rest (i + 1)
          (r.1, query :: r.2)
      else (i, [])
    else findQueueFamilyLoop presentSupport physicalDevice flags surface rest (i + 1)

/-- The helper `findQueueFamily`; `queueFamilies` are the queue flags the driver
reports for the families of the device. -/
def findQueueFamily (queueFamilies : List Nat) (presentSupport : Nat → Bool)
    (physicalDevice : Handle) (flags : Nat) (surface : Handle) : Nat × List Call :=
  let query := Call.vkGetPhysicalDeviceQueueFamilyProperties physicalDevice
  let r := findQueueFamilyLoop presentSupport physicalDevice flags surface queueFamilies 0
  (r.1, query :: query :: r.2)

/-- The helper `getSwapchainImageCount` (32-bit unsigned arithmetic). -/
def getSwapchainImageCount (capabilities : VkSurfaceCapabilitiesKHR) : Nat :=
  let imageCount := (capabilities.minImageCount + 1) % 2 ^ 32
  if capabilities.maxImageCount > 0 ∧ imageCount > capabilities.maxImageCount then
    capabilities.maxImageCount
  else imageCount

/-- The helper `chooseSwapExtent`. -/
def chooseSwapExtent (capabilities : VkSurfaceCapabilitiesKHR)
    (preferredWidth preferredHeight : Nat) : VkExtent2D :=
  if capabilities.currentExtent.width ≠ UINT32_MAX then
    capabilities.currentExtent
  else
    { width := clamp preferredWidth capabilities.minImageExtent.width
        capabilities.maxImageExtent.width
      height := clamp preferredHeight capabilities.minImageExtent.height
        capabilities.maxImageExtent.height }

/-! ## `nativeCreateDevice` (`Vulkan_Runner.cpp`, lines 1470-1546) -/

/-- The answers of the driver to the calls of `nativeCreateDevice`:
`physicalDevices` are the enumerated devices, `queueFamilies` the queue flags of
the families of the first one, `deviceQueue f` the queue of family `f`. -/
structure DeviceDriver where
  createSurface : VkResult × Handle
  physicalDevices : List Handle
  queueFamilies : List Nat
  presentSupport : Nat → Bool
  createDevice : VkResult × Handle
  deviceQueue : Nat → Handle

/-- The elements of `std::set<uint32_t>{a, b}` in iteration order. -/
def uniqueQueueFamilies (a b : Nat) : List Nat :=
  if a = b then [a] else if a < b then [a, b] else [b, a]

/-- The entry point returns `none` for the sentinel 0 and `some info` for the
address of a freshly allocated record. The calls on the native window are not
driver calls and are left out. -/
def nativeCreateDevice (drv : DeviceDriver) (instanceHandle : Handle) :
    Option DeviceInfo × List Call :=
  let vkSurface := drv.createSurface.2
  let counted := [Call.vkCreateAndroidSurfaceKHR instanceHandle,
    Call.vkEnumeratePhysicalDevices instanceHandle]
  let deviceCount := drv.physicalDevices.length
  if deviceCount = 0 then (none, counted)
  else
    let physicalDevice := drv.physicalDevices.headD VK_NULL_HANDLE
    let graphicsFamily := findQueueFamily drv.queueFamilies drv.presentSupport physicalDevice
      VK_QUEUE_GRAPHICS_BIT VK_NULL_HANDLE
    let presentFamily := findQueueFamily drv.queueFamilies drv.presentSupport physicalDevice
      VK_QUEUE_GRAPHICS_BIT vkSurface
    let requested := counted ++ [Call.vkEnumeratePhysicalDevices instanceHandle] ++
      graphicsFamily.2 ++ presentFamily.2 ++
      [Call.vkCreateDevice physicalDevice (uniqueQueueFamilies graphicsFamily.1 presentFamily.1)]
    if drv.createDevice.1 ≠ VK_SUCCESS then (none, requested)
    else
      let device := drv.createDevice.2
      (some { device := device, physicalDevice := physicalDevice,
              graphicsQueue := drv.deviceQueue graphicsFamily.1,
              presentQueue := drv.deviceQueue presentFamily.1,
              graphicsQueueFamily := graphicsFamily.1, presentQueueFamily := presentFamily.1,
              surface := vkSurface },
       requested ++ [Call.vkGetDeviceQueue device graphicsFamily.1 0,
         Call.vkGetDeviceQueue device presentFamily.1 0])

/-! ## Object creation without a handle check -/

def VK_DESCRIPTOR_TYPE_COMBINED_IMAGE_SAMPLER : Nat := 1
def VK_SHADER_STAGE_VERTEX_BIT : Nat := 1
def VK_SHADER_STAGE_FRAGMENT_BIT : Nat := 16
def VK_FENCE_CREATE_SIGNALED_BIT : Nat := 1

/-- The entry point `nativeCreateRenderPass` (`Vulkan_Runner.cpp`, lines
125-190): the handle is cast and read through, never compared. -/
def nativeCreateRenderPass (drv : VkResult × Handle) (_deviceHandle : Handle)
    (deviceInfo : DeviceInfo) : Handle × List Call :=
  let create := Call.vkCreateRenderPass deviceInfo.device VK_FORMAT_B8G8R8A8_UNORM
  if drv.1 ≠ VK_SUCCESS then (0, [create]) else (drv.2, [create])

/-- The entry point `nativeCreateCommandPool` (`Vulkan_Runner.cpp`, lines
307-328). -/
def nativeCreateCommandPool (drv : VkResult × Handle) (_deviceHandle : Handle)
    (deviceInfo : DeviceInfo) : Handle × List Call :=
  let create := Call.vkCreateCommandPool deviceInfo.device deviceInfo.graphicsQueueFamily
  if drv.1 ≠ VK_SUCCESS then (0, [create]) else (drv.2, [create])

/-- The entry point `nativeCreateDescriptorSetLayout`
(`affine_vulkan_filter_jni.cpp`, lines 23-57). -/
def nativeCreateDescriptorSetLayout (drv : VkResult × Handle) (_deviceHandle : Handle)
    (deviceInfo : DeviceInfo) : Handle × List Call :=
  let samplerLayoutBinding : VkDescriptorSetLayoutBinding :=
    { binding := 0, descriptorType := VK_DESCRIPTOR_TYPE_COMBINED_IMAGE_SAMPLER,
      descriptorCount := 1, stageFlags := VK_SHADER_STAGE_FRAGMENT_BIT }
  let create := Call.vkCreateDescriptorSetLayout deviceInfo.device [samplerLayoutBinding]
  if drv.1 ≠ VK_SUCCESS then (0, [create]) else (drv.2, [create])

/-- The size of a `float` in bytes. -/
def sizeofFloat : Nat := 4

/-- The entry point `nativeCreatePipelineLayout` (`affine_vulkan_filter_jni.cpp`,
lines 61-102). -/
def nativeCreatePipelineLayout (drv : VkResult × Handle) (_deviceHandle : Handle)
    (deviceInfo : DeviceInfo) (descriptorSetLayoutHandle : Handle) : Handle × List Call :=
  let pushConstantRange : VkPushConstantRange :=
    { stageFlags := VK_SHADER_STAGE_VERTEX_BIT, offset := 0, size := sizeofFloat * 32 }
  let create := Call.vkCreatePipelineLayout deviceInfo.device [descriptorSetLayoutHandle]
    [pushConstantRange]
  if drv.1 ≠ VK_SUCCESS then (0, [create]) else (drv.2, [create])

/-! ## Image index (`Vulkan_Runner.cpp`, lines 395-448 and 529-536) -/

/-- The comparison `imageIndex >= framebuffers.size()` converts the signed index
to the unsigned 64-bit `size_t`. -/
def nativeBeginRenderPass (commandBufferHandle renderPassHandle : Handle) (imageIndex : Int)
    (swapchainInfo : SwapchainInfo) : List Call :=
  if imageIndex < 0 ∨ bits64 imageIndex ≥ swapchainInfo.framebuffers.length then []
  else
    [Call.vkCmdBeginRenderPass commandBufferHandle renderPassHandle
       (swapchainInfo.framebuffers.getD (bits64 imageIndex) VK_NULL_HANDLE) swapchainInfo.extent,
     Call.vkCmdSetViewport commandBufferHandle swapchainInfo.extent.width
       swapchainInfo.extent.height,
     Call.vkCmdSetScissor commandBufferHandle swapchainInfo.extent]

/-- The entry point indexes the vector without a check: `some h` is the element
read, `none` stands for a read outside the vector, which is undefined in the
source. The signed index is converted to `size_t` by `operator[]`. -/
def nativeGetSwapchainImageView (swapchainInfo : SwapchainInfo) (imageIndex : Int) :
    Option Handle :=
  swapchainInfo.imageViews[bits64 imageIndex]?

/-! ## `nativeCreateSyncObjects` (`Vulkan_Runner.cpp`, lines 1138-1197) -/

/-- The answers of the driver to the three creations of frame slot `i`. -/
structure SyncDriver where
  imageAvailable : Nat → VkResult × Handle
  renderFinished : Nat → VkResult × Handle
  fence : Nat → VkResult × Handle

/-- The result of `nativeCreateSyncObjects`: its return value, the three element
buffers as the call leaves them, and the driver calls. -/
structure SyncOutcome where
  ret : Bool
  imageAvailableSems : List Handle
  renderFinishedSems : List Handle
  fences : List Handle
  calls : List Call
deriving DecidableEq, Repr

/-- The clean-up loop `for (int j = 0; j < i; j++)` of the failure branch. -/
def destroySyncObjects (device : Handle) (imageAvailableSems renderFinishedSems fences : List Handle)
    (i : Nat) : List Call :=
  (List.range i).flatMap fun j =>
    [Call.vkDestroySemaphore device (imageAvailableSems.getD j VK_NULL_HANDLE),
     Call.vkDestroySemaphore device (renderFinishedSems.getD j VK_NULL_HANDLE),
     Call.vkDestroyFence device (fences.getD j VK_NULL_HANDLE)]

/-- The loop `for (int i = 0; i < count; i++)` with `remaining` iterations left;
the three creations are chained by `||`, so a creation is attempted only when the
ones before it in the slot succeeded. -/
def createSyncObjectsLoop (drv : SyncDriver) (device : Handle) :
    Nat → Nat → List Handle → List Handle → List Handle → SyncOutcome
  | 0, _, imageAvailableSems, renderFinishedSems, fences =>
    { ret := true, imageAvailableSems := imageAvailableSems,
      renderFinishedSems := renderFinishedSems, fences := fences, calls := [] }
  | remaining + 1, i, imageAvailableSems, renderFinishedSems, fences =>
    let cleanup := destroySyncObjects device imageAvailableSems renderFinishedSems fences i
    let failed (created : List Call) : SyncOutcome :=
      { ret := false, imageAvailableSems := imageAvailableSems,
        renderFinishedSems := renderFinishedSems, fences := fences,
        calls := created ++ cleanup }
    if (drv.imageAvailable i).1 ≠ VK_SUCCESS then
      failed [Call.vkCreateSemaphore device]
    else if (drv.renderFinished i).1 ≠ VK_SUCCESS then
      failed [Call.vkCreateSemaphore device, Call.vkCreateSemaphore device]
    else if (drv.fence i).1 ≠ VK_SUCCESS then
      failed [Call.vkCreateSemaphore device, Call.vkCreateSemaphore device,
        Call.vkCreateFence device VK_FENCE_CREATE_SIGNALED_BIT]
    else
      let r := createSyncObjectsLoop drv device remaining (i + 1)
        (imageAvailableSems.set i (drv.imageAvailable i).2)
        (renderFinishedSems.set i (drv.renderFinished i).2)
        (fences.set i (drv.fence i).2)
      { r with calls := [Call.vkCreateSemaphore device, Call.vkCreateSemaphore device,
          Call.vkCreateFence device VK_FENCE_CREATE_SIGNALED_BIT] ++ r.calls }

/-- The three arrays are given by their elements; they are expected to hold at
least `count` elements each. -/
def nativeCreateSyncObjects (drv : SyncDriver) (deviceInfo : DeviceInfo) (count : Int)
    (imageAvailableSemaphoresArray renderFinishedSemaphoresArray inFlightFencesArray :
      List Handle) : SyncOutcome :=
  createSyncObjectsLoop drv deviceInfo.device count.toNat 0 imageAvailableSemaphoresArray
    renderFinishedSemaphoresArray inFlightFencesArray

/-! ## Descriptor update and push constants (`affine_vulkan_filter_jni.cpp`) -/

/-- The entry point `nativePushConstants` (lines 571-626). The float array is
`none` for a null reference, and is given by the bit patterns of its elements;
`elementsPinned` tells whether `GetFloatArrayElements` returned a non-null
pointer. -/
def nativePushConstants (elementsPinned : Bool)
    (commandBufferHandle pipelineLayoutHandle : Handle) (dataArray : Option (List Nat)) :
    List Call :=
  if commandBufferHandle = 0 ∨ pipelineLayoutHandle = 0 then []
  else
    match dataArray with
    | none => []
    | some values =>
      let dataSize := values.length
      if dataSize ≠ 32 then []
      else if elementsPinned = false then []
      else
        [Call.vkCmdPushConstants commandBufferHandle pipelineLayoutHandle
          VK_SHADER_STAGE_VERTEX_BIT 0 (dataSize * sizeofFloat) values]

/-! ## Helpers of `Vulkanutils.cpp`, continued (lines 37-62) -/

/-- The loop of `findMemoryType` from index `i` on, over the property flags of
the memory types not yet visited. `1 << i` is widened to 32 unsigned bits for
the bitwise and. Falling out of the loop returns 0. -/
def findMemoryTypeLoop (typeFilter properties : Nat) : List Nat → Nat → Nat
  | [], _ => 0
  | propertyFlags :: rest, i =>
    if typeFilter &&& ((1 <<< i) % 2 ^ 32) ≠ 0 ∧ propertyFlags &&& properties = properties then i
    else findMemoryTypeLoop typeFilter properties rest (i + 1)

/-- The helper `findMemoryType`; `memoryTypes` are the property flags of the
`memoryTypeCount` memory types the driver reports. -/
def findMemoryType (memoryTypes : List Nat) (physicalDevice : Handle)
    (typeFilter properties : Nat) : Nat × List Call :=
  (findMemoryTypeLoop typeFilter properties memoryTypes 0,
   [Call.vkGetPhysicalDeviceMemoryProperties physicalDevice])

/-- The loop of `chooseSurfaceFormat`, which returns from inside at the first
match. -/
def chooseSurfaceFormatLoop : List VkSurfaceFormatKHR → Option VkSurfaceFormatKHR
  | [] => none
  | format :: rest =>
    if format.format = VK_FORMAT_B8G8R8A8_UNORM ∧
        format.colorSpace = VK_COLOR_SPACE_SRGB_NONLINEAR_KHR then some format
    else chooseSurfaceFormatLoop rest

/-- The helper `chooseSurfaceFormat`; `return formats[0]` is an unchecked read,
`none` on an empty vector. -/
def chooseSurfaceFormat (formats : List VkSurfaceFormatKHR) : Option VkSurfaceFormatKHR :=
  match chooseSurfaceFormatLoop formats with
  | some format => some format
  | none => formats.head?

/-! ## `nativeCreateTestTexture` and `nativeGetTextureSampler`
(`Vulkan_Runner.cpp`, lines 817-1136) -/

structure TextureInfo where
  image : Handle
  memory : Handle
  imageView : Handle
  sampler : Handle
  width : Nat
  height : Nat
deriving DecidableEq, Repr

/-- The answers of the driver to the creating calls of
`nativeCreateTestTexture`, in the order of the calls. -/
structure TestTextureDriver where
  createImage : VkResult × Handle
  allocateImageMemory : VkResult × Handle
  createBuffer : VkResult × Handle
  allocateBufferMemory : VkResult × Handle
  createCommandPool : VkResult × Handle
  allocateCommandBuffers : VkResult × Handle
  createImageView : VkResult × Handle
  createSampler : VkResult × Handle

/-- The statement `if (handle != VK_NULL_HANDLE) { call }`. -/
def unlessNull (handle : Handle) (call : Call) : List Call :=
  if handle ≠ VK_NULL_HANDLE then [call] else []

/-- The entry point returns `none` for the sentinel 0 and `some info` for the
address of a freshly allocated record. Only the results of `vkCreateImage` and
`vkCreateSampler` change the control flow; the others are logged. -/
def nativeCreateTestTexture (drv : TestTextureDriver) (deviceInfo : DeviceInfo) :
    Option TextureInfo × List Call :=
  let device := deviceInfo.device
  let width := 1920
  let height := 1080
  let createImage := [Call.vkCreateImage device width height]
  if drv.createImage.1 ≠ VK_SUCCESS then (none, createImage)
  else
    let image := drv.createImage.2
    let imageMemory := drv.allocateImageMemory.2
    let stagingBuffer := drv.createBuffer.2
    let stagingBufferMemory := drv.allocateBufferMemory.2
    let tempCommandPool := drv.createCommandPool.2
    let commandBuffer := drv.allocateCommandBuffers.2
    let imageView := drv.createImageView.2
    let sampler := drv.createSampler.2
    let imageSize := (width * height * 4) % 2 ^ 32
    let submitInfo : VkSubmitInfo :=
      { waitSemaphoreCount := 0, pWaitSemaphores := [], pWaitDstStageMask := [],
        commandBufferCount := 1, pCommandBuffers := [commandBuffer],
        signalSemaphoreCount := 0, pSignalSemaphores := [] }
    let built := createImage ++
      [Call.vkGetImageMemoryRequirements device image,
       Call.vkGetPhysicalDeviceMemoryProperties deviceInfo.physicalDevice,
       Call.vkAllocateMemory device,
       Call.vkBindImageMemory device image imageMemory,
       Call.vkCreateBuffer device imageSize,
       Call.vkGetBufferMemoryRequirements device stagingBuffer,
       Call.vkGetPhysicalDeviceMemoryProperties deviceInfo.physicalDevice,
       Call.vkAllocateMemory device,
       Call.vkBindBufferMemory device stagingBuffer stagingBufferMemory,
       Call.vkMapMemory device stagingBufferMemory imageSize,
       Call.vkUnmapMemory device stagingBufferMemory,
       Call.vkCreateCommandPool device deviceInfo.graphicsQueueFamily,
       Call.vkAllocateCommandBuffers device tempCommandPool,
       Call.vkBeginCommandBuffer commandBuffer,
       Call.vkCmdPipelineBarrier commandBuffer
         { image := image, oldLayout := VkImageLayout.UNDEFINED,
           newLayout := VkImageLayout.TRANSFER_DST_OPTIMAL },
       Call.vkCmdCopyBufferToImage commandBuffer stagingBuffer image width height,
       Call.vkCmdPipelineBarrier commandBuffer
         { image := image, oldLayout := VkImageLayout.TRANSFER_DST_OPTIMAL,
           newLayout := VkImageLayout.SHADER_READ_ONLY_OPTIMAL },
       Call.vkEndCommandBuffer commandBuffer,
       Call.vkQueueSubmit deviceInfo.graphicsQueue [submitInfo] VK_NULL_HANDLE,
       Call.vkQueueWaitIdle deviceInfo.graphicsQueue,
       Call.vkFreeCommandBuffers device tempCommandPool commandBuffer,
       Call.vkCreateImageView device image VK_FORMAT_R8G8B8A8_UNORM,
       Call.vkCreateSampler device]
    let releaseStaging :=
      unlessNull stagingBuffer (Call.vkDestroyBuffer device stagingBuffer) ++
      unlessNull stagingBufferMemory (Call.vkFreeMemory device stagingBufferMemory) ++
      unlessNull tempCommandPool (Call.vkDestroyCommandPool device tempCommandPool)
    if drv.createSampler.1 ≠ VK_SUCCESS then
      (none, built ++
        unlessNull sampler (Call.vkDestroySampler device sampler) ++
        unlessNull imageView (Call.vkDestroyImageView device imageView) ++
        releaseStaging ++
        unlessNull image (Call.vkDestroyImage device image) ++
        unlessNull imageMemory (Call.vkFreeMemory device imageMemory))
    else
      (some { image := image, memory := imageMemory, imageView := imageView,
              sampler := VK_NULL_HANDLE, width := width, height := height },
       built ++ releaseStaging)

/-- The entry point `nativeGetTextureSampler`; the texture handle is the address
of `textureInfo`. -/
def nativeGetTextureSampler (textureHandle : Handle) (textureInfo : TextureInfo) : Handle :=
  if textureHandle = 0 then 0 else textureInfo.sampler

/-! ## Fence wait and reset (`Vulkan_Runner.cpp`, lines 1229-1252) -/

/-- The entry point `nativeWaitForFence`: one wait for the fence with the
largest timeout; the result of the wait is dropped. -/
def nativeWaitForFence (deviceInfo : DeviceInfo) (fenceHandle : Handle) : List Call :=
  [Call.vkWaitForFences deviceInfo.device [fenceHandle] true UINT64_MAX]

/-- The entry point `nativeResetFence`. -/
def nativeResetFence (deviceInfo : DeviceInfo) (fenceHandle : Handle) : List Call :=
  [Call.vkResetFences deviceInfo.device [fenceHandle]]

/-! ## Definitions used to state the properties, and sample values -/

/-- The creation request of `nativeCreateFramebuffers` for one image view. -/
def framebufferRequest (device renderPass : Handle) (extent : VkExtent2D) (view : Handle) : Call :=
  Call.vkCreateFramebuffer device
    { renderPass := renderPass, attachments := [view], width := extent.width,
      height := extent.height, layers := 1 }

/-- A device whose graphics and present queues are of one family. -/
def sampleDevice : DeviceInfo :=
  { device := 10, physicalDevice := 11, graphicsQueue := 12, presentQueue := 13,
    graphicsQueueFamily := 0, presentQueueFamily := 0, surface := 14 }

/-- A device whose graphics and present queue families differ. -/
def sampleSplitDevice : DeviceInfo :=
  { device := 10, physicalDevice := 11, graphicsQueue := 12, presentQueue := 13,
    graphicsQueueFamily := 0, presentQueueFamily := 1, surface := 14 }

/-- A swapchain of three images with its views and framebuffers. -/
def sampleSwapchain : SwapchainInfo :=
  { swapchain := 20, images := [30, 31, 32], imageViews := [40, 41, 42],
    framebuffers := [50, 51, 52], format := ⟨44, 0⟩, extent := ⟨1920, 1080⟩ }

/-- A driver that answers every call with success: the new swapchain has three
images, the `j`-th view is `140 + j`, the `j`-th framebuffer is `150 + j`. -/
def sampleDriver : SwapchainDriver :=
  { waitIdle := 0, capsResult := 0,
    caps := { minImageCount := 2, maxImageCount := 0, currentExtent := ⟨1280, 720⟩,
              minImageExtent := ⟨1, 1⟩, maxImageExtent := ⟨4096, 4096⟩, currentTransform := 1 },
    formats := [⟨44, 0⟩], createResult := 0, newSwapchain := 21, imageCount := 3,
    image := fun j => 130 + j, imageView := fun j => (0, 140 + j),
    framebuffer := fun j => (0, 150 + j) }

/-- The swapchains destroyed by a list of calls, in order. -/
def destroyedSwapchains (calls : List Call) : List Handle :=
  calls.filterMap fun c =>
    match c with
    | Call.vkDestroySwapchainKHR _ swapchain => some swapchain
    | _ => none

/-- The swapchain creation requests among a list of calls, in order. -/
def swapchainRequests (calls : List Call) : List VkSwapchainCreateInfoKHR :=
  calls.filterMap fun c =>
    match c with
    | Call.vkCreateSwapchainKHR _ info => some info
    | _ => none

/-- The two barriers of the first upload of a texture. -/
def creationBarriers (image : Handle) : List VkImageMemoryBarrier :=
  [{ image := image, oldLayout := VkImageLayout.UNDEFINED,
     newLayout := VkImageLayout.TRANSFER_DST_OPTIMAL },
   { image := image, oldLayout := VkImageLayout.TRANSFER_DST_OPTIMAL,
     newLayout := VkImageLayout.SHADER_READ_ONLY_OPTIMAL }]

/-- The two barriers of every later upload. -/
def updateBarriers (image : Handle) : List VkImageMemoryBarrier :=
  [{ image := image, oldLayout := VkImageLayout.SHADER_READ_ONLY_OPTIMAL,
     newLayout := VkImageLayout.TRANSFER_DST_OPTIMAL },
   { image := image, oldLayout := VkImageLayout.TRANSFER_DST_OPTIMAL,
     newLayout := VkImageLayout.SHADER_READ_ONLY_OPTIMAL }]

/-- The barriers of `n` later uploads, one after the other. -/
def repeatedUpdateBarriers (image : Handle) : Nat → List VkImageMemoryBarrier
  | 0 => []
  | n + 1 => updateBarriers image ++ repeatedUpdateBarriers image n

/-- The layout an image is left in by a list of barriers. -/
def finalLayout (barriers : List VkImageMemoryBarrier) : Option VkImageLayout :=
  barriers.getLast?.map fun b => b.newLayout

/-- An upload driver that answers every call with success. -/
def sampleUploadDriver : UploadDriver :=
  { createBuffer := (0, 60), allocateMemory := (0, 61), createCommandPool := (0, 62),
    allocateCommandBuffers := (0, 63) }

/-- An upload driver that cannot create the staging buffer. -/
def failingUploadDriver : UploadDriver :=
  { createBuffer := (-2, 0), allocateMemory := (0, 61), createCommandPool := (0, 62),
    allocateCommandBuffers := (0, 63) }

/-- A texture driver that answers every call with success. -/
def sampleTextureDriver : TextureDriver :=
  { createImage := (0, 70), allocateMemory := (0, 71), createImageView := (0, 72),
    upload := sampleUploadDriver }

/-- The record of the 2x2 texture created with `sampleTextureDriver`. -/
def sampleTexture : InputTextureInfo :=
  { image := 70, memory := 71, imageView := 72, width := 2, height := 2 }

/-- Three updates of the 2x2 texture: sixteen bytes, a colour, and sixteen
bytes that the driver refuses a staging buffer for. -/
def sampleUpdates : List TextureUpdate :=
  [TextureUpdate.pixels sampleUploadDriver (List.replicate 16 0),
   TextureUpdate.color sampleUploadDriver 255 0 0 255,
   TextureUpdate.pixels failingUploadDriver (List.replicate 16 0)]

/-- As `sampleDriver`, but the new swapchain has two images. -/
def shrinkingDriver : SwapchainDriver :=
  { sampleDriver with imageCount := 2 }

/-- A texture of 32768 x 32768 pixels: its size in bytes is 2^32. -/
def hugeTexture : InputTextureInfo :=
  { image := 70, memory := 71, imageView := 72, width := 32768, height := 32768 }

/-- The sharing mode and the queue family indices of a creation request. -/
def sharingOf (info : VkSwapchainCreateInfoKHR) : VkSharingMode × List Nat :=
  (info.imageSharingMode, info.queueFamilyIndices)

/-- The first sixteen bytes of a SPIR-V binary (version 1.0). -/
def sampleSpirv : List Int := [3, 2, 35, 7, 0, 0, 1, 0, 0, 0, 0, 0, 8, 0, 0, 0]

/-- The first four bytes of an array read as a little-endian 32-bit word. -/
def magicWordOf (bytes : List Int) : Nat :=
  byteOf (bytes.getD 0 0) + byteOf (bytes.getD 1 0) * 2 ^ 8 + byteOf (bytes.getD 2 0) * 2 ^ 16 +
    byteOf (bytes.getD 3 0) * 2 ^ 24

/-- What the claim asks of shader bytes: a length that is a multiple of 4 and at
least 16, and the magic constant in the first word. -/
def validShaderBytes (bytes : List Int) : Prop :=
  bytes.length % 4 = 0 ∧ 16 ≤ bytes.length ∧ magicWordOf bytes = 0x07230203

instance (bytes : List Int) : Decidable (validShaderBytes bytes) := by
  unfold validShaderBytes; infer_instance

/-- The submission of the pipelined policy: one command buffer, one wait
semaphore at the color-attachment-output stage, one signal semaphore. -/
def pipelinedSubmitInfo (commandBuffer waitSemaphore signalSemaphore : Handle) : VkSubmitInfo :=
  { waitSemaphoreCount := 1, pWaitSemaphores := [waitSemaphore],
    pWaitDstStageMask := [VK_PIPELINE_STAGE_COLOR_ATTACHMENT_OUTPUT_BIT],
    commandBufferCount := 1, pCommandBuffers := [commandBuffer],
    signalSemaphoreCount := 1, pSignalSemaphores := [signalSemaphore] }

/-- A driver that creates handle `100 + j` at the `j`-th request and fails the
third request (index 2). -/
def failAtTwo (j : Nat) : VkResult × Handle :=
  if j = 2 then (-1, 0) else (0, 100 + j)

/-- The push-constant ranges among the pipeline-layout creations of a list of
calls. -/
def declaredPushConstantRanges (calls : List Call) : List VkPushConstantRange :=
  calls.flatMap fun c =>
    match c with
    | Call.vkCreatePipelineLayout _ _ ranges => ranges
    | _ => []

/-- The stage, offset and size of the push-constant commands of a list of
calls. -/
def pushedRanges (calls : List Call) : List VkPushConstantRange :=
  calls.filterMap fun c =>
    match c with
    | Call.vkCmdPushConstants _ _ stageFlags offset size _ =>
      some { stageFlags := stageFlags, offset := offset, size := size }
    | _ => none

/-- The calls of a resize from the device-idle wait up to and including the
creation request for the new swapchain. -/
def resizeCallsToCreation (deviceInfo : DeviceInfo) (swapchainInfo : SwapchainInfo)
    (surfaceCapabilities : VkSurfaceCapabilitiesKHR) (width height : Int) : List Call :=
  [Call.vkDeviceWaitIdle deviceInfo.device] ++
    (swapchainInfo.framebuffers.filter (· ≠ VK_NULL_HANDLE)).map
      (Call.vkDestroyFramebuffer deviceInfo.device) ++
    (swapchainInfo.imageViews.filter (· ≠ VK_NULL_HANDLE)).map
      (Call.vkDestroyImageView deviceInfo.device) ++
    [Call.vkGetPhysicalDeviceSurfaceCapabilitiesKHR deviceInfo.physicalDevice
      deviceInfo.surface] ++
    [Call.vkCreateSwapchainKHR deviceInfo.device
      (resizeSwapchainRequest deviceInfo swapchainInfo surfaceCapabilities
        (resizeExtent surfaceCapabilities width height) swapchainInfo.swapchain)]

/-- The destruction of the old swapchain (step 9 of the resize). -/
def destroyOldSwapchain (deviceInfo : DeviceInfo) (oldSwapchain : Handle) : List Call :=
  if oldSwapchain ≠ VK_NULL_HANDLE then
    [Call.vkDestroySwapchainKHR deviceInfo.device oldSwapchain]
  else []

/-- The record of a resize once the new swapchain exists and before its images
are enumerated. -/
def resizedRecord (drv : SwapchainDriver) (swapchainInfo : SwapchainInfo) (width height : Int) :
    SwapchainInfo :=
  { swapchain := drv.newSwapchain, images := swapchainInfo.images, imageViews := [],
    framebuffers := [], format := swapchainInfo.format,
    extent := resizeExtent drv.caps width height }

/-- The framebuffers destroyed by a list of calls, in order. -/
def destroyedFramebuffers (calls : List Call) : List Handle :=
  calls.filterMap fun c =>
    match c with
    | Call.vkDestroyFramebuffer _ framebuffer => some framebuffer
    | _ => none

/-- The image views destroyed by a list of calls, in order. -/
def destroyedImageViews (calls : List Call) : List Handle :=
  calls.filterMap fun c =>
    match c with
    | Call.vkDestroyImageView _ imageView => some imageView
    | _ => none

/-- The image count the specification asks for: `min(min + 1, max)`, a `max`
of 0 meaning unbounded. -/
def specImageCount (capabilities : VkSurfaceCapabilitiesKHR) : Nat :=
  if capabilities.maxImageCount > 0 then
    min (capabilities.minImageCount + 1) capabilities.maxImageCount
  else capabilities.minImageCount + 1

/-- Capabilities whose minimum image count is the largest 32-bit value. -/
def wrappingCaps : VkSurfaceCapabilitiesKHR :=
  { minImageCount := 4294967295, maxImageCount := 8, currentExtent := ⟨1280, 720⟩,
    minImageExtent := ⟨1, 1⟩, maxImageExtent := ⟨4096, 4096⟩, currentTransform := 1 }

/-- As `sampleDriver`, reporting `wrappingCaps`. -/
def wrappingDriver : SwapchainDriver :=
  { sampleDriver with caps := wrappingCaps }

/-- As `sampleDriver`, but the surface reports an undefined current extent. -/
def undefinedExtentDriver : SwapchainDriver :=
  { sampleDriver with
    caps := { minImageCount := 2, maxImageCount := 0, currentExtent := ⟨4294967295, 4294967295⟩,
              minImageExtent := ⟨64, 64⟩, maxImageExtent := ⟨4096, 4096⟩,
              currentTransform := 1 } }

/-- As `sampleDriver`, but the creation of the second image view (index 1)
fails and leaves a null handle in its slot. -/
def viewFailingDriver : SwapchainDriver :=
  { sampleDriver with imageView := fun j => if j = 1 then (-1, 0) else (0, 140 + j) }

/-- As `sampleDriver`, but the creation of the third framebuffer (index 2) fails
and leaves a null handle in its slot. -/
def framebufferFailingDriver : SwapchainDriver :=
  { sampleDriver with framebuffer := fun j => if j = 2 then (-1, 0) else (0, 150 + j) }

/-- A driver whose surface creation fails, leaving a null surface handle; one
physical device with one graphics queue family; device creation succeeds. -/
def surfacelessDriver : DeviceDriver :=
  { createSurface := (-1, 0), physicalDevices := [80], queueFamilies := [1],
    presentSupport := fun _ => true, createDevice := (0, 81), deviceQueue := fun f => 90 + f }

/-- A driver with a surface and one graphics queue family that cannot present to
it; device creation succeeds. -/
def presentlessDriver : DeviceDriver :=
  { createSurface := (0, 14), physicalDevices := [80], queueFamilies := [1],
    presentSupport := fun _ => false, createDevice := (0, 81), deviceQueue := fun f => 90 + f }

/-- A driver that creates the objects of slot `i` as `200 + i`, `210 + i` and
`220 + i`, and fails the second semaphore of slot 1. -/
def slotOneFailingDriver : SyncDriver :=
  { imageAvailable := fun i => (0, 200 + i),
    renderFinished := fun i => if i = 1 then (-1, 0) else (0, 210 + i),
    fence := fun i => (0, 220 + i) }

/-- Whether a surface format is the preferred pair of the swapchain creation. -/
def isPreferredFormat (format : VkSurfaceFormatKHR) : Bool :=
  decide (format.format = VK_FORMAT_B8G8R8A8_UNORM ∧
    format.colorSpace = VK_COLOR_SPACE_SRGB_NONLINEAR_KHR)

/-- The format the specification asks for: the first element of the list with
the preferred pair, the first element of the list when there is none. -/
def specSurfaceFormat (formats : List VkSurfaceFormatKHR) : Option VkSurfaceFormatKHR :=
  match formats.find? isPreferredFormat with
  | some format => some format
  | none => formats.head?

/-- The surface formats of the swapchain creation requests among a list of
calls, in order. -/
def requestedSurfaceFormats (calls : List Call) : List VkSurfaceFormatKHR :=
  (swapchainRequests calls).map fun info => ⟨info.imageFormat, info.imageColorSpace⟩

/-- The extents of the swapchain creation requests among a list of calls, in
order. -/
def requestedExtents (calls : List Call) : List VkExtent2D :=
  (swapchainRequests calls).map fun info => info.imageExtent

/-- The fallback resolution of the swapchain creation. -/
def fallbackExtent : VkExtent2D := ⟨1920, 1080⟩

/-- As `sampleDriver`, with the preferred format in second place. -/
def preferredSecondDriver : SwapchainDriver :=
  { sampleDriver with formats := [⟨37, 0⟩, ⟨44, 0⟩, ⟨50, 0⟩] }

/-- Whether a call releases an object of the kinds an upload creates for its
own use: a command buffer, a command pool, a buffer, device memory. -/
def Call.isTransientRelease : Call → Bool
  | Call.vkFreeCommandBuffers _ _ _ => true
  | Call.vkDestroyCommandPool _ _ => true
  | Call.vkDestroyBuffer _ _ => true
  | Call.vkFreeMemory _ _ => true
  | _ => false

/-- The queue-idle wait of an upload followed by the release of each of its
transient objects: the command buffer, the command pool, the staging buffer,
the staging memory, as created by the driver `drv`. -/
def waitThenRelease (drv : UploadDriver) (deviceInfo : DeviceInfo) : List Call :=
  [Call.vkQueueWaitIdle deviceInfo.graphicsQueue,
   Call.vkFreeCommandBuffers deviceInfo.device drv.createCommandPool.2
     drv.allocateCommandBuffers.2,
   Call.vkDestroyCommandPool deviceInfo.device drv.createCommandPool.2,
   Call.vkDestroyBuffer deviceInfo.device drv.createBuffer.2,
   Call.vkFreeMemory deviceInfo.device drv.allocateMemory.2]

/-- The bytes of a pixel update of `sampleTexture`. -/
def samplePixels : List Int := List.replicate (expectedSize sampleTexture) 7

/-- Family `i` is one `findQueueFamily` may return: it exists, its queue flags
share a bit with the requested flags and, when a surface is given, it supports
presentation to the surface. -/
def suitableQueueFamily (queueFamilies : List Nat) (presentSupport : Nat → Bool)
    (flags : Nat) (surface : Handle) (i : Nat) : Prop :=
  ∃ queueFlags, queueFamilies[i]? = some queueFlags ∧ queueFlags &&& flags ≠ 0 ∧
    (surface ≠ VK_NULL_HANDLE → presentSupport i = true)

/-- A driver with a surface and three queue families: a compute-only family, a
graphics family that cannot present, a graphics family that can. -/
def threeFamiliesDriver : DeviceDriver :=
  { createSurface := (0, 14), physicalDevices := [80], queueFamilies := [2, 1, 3],
    presentSupport := fun i => decide (i = 2), createDevice := (0, 81),
    deviceQueue := fun f => 90 + f }

/-- Memory type `i` is one `findMemoryType` may return: it exists, bit `i` of
the type filter is set and its property flags contain every requested bit. -/
def suitableMemoryType (memoryTypes : List Nat) (typeFilter properties : Nat) (i : Nat) : Prop :=
  ∃ propertyFlags, memoryTypes[i]? = some propertyFlags ∧ typeFilter.testBit i = true ∧
    propertyFlags &&& properties = properties

/-- A driver of `nativeCreateTestTexture` that answers every creation with
success. -/
def sampleTestTextureDriver : TestTextureDriver :=
  { createImage := (0, 301), allocateImageMemory := (0, 302), createBuffer := (0, 303),
    allocateBufferMemory := (0, 304), createCommandPool := (0, 305),
    allocateCommandBuffers := (0, 306), createImageView := (0, 307),
    createSampler := (0, 308) }

/-- The samplers created by a list of calls are not named by the calls; the
samplers destroyed are. -/
def destroyedSamplers (calls : List Call) : List Handle :=
  calls.filterMap fun c =>
    match c with
    | Call.vkDestroySampler _ sampler => some sampler
    | _ => none

/-- The flags of the fence creations among a list of calls, in order. -/
def fenceCreationFlags (calls : List Call) : List Nat :=
  calls.filterMap fun c =>
    match c with
    | Call.vkCreateFence _ flags => some flags
    | _ => none

/-- A driver of the synchronisation objects that answers every creation with
success. -/
def sampleSyncDriver : SyncDriver :=
  { imageAvailable := fun i => (0, 200 + i), renderFinished := fun i => (0, 210 + i),
    fence := fun i => (0, 220 + i) }

/-! ## The frame loop of the caller -/

/-- The step of the current frame the CPU thread is about to take. -/
inductive FramePhase where
  | waiting
  | resetting
  | submitting
deriving DecidableEq, Repr

/-- Modelled from the spec: the frame loop that drives the entry points, which is
code of the Java class `VulkanRunner` and not among the native sources, together
with the GPU it feeds. Frames `0 .. frame - 1` have been submitted, frame
`frame` is being prepared in slot `frame % slots`; `fenceSignaled k` is the
state of the fence of slot `k`; `completed i` tells whether the GPU has finished
submission `i`. -/
structure FrameLoop where
  frame : Nat
  phase : FramePhase
  fenceSignaled : Nat → Bool
  completed : Nat → Bool

/-- What can happen next: one of the three CPU steps of a frame, or the GPU
finishing a submission at a moment of its own choosing. -/
inductive FrameEvent where
  | waitForFence
  | resetFence
  | submit
  | gpuCompletes (frame : Nat)
deriving DecidableEq, Repr

/-- Modelled from the spec: one step of the frame loop with `slots` frame slots
(sections 4.3 and 5). The CPU waits on the fence of the slot, an unbounded wait
that returns only once the fence is signaled; it resets the fence only after the
wait; it then submits the frame with the fence of the slot. The GPU finishes
submitted work at any later moment, in any order, and signals the fence the
submission carried. A step that cannot be taken gives `none`. -/
def FrameLoop.step (slots : Nat) (s : FrameLoop) : FrameEvent → Option FrameLoop
  | FrameEvent.waitForFence =>
    if s.phase = FramePhase.waiting ∧ s.fenceSignaled (s.frame % slots) = true then
      some { s with phase := FramePhase.resetting }
    else none
  | FrameEvent.resetFence =>
    if s.phase = FramePhase.resetting then
      some { s with
        phase := FramePhase.submitting
        fenceSignaled := fun k => if k = s.frame % slots then false else s.fenceSignaled k }
    else none
  | FrameEvent.submit =>
    if s.phase = FramePhase.submitting then
      some { s with phase := FramePhase.waiting, frame := s.frame + 1 }
    else none
  | FrameEvent.gpuCompletes i =>
    if i < s.frame ∧ s.completed i = false then
      some { s with
        completed := fun j => if j = i then true else s.completed j
        fenceSignaled := fun k => if k = i % slots then true else s.fenceSignaled k }
    else none

/-- The frame loop run over a sequence of events; `none` when one of them
cannot be taken. -/
def FrameLoop.run (slots : Nat) : FrameLoop → List FrameEvent → Option FrameLoop
  | s, [] => some s
  | s, e :: rest =>
    match FrameLoop.step slots s e with
    | some t => FrameLoop.run slots t rest
    | none => none

/-- Modelled from the spec: the frame loop before its first frame. The fences
are in the state `nativeCreateSyncObjects` creates them in, signaled. -/
def FrameLoop.start : FrameLoop :=
  { frame := 0, phase := FramePhase.waiting, fenceSignaled := fun _ => true,
    completed := fun _ => false }

/-- The driver calls of a CPU step, made through the entry points of the
runner; `fences k`, `commandBuffers k`, `imageAvailable k` and
`renderFinished k` are the objects of slot `k`. -/
def FrameLoop.calls (deviceInfo : DeviceInfo)
    (fences commandBuffers imageAvailable renderFinished : Nat → Handle)
    (slots : Nat) (s : FrameLoop) : FrameEvent → List Call
  | FrameEvent.waitForFence => nativeWaitForFence deviceInfo (fences (s.frame % slots))
  | FrameEvent.resetFence => nativeResetFence deviceInfo (fences (s.frame % slots))
  | FrameEvent.submit =>
    nativeSubmitCommandBufferWithSync VK_SUCCESS deviceInfo (commandBuffers (s.frame % slots))
      (imageAvailable (s.frame % slots)) (renderFinished (s.frame % slots))
      (fences (s.frame % slots))
  | FrameEvent.gpuCompletes _ => []

/-- Three frames in two slots: frames 0 and 1 are submitted, the GPU finishes
frame 0, then frame 2 is submitted in the slot of frame 0. -/
def sampleFrameEvents : List FrameEvent :=
  [FrameEvent.waitForFence, FrameEvent.resetFence, FrameEvent.submit,
   FrameEvent.waitForFence, FrameEvent.resetFence, FrameEvent.submit,
   FrameEvent.gpuCompletes 0,
   FrameEvent.waitForFence, FrameEvent.resetFence, FrameEvent.submit]

/-- The state of the frame loop after `sampleFrameEvents`. -/
def sampleFrameLoop : FrameLoop :=
  (FrameLoop.run 2 FrameLoop.start sampleFrameEvents).getD FrameLoop.start

/-- The record `nativeCreateSwapchain` returns with `sampleDriver` on `sampleDevice`. -/
def createdSwapchain : SwapchainInfo :=
  { swapchain := 21, images := [130, 131, 132], imageViews := [140, 141, 142],
    framebuffers := [], format := ⟨44, 0⟩, extent := ⟨1280, 720⟩ }

/-- As `sampleDriver`, with other handles for the objects it creates. -/
def secondResizeDriver : SwapchainDriver :=
  { sampleDriver with
    newSwapchain := 22, image := fun j => 230 + j, imageView := fun j => (0, 240 + j),
    framebuffer := fun j => (0, 250 + j) }

/-- The record `nativeCreateDevice` returns with `threeFamiliesDriver`. -/
def threeFamiliesDevice : DeviceInfo :=
  { device := 81, physicalDevice := 80, graphicsQueue := 91, presentQueue := 92,
    graphicsQueueFamily := 1, presentQueueFamily := 2, surface := 14 }

/-- The record `nativeCreateTestTexture` returns with `sampleTestTextureDriver`. -/
def sampleTestTexture : TextureInfo :=
  { image := 301, memory := 302, imageView := 307, sampler := 0, width := 1920, height := 1080 }

/-- What holds of the frame loop at every moment: a signaled fence means the
submissions of its slot are complete; once the CPU is past the wait of a frame,
the earlier submissions of the slot are complete; so is every frame submitted
`slots` frames ago; between reset and submit the fence of the slot stays
unsignaled; the fence of a slot not used yet is signaled. -/
structure FrameLoop.Disciplined (slots : Nat) (s : FrameLoop) : Prop where
  signaledDone : ∀ j, j < s.frame → s.fenceSignaled (j % slots) = true → s.completed j = true
  slotDone : s.phase ≠ FramePhase.waiting →
    ∀ j, j < s.frame → j % slots = s.frame % slots → s.completed j = true
  reuseDone : ∀ j, j + slots < s.frame → s.completed j = true
  resetHeld : s.phase = FramePhase.submitting → s.fenceSignaled (s.frame % slots) = false
  freshSignaled : ∀ k, k < slots → (s.frame < k ∨ (s.frame = k ∧ s.phase = FramePhase.waiting)) →
    s.fenceSignaled k = true

/-! # Properties -/

/-! ## Framebuffer creation rolls back -/

theorem getD_set_of_ne (fbs : List Handle) (i j : Nat) (h : Handle) (hne : j ≠ i) :
    (fbs.set i h).getD j VK_NULL_HANDLE = fbs.getD j VK_NULL_HANDLE := by
  simp [List.getD_eq_getElem?_getD, List.getElem?_set_ne (Ne.symm hne)]

theorem getD_set_self (fbs : List Handle) (i : Nat) (h : Handle) (hi : i < fbs.length) :
    (fbs.set i h).getD i VK_NULL_HANDLE = h := by
  simp [List.getD_eq_getElem?_getD, hi]

theorem createFramebuffersLoop_fail (drv : Nat → VkResult × Handle) (device renderPass : Handle)
    (extent : VkExtent2D) (i : Nat) (hfail : (drv i).1 ≠ VK_SUCCESS) :
    ∀ (views : List Handle) (k : Nat) (fbs : List Handle),
      k ≤ i → i < k + views.length → k + views.length ≤ fbs.length →
      (∀ j, j < k → fbs.getD j VK_NULL_HANDLE = (drv j).2) →
      (∀ j, k ≤ j → j < i → (drv j).1 = VK_SUCCESS) →
      createFramebuffersLoop drv device renderPass extent views k fbs =
        (false, [],
          (views.take (i - k + 1)).map (framebufferRequest device renderPass extent) ++
          (List.range i).map fun j => Call.vkDestroyFramebuffer device (drv j).2) := by
  intro views
  induction views with
  | nil => intro k fbs hk hi; simp at hi; omega
  | cons view rest ih =>
    intro k fbs hk hi hlen hinv hok
    rcases Nat.eq_or_lt_of_le hk with hki | hki
    · subst hki
      have hmap : (List.range k).map (fun j =>
            Call.vkDestroyFramebuffer device ((fbs.set k (drv k).2).getD j VK_NULL_HANDLE)) =
          (List.range k).map fun j => Call.vkDestroyFramebuffer device (drv j).2 := by
        apply List.map_congr_left
        intro j hj
        have hjk : j < k := List.mem_range.mp hj
        rw [getD_set_of_ne fbs k j _ (Nat.ne_of_lt hjk), hinv j hjk]
      have hstep : createFramebuffersLoop drv device renderPass extent (view :: rest) k fbs =
          (false, [], framebufferRequest device renderPass extent view ::
            (List.range k).map (fun j =>
              Call.vkDestroyFramebuffer device
                ((fbs.set k (drv k).2).getD j VK_NULL_HANDLE))) := by
        simp [createFramebuffersLoop, hfail, framebufferRequest]
      rw [hstep, hmap]
      simp
    · have hsucc : (drv k).1 = VK_SUCCESS := hok k (Nat.le_refl k) hki
      have hrec := ih (k + 1) (fbs.set k (drv k).2) hki
        (by simp at hi ⊢; omega) (by simp at hlen ⊢; omega)
        (by
          intro j hj
          rcases Nat.eq_or_lt_of_le (Nat.lt_succ_iff.mp hj) with hjk | hjk
          · subst hjk
            exact getD_set_self fbs j _ (by simp at hlen; omega)
          · rw [getD_set_of_ne fbs k j _ (Nat.ne_of_lt hjk), hinv j hjk])
        (fun j hj hji => hok j (by omega) hji)
      have htake : i - k + 1 = (i - (k + 1) + 1) + 1 := by omega
      simp [createFramebuffersLoop, hsucc, hrec, htake, framebufferRequest]

/-- C5: when framebuffer creation in `nativeCreateFramebuffers` first fails at
index `i`, the call returns false, leaves the framebuffer list of the record
empty (the other fields untouched), and the driver has seen the `i + 1` creation
requests followed by the destruction of exactly the framebuffers created for the
indices below `i`, in order. -/
theorem nativeCreateFramebuffers_rolls_back (drv : Nat → VkResult × Handle)
    (deviceHandle : Handle) (deviceInfo : DeviceInfo)
    (swapchainHandle : Handle) (swapchainInfo : SwapchainInfo) (renderPass : Handle) (i : Nat)
    (hdev : deviceHandle ≠ 0) (hsc : swapchainHandle ≠ 0) (hrp : renderPass ≠ 0)
    (hi : i < swapchainInfo.imageViews.length)
    (hok : ∀ j, j < i → (drv j).1 = VK_SUCCESS) (hfail : (drv i).1 ≠ VK_SUCCESS) :
    (nativeCreateFramebuffers drv deviceHandle deviceInfo swapchainHandle swapchainInfo
        renderPass).ret = false ∧
    (nativeCreateFramebuffers drv deviceHandle deviceInfo swapchainHandle swapchainInfo
        renderPass).info = { swapchainInfo with framebuffers := [] } ∧
    (nativeCreateFramebuffers drv deviceHandle deviceInfo swapchainHandle swapchainInfo
        renderPass).calls =
      (swapchainInfo.imageViews.take (i + 1)).map
          (framebufferRequest deviceInfo.device renderPass swapchainInfo.extent) ++
        (List.range i).map fun j => Call.vkDestroyFramebuffer deviceInfo.device (drv j).2 := by
  have hloop := createFramebuffersLoop_fail drv deviceInfo.device renderPass swapchainInfo.extent
    i hfail swapchainInfo.imageViews 0
    (vectorResize swapchainInfo.framebuffers swapchainInfo.imageViews.length)
    (Nat.zero_le i) (by omega) (by simp [vectorResize]; omega)
    (fun j hj => absurd hj (Nat.not_lt_zero j)) (fun j _ hji => hok j hji)
  simp [nativeCreateFramebuffers, hdev, hsc, hrp, hloop]

theorem nativeCreateFramebuffers_rolls_back_witness :
    (nativeCreateFramebuffers failAtTwo 1 sampleDevice 2 sampleSwapchain 5).ret = false ∧
    (nativeCreateFramebuffers failAtTwo 1 sampleDevice 2 sampleSwapchain 5).info =
      { sampleSwapchain with framebuffers := [] } ∧
    (nativeCreateFramebuffers failAtTwo 1 sampleDevice 2 sampleSwapchain 5).calls =
      [framebufferRequest 10 5 ⟨1920, 1080⟩ 40, framebufferRequest 10 5 ⟨1920, 1080⟩ 41,
       framebufferRequest 10 5 ⟨1920, 1080⟩ 42,
       Call.vkDestroyFramebuffer 10 100, Call.vkDestroyFramebuffer 10 101] :=
  nativeCreateFramebuffers_rolls_back failAtTwo 1 sampleDevice 2 sampleSwapchain 5 2
    (by decide) (by decide) (by decide) (by decide)
    (by intro j hj; have : j ≠ 2 := Nat.ne_of_lt hj; simp [failAtTwo, this, VK_SUCCESS])
    (by decide)

/-! ## The packed result of the acquire -/

theorem packResultAndIndex_eq (r : Int) (i : Nat) (hlo : -2 ^ 31 ≤ r) (hhi : r < 2 ^ 31)
    (hi : i < 2 ^ 32) : packResultAndIndex r i = r * 2 ^ 32 + i := by
  unfold packResultAndIndex
  have hbi : bits64 (i : Int) = i := by unfold bits64; omega
  rw [hbi, Nat.shiftLeft_eq]
  have hdiv : (bits64 r * 2 ^ 32) % 2 ^ 64 =
      2 ^ 32 * ((bits64 r * 2 ^ 32) % 2 ^ 64 / 2 ^ 32) := by
    omega
  rw [hdiv, ← Nat.mul_add_lt_is_or hi]
  unfold ofBits64 bits64
  split <;> omega

theorem unpackResult_eq (r : Int) (i : Nat) (hi : i < 2 ^ 32) :
    unpackResult (r * 2 ^ 32 + i) = r := by
  unfold unpackResult
  rw [Int.shiftRight_eq_div_pow]
  norm_num
  omega

theorem unpackIndex_eq (r : Int) (i : Nat) (hi : i < 2 ^ 32) : unpackIndex (r * 2 ^ 32 + i) = i := by
  unfold unpackIndex
  have h : (0xFFFFFFFF : Nat) = 2 ^ 32 - 1 := by norm_num
  rw [h, Nat.and_pow_two_sub_one_eq_mod]
  unfold bits64
  omega

/-- C3: for a signed 32-bit result code `r` and an unsigned 32-bit image index
`i`, `nativeAcquireNextImageWithSemaphore` returns `r * 2^32 + i` as a 64-bit
signed value: its arithmetic shift right by 32 is `r`, its AND with
`0xFFFFFFFF` is `i`, and two answers of the driver that give the same return
value are the same answer. -/
theorem nativeAcquireNextImageWithSemaphore_packs (r : Int) (i : Nat)
    (deviceInfo : DeviceInfo) (swapchainInfo : SwapchainInfo) (semaphoreHandle : Handle)
    (hlo : -2 ^ 31 ≤ r) (hhi : r < 2 ^ 31) (hi : i < 2 ^ 32) :
    unpackResult (nativeAcquireNextImageWithSemaphore (r, i) deviceInfo swapchainInfo
      semaphoreHandle).1 = r ∧
    unpackIndex (nativeAcquireNextImageWithSemaphore (r, i) deviceInfo swapchainInfo
      semaphoreHandle).1 = i ∧
    -2 ^ 63 ≤ (nativeAcquireNextImageWithSemaphore (r, i) deviceInfo swapchainInfo
      semaphoreHandle).1 ∧
    (nativeAcquireNextImageWithSemaphore (r, i) deviceInfo swapchainInfo
      semaphoreHandle).1 < 2 ^ 63 ∧
    ∀ (r' : Int) (i' : Nat), -2 ^ 31 ≤ r' → r' < 2 ^ 31 → i' < 2 ^ 32 →
      (nativeAcquireNextImageWithSemaphore (r', i') deviceInfo swapchainInfo
        semaphoreHandle).1 =
      (nativeAcquireNextImageWithSemaphore (r, i) deviceInfo swapchainInfo
        semaphoreHandle).1 →
      r' = r ∧ i' = i := by
  have hv : (nativeAcquireNextImageWithSemaphore (r, i) deviceInfo swapchainInfo
      semaphoreHandle).1 = r * 2 ^ 32 + i := by
    simp [nativeAcquireNextImageWithSemaphore, packResultAndIndex_eq r i hlo hhi hi]
  rw [hv]
  refine ⟨unpackResult_eq r i hi, unpackIndex_eq r i hi, by omega, by omega, ?_⟩
  intro r' i' hlo' hhi' hi' heq
  have hv' : (nativeAcquireNextImageWithSemaphore (r', i') deviceInfo swapchainInfo
      semaphoreHandle).1 = r' * 2 ^ 32 + i' := by
    simp [nativeAcquireNextImageWithSemaphore, packResultAndIndex_eq r' i' hlo' hhi' hi']
  rw [hv'] at heq
  omega

theorem nativeAcquireNextImageWithSemaphore_packs_witness :
    unpackResult (nativeAcquireNextImageWithSemaphore (VK_ERROR_OUT_OF_DATE_KHR, 2)
      sampleDevice sampleSwapchain 7).1 = VK_ERROR_OUT_OF_DATE_KHR ∧
    unpackIndex (nativeAcquireNextImageWithSemaphore (VK_ERROR_OUT_OF_DATE_KHR, 2)
      sampleDevice sampleSwapchain 7).1 = 2 :=
  have h := nativeAcquireNextImageWithSemaphore_packs VK_ERROR_OUT_OF_DATE_KHR 2
    sampleDevice sampleSwapchain 7 (by decide) (by decide) (by decide)
  ⟨h.1, h.2.1⟩

/-! ## Non-positive dimensions -/

/-- C9: called with a non-positive width or height, `nativeResizeSwapchain`
returns false, issues no driver call and leaves the record as it was. -/
theorem nativeResizeSwapchain_rejects_dimensions (drv : SwapchainDriver)
    (deviceHandle : Handle) (deviceInfo : DeviceInfo)
    (swapchainHandle : Handle) (swapchainInfo : SwapchainInfo)
    (renderPassHandle : Handle) (width height : Int) (hdim : width ≤ 0 ∨ height ≤ 0) :
    nativeResizeSwapchain drv deviceHandle deviceInfo swapchainHandle swapchainInfo
        renderPassHandle width height =
      { ret := false, info := swapchainInfo, calls := [] } := by
  unfold nativeResizeSwapchain
  rw [if_pos hdim]

theorem nativeResizeSwapchain_rejects_dimensions_witness :
    nativeResizeSwapchain sampleDriver 1 sampleDevice 2 sampleSwapchain 5 1920 0 =
      { ret := false, info := sampleSwapchain, calls := [] } :=
  nativeResizeSwapchain_rejects_dimensions sampleDriver 1 sampleDevice 2 sampleSwapchain 5
    1920 0 (Or.inr (by decide))

/-! ## The pipelined submit never waits for the queue -/

/-- C8: whatever the submission returns, `nativeSubmitCommandBufferWithSync`
issues exactly one `vkQueueSubmit`, to the graphics queue, of one command buffer
with one wait semaphore at the color-attachment-output stage, one signal
semaphore and the given fence, and nothing else; among the two submit entry
points a queue-idle wait is issued by the synchronous one only (after a
submission that succeeded). -/
theorem nativeSubmitCommandBufferWithSync_never_waits (submitResult : VkResult)
    (deviceInfo : DeviceInfo)
    (commandBufferHandle waitSemaphoreHandle signalSemaphoreHandle fenceHandle : Handle) :
    nativeSubmitCommandBufferWithSync submitResult deviceInfo commandBufferHandle
        waitSemaphoreHandle signalSemaphoreHandle fenceHandle =
      [Call.vkQueueSubmit deviceInfo.graphicsQueue
        [pipelinedSubmitInfo commandBufferHandle waitSemaphoreHandle signalSemaphoreHandle]
        fenceHandle] ∧
    ∀ e : SubmitEntry,
      (e.run submitResult deviceInfo commandBufferHandle waitSemaphoreHandle
        signalSemaphoreHandle fenceHandle).any Call.isQueueWaitIdle =
      (decide (e = SubmitEntry.nativeSubmitCommandBuffer) &&
        decide (submitResult = VK_SUCCESS)) := by
  constructor
  · simp [nativeSubmitCommandBufferWithSync, pipelinedSubmitInfo]
  · intro e
    cases e
    · by_cases h : submitResult = VK_SUCCESS <;>
        simp [SubmitEntry.run, nativeSubmitCommandBuffer, Call.isQueueWaitIdle, h]
    · simp [SubmitEntry.run, nativeSubmitCommandBufferWithSync, Call.isQueueWaitIdle]

/-! ## Shader bytes are validated before the driver sees them -/

theorem wordsOfBytes_head (bytes : List Int) (h : 4 ≤ bytes.length) :
    (wordsOfBytes bytes).getD 0 0 = magicWordOf bytes := by
  match bytes, h with
  | b0 :: b1 :: b2 :: b3 :: rest, _ => simp [wordsOfBytes, magicWordOf]

/-- C2: for a non-zero device handle and a non-null byte array,
`nativeCreateShaderModule` hands the bytes to `vkCreateShaderModule` exactly
when the length is a multiple of 4, at least 16, and the first little-endian
word is `0x07230203` (the runtime having given access to the array elements);
for every other array it returns handle 0 and issues no driver call. -/
theorem nativeCreateShaderModule_validates (elementsPinned : Bool) (drv : VkResult × Handle)
    (deviceHandle : Handle) (deviceInfo : DeviceInfo) (bytes : List Int)
    (hdev : deviceHandle ≠ 0) :
    (elementsPinned = true →
      ((nativeCreateShaderModule elementsPinned drv deviceHandle deviceInfo (some bytes)).2 =
          [Call.vkCreateShaderModule deviceInfo.device bytes.length (wordsOfBytes bytes)] ↔
        validShaderBytes bytes)) ∧
    (¬ validShaderBytes bytes →
      nativeCreateShaderModule elementsPinned drv deviceHandle deviceInfo (some bytes) =
        (0, [])) := by
  unfold validShaderBytes
  by_cases h4 : bytes.length % 4 = 0
  · by_cases h16 : 16 ≤ bytes.length
    · have h16n : ¬ bytes.length < 16 := Nat.not_lt.mpr h16
      have hw := wordsOfBytes_head bytes (by omega)
      simp only [List.getD_eq_getElem?_getD] at hw
      by_cases hm : magicWordOf bytes = 0x07230203
      · have hm' : (wordsOfBytes bytes)[0]?.getD 0 = SPIRV_MAGIC := by rw [hw, hm]; rfl
        constructor
        · intro hp
          subst hp
          by_cases hr : drv.1 = VK_SUCCESS <;>
            simp [nativeCreateShaderModule, hdev, h4, h16, h16n, hm, hm', hr]
        · intro hv
          exact absurd ⟨h4, h16, hm⟩ hv
      · have hm' : ¬ (wordsOfBytes bytes)[0]?.getD 0 = SPIRV_MAGIC := by
          rw [hw]; exact hm
        constructor
        · intro hp
          subst hp
          simp [nativeCreateShaderModule, hdev, h4, h16, h16n, hm, hm']
        · intro _
          cases elementsPinned <;> simp [nativeCreateShaderModule, hdev, h4, h16n, hm']
    · have h16' : bytes.length < 16 := by omega
      simp [nativeCreateShaderModule, hdev, h4, h16, h16']
  · simp [nativeCreateShaderModule, hdev, h4]

theorem nativeCreateShaderModule_validates_witness :
    ((nativeCreateShaderModule true (0, 77) 1 sampleDevice (some sampleSpirv)).2 =
        [Call.vkCreateShaderModule 10 16 (wordsOfBytes sampleSpirv)] ↔
      validShaderBytes sampleSpirv) ∧
    nativeCreateShaderModule true (0, 77) 1 sampleDevice (some (sampleSpirv.take 15)) =
      (0, []) :=
  ⟨(nativeCreateShaderModule_validates true (0, 77) 1 sampleDevice sampleSpirv
      (by decide)).1 rfl,
   (nativeCreateShaderModule_validates true (0, 77) 1 sampleDevice (sampleSpirv.take 15)
      (by decide)).2 (by decide)⟩

/-! ## The old swapchain outlives the creation of the new one -/

theorem resizeImageViewsLoop_calls (drv : Nat → VkResult × Handle) (device : Handle)
    (format : Nat) : ∀ (images : List Handle) (i : Nat) (views : List Handle),
      destroyedSwapchains (resizeImageViewsLoop drv device format images i views).2.2 = [] ∧
      swapchainRequests (resizeImageViewsLoop drv device format images i views).2.2 = [] := by
  intro images
  induction images with
  | nil => intro i views; simp [resizeImageViewsLoop, destroyedSwapchains, swapchainRequests]
  | cons image rest ih =>
    intro i views
    have h := ih (i + 1) (views.set i (drv i).2)
    unfold destroyedSwapchains swapchainRequests at h ⊢
    by_cases hr : (drv i).1 = VK_SUCCESS
    · simp [resizeImageViewsLoop, hr, h.1, h.2]
    · simp [resizeImageViewsLoop, hr]

theorem resizeFramebuffersLoop_calls (drv : Nat → VkResult × Handle) (device renderPass : Handle)
    (newExtent : VkExtent2D) : ∀ (views : List Handle) (i : Nat) (fbs : List Handle),
      destroyedSwapchains
        (resizeFramebuffersLoop drv device renderPass newExtent views i fbs).2.2 = [] ∧
      swapchainRequests
        (resizeFramebuffersLoop drv device renderPass newExtent views i fbs).2.2 = [] := by
  intro views
  induction views with
  | nil => intro i fbs; simp [resizeFramebuffersLoop, destroyedSwapchains, swapchainRequests]
  | cons view rest ih =>
    intro i fbs
    have h := ih (i + 1) (fbs.set i (drv i).2)
    unfold destroyedSwapchains swapchainRequests at h ⊢
    by_cases hr : (drv i).1 = VK_SUCCESS
    · simp [resizeFramebuffersLoop, hr, h.1, h.2]
    · simp [resizeFramebuffersLoop, hr]

theorem resizeRebuild_calls (drv : SwapchainDriver) (deviceInfo : DeviceInfo)
    (info : SwapchainInfo) (renderPass newSwapchain : Handle) (newExtent : VkExtent2D)
    (calls : List Call) :
    (resizeRebuild drv deviceInfo info renderPass newSwapchain newExtent calls).info.swapchain =
      info.swapchain ∧
    ∃ tail, (resizeRebuild drv deviceInfo info renderPass newSwapchain newExtent calls).calls =
        calls ++ tail ∧
      destroyedSwapchains tail = [] ∧ swapchainRequests tail = [] := by
  have hv := resizeImageViewsLoop_calls drv.imageView deviceInfo.device info.format.format
    ((List.range drv.imageCount).map drv.image) 0 (vectorResize info.imageViews drv.imageCount)
  unfold resizeRebuild
  simp only []
  split
  · refine ⟨rfl, _, by rw [List.append_assoc], ?_, ?_⟩
    · simp [destroyedSwapchains, List.filterMap_append] at hv ⊢
      exact hv.1
    · simp [swapchainRequests, List.filterMap_append] at hv ⊢
      exact hv.2
  · rename_i hviews
    refine ⟨rfl, _, by rw [List.append_assoc, List.append_assoc], ?_, ?_⟩
    · have hf := (resizeFramebuffersLoop_calls drv.framebuffer deviceInfo.device renderPass
        newExtent (resizeImageViewsLoop drv.imageView deviceInfo.device info.format.format
          ((List.range drv.imageCount).map drv.image) 0
          (vectorResize info.imageViews drv.imageCount)).2.1 0
        (vectorResize info.framebuffers drv.imageCount)).1
      simp [destroyedSwapchains, List.filterMap_append] at hv hf ⊢
      exact ⟨hv.1, hf⟩
    · have hf := (resizeFramebuffersLoop_calls drv.framebuffer deviceInfo.device renderPass
        newExtent (resizeImageViewsLoop drv.imageView deviceInfo.device info.format.format
          ((List.range drv.imageCount).map drv.image) 0
          (vectorResize info.imageViews drv.imageCount)).2.1 0
        (vectorResize info.framebuffers drv.imageCount)).2
      simp [swapchainRequests, List.filterMap_append] at hv hf ⊢
      exact ⟨hv.2, hf⟩

theorem destroyedSwapchains_append (a b : List Call) :
    destroyedSwapchains (a ++ b) = destroyedSwapchains a ++ destroyedSwapchains b := by
  simp [destroyedSwapchains, List.filterMap_append]

theorem swapchainRequests_append (a b : List Call) :
    swapchainRequests (a ++ b) = swapchainRequests a ++ swapchainRequests b := by
  simp [swapchainRequests, List.filterMap_append]

theorem destroyedSwapchains_destroyFramebuffers (device : Handle) (l : List Handle) :
    destroyedSwapchains (l.map (Call.vkDestroyFramebuffer device)) = [] ∧
    swapchainRequests (l.map (Call.vkDestroyFramebuffer device)) = [] := by
  induction l with
  | nil => simp [destroyedSwapchains, swapchainRequests]
  | cons a l ih =>
    unfold destroyedSwapchains swapchainRequests at ih ⊢
    simp [ih.1, ih.2]

theorem destroyedSwapchains_destroyImageViews (device : Handle) (l : List Handle) :
    destroyedSwapchains (l.map (Call.vkDestroyImageView device)) = [] ∧
    swapchainRequests (l.map (Call.vkDestroyImageView device)) = [] := by
  induction l with
  | nil => simp [destroyedSwapchains, swapchainRequests]
  | cons a l ih =>
    unfold destroyedSwapchains swapchainRequests at ih ⊢
    simp [ih.1, ih.2]

/-- C4: in a resize that reaches the creation of the new swapchain, on a record
that holds a swapchain, the single creation request carries the old handle as
`oldSwapchain`. If the creation fails, the call returns false, destroys no
swapchain and the record still holds the old handle. If it succeeds, the old
handle is the only swapchain destroyed, once, by the call that follows the
creation, and the record holds the new handle. -/
theorem nativeResizeSwapchain_old_swapchain (drv : SwapchainDriver)
    (deviceHandle : Handle) (deviceInfo : DeviceInfo)
    (swapchainHandle : Handle) (swapchainInfo : SwapchainInfo)
    (renderPassHandle : Handle) (width height : Int)
    (hw : 0 < width) (hh : 0 < height) (hdev : deviceHandle ≠ 0) (hsc : swapchainHandle ≠ 0)
    (hidle : drv.waitIdle = VK_SUCCESS) (hcaps : drv.capsResult = VK_SUCCESS)
    (hold : swapchainInfo.swapchain ≠ VK_NULL_HANDLE) :
    (swapchainRequests (nativeResizeSwapchain drv deviceHandle deviceInfo swapchainHandle
        swapchainInfo renderPassHandle width height).calls).map
      (fun info => info.oldSwapchain) = [swapchainInfo.swapchain] ∧
    (drv.createResult ≠ VK_SUCCESS →
      (nativeResizeSwapchain drv deviceHandle deviceInfo swapchainHandle swapchainInfo
        renderPassHandle width height).ret = false ∧
      destroyedSwapchains (nativeResizeSwapchain drv deviceHandle deviceInfo swapchainHandle
        swapchainInfo renderPassHandle width height).calls = [] ∧
      (nativeResizeSwapchain drv deviceHandle deviceInfo swapchainHandle swapchainInfo
        renderPassHandle width height).info.swapchain = swapchainInfo.swapchain) ∧
    (drv.createResult = VK_SUCCESS →
      destroyedSwapchains (nativeResizeSwapchain drv deviceHandle deviceInfo swapchainHandle
        swapchainInfo renderPassHandle width height).calls = [swapchainInfo.swapchain] ∧
      (nativeResizeSwapchain drv deviceHandle deviceInfo swapchainHandle swapchainInfo
        renderPassHandle width height).info.swapchain = drv.newSwapchain ∧
      ∃ before after,
        (nativeResizeSwapchain drv deviceHandle deviceInfo swapchainHandle swapchainInfo
          renderPassHandle width height).calls =
        before ++
          Call.vkCreateSwapchainKHR deviceInfo.device
            (resizeSwapchainRequest deviceInfo swapchainInfo drv.caps
              (resizeExtent drv.caps width height) swapchainInfo.swapchain) ::
          Call.vkDestroySwapchainKHR deviceInfo.device swapchainInfo.swapchain :: after) := by
  have hdim : ¬ (width ≤ 0 ∨ height ≤ 0) := by omega
  have hhandles : ¬ (deviceHandle = 0 ∨ swapchainHandle = 0) := by
    intro h; rcases h with h | h
    · exact hdev h
    · exact hsc h
  have hfb := destroyedSwapchains_destroyFramebuffers deviceInfo.device
    (swapchainInfo.framebuffers.filter (· ≠ VK_NULL_HANDLE))
  have hiv := destroyedSwapchains_destroyImageViews deviceInfo.device
    (swapchainInfo.imageViews.filter (· ≠ VK_NULL_HANDLE))
  by_cases hc : drv.createResult = VK_SUCCESS
  · have hval : nativeResizeSwapchain drv deviceHandle deviceInfo swapchainHandle swapchainInfo
        renderPassHandle width height =
        resizeRebuild drv deviceInfo
          { swapchain := drv.newSwapchain, images := swapchainInfo.images, imageViews := [],
            framebuffers := [], format := swapchainInfo.format,
            extent := resizeExtent drv.caps width height }
          renderPassHandle drv.newSwapchain (resizeExtent drv.caps width height)
          (([Call.vkDeviceWaitIdle deviceInfo.device] ++
              (swapchainInfo.framebuffers.filter (· ≠ VK_NULL_HANDLE)).map
                (Call.vkDestroyFramebuffer deviceInfo.device) ++
              (swapchainInfo.imageViews.filter (· ≠ VK_NULL_HANDLE)).map
                (Call.vkDestroyImageView deviceInfo.device) ++
              [Call.vkGetPhysicalDeviceSurfaceCapabilitiesKHR deviceInfo.physicalDevice
                deviceInfo.surface] ++
              [Call.vkCreateSwapchainKHR deviceInfo.device
                (resizeSwapchainRequest deviceInfo swapchainInfo drv.caps
                  (resizeExtent drv.caps width height) swapchainInfo.swapchain)]) ++
            [Call.vkDestroySwapchainKHR deviceInfo.device swapchainInfo.swapchain]) := by
      unfold nativeResizeSwapchain
      rw [if_neg hdim, if_neg hhandles]
      simp only [hidle, hcaps, hc, hold, ne_eq, not_true_eq_false, not_false_eq_true, if_false,
        if_true]
    obtain ⟨hsw, tail, hcalls, hd, hr⟩ := resizeRebuild_calls drv deviceInfo
      { swapchain := drv.newSwapchain, images := swapchainInfo.images, imageViews := [],
        framebuffers := [], format := swapchainInfo.format,
        extent := resizeExtent drv.caps width height }
      renderPassHandle drv.newSwapchain (resizeExtent drv.caps width height)
      (([Call.vkDeviceWaitIdle deviceInfo.device] ++
          (swapchainInfo.framebuffers.filter (· ≠ VK_NULL_HANDLE)).map
            (Call.vkDestroyFramebuffer deviceInfo.device) ++
          (swapchainInfo.imageViews.filter (· ≠ VK_NULL_HANDLE)).map
            (Call.vkDestroyImageView deviceInfo.device) ++
          [Call.vkGetPhysicalDeviceSurfaceCapabilitiesKHR deviceInfo.physicalDevice
            deviceInfo.surface] ++
          [Call.vkCreateSwapchainKHR deviceInfo.device
            (resizeSwapchainRequest deviceInfo swapchainInfo drv.caps
              (resizeExtent drv.caps width height) swapchainInfo.swapchain)]) ++
        [Call.vkDestroySwapchainKHR deviceInfo.device swapchainInfo.swapchain])
    rw [hval, hsw, hcalls]
    refine ⟨?_, fun h => absurd hc h, fun _ => ⟨?_, rfl, ?_⟩⟩
    · simp only [swapchainRequests_append, hfb.2, hiv.2, hr]
      simp [swapchainRequests, resizeSwapchainRequest]
    · simp only [destroyedSwapchains_append, hfb.1, hiv.1, hd]
      simp [destroyedSwapchains]
    · exact ⟨[Call.vkDeviceWaitIdle deviceInfo.device] ++
          (swapchainInfo.framebuffers.filter (· ≠ VK_NULL_HANDLE)).map
            (Call.vkDestroyFramebuffer deviceInfo.device) ++
          (swapchainInfo.imageViews.filter (· ≠ VK_NULL_HANDLE)).map
            (Call.vkDestroyImageView deviceInfo.device) ++
          [Call.vkGetPhysicalDeviceSurfaceCapabilitiesKHR deviceInfo.physicalDevice
            deviceInfo.surface], tail, by simp [List.append_assoc]⟩
  · have hval : nativeResizeSwapchain drv deviceHandle deviceInfo swapchainHandle swapchainInfo
        renderPassHandle width height =
        { ret := false,
          info := { swapchainInfo with framebuffers := [], imageViews := [] },
          calls := [Call.vkDeviceWaitIdle deviceInfo.device] ++
              (swapchainInfo.framebuffers.filter (· ≠ VK_NULL_HANDLE)).map
                (Call.vkDestroyFramebuffer deviceInfo.device) ++
              (swapchainInfo.imageViews.filter (· ≠ VK_NULL_HANDLE)).map
                (Call.vkDestroyImageView deviceInfo.device) ++
              [Call.vkGetPhysicalDeviceSurfaceCapabilitiesKHR deviceInfo.physicalDevice
                deviceInfo.surface] ++
              [Call.vkCreateSwapchainKHR deviceInfo.device
                (resizeSwapchainRequest deviceInfo swapchainInfo drv.caps
                  (resizeExtent drv.caps width height) swapchainInfo.swapchain)] } := by
      unfold nativeResizeSwapchain
      rw [if_neg hdim, if_neg hhandles]
      simp only [hidle, hcaps, hc, ne_eq, not_true_eq_false, not_false_eq_true, if_false,
        if_true]
    rw [hval]
    refine ⟨?_, fun _ => ⟨rfl, ?_, rfl⟩, fun h => absurd h hc⟩
    · simp only [swapchainRequests_append, hfb.2, hiv.2]
      simp [swapchainRequests, resizeSwapchainRequest]
    · simp only [destroyedSwapchains_append, hfb.1, hiv.1]
      simp [destroyedSwapchains]

theorem nativeResizeSwapchain_old_swapchain_witness :
    destroyedSwapchains
        (nativeResizeSwapchain sampleDriver 1 sampleDevice 2 sampleSwapchain 5 1280 720).calls =
      [20] ∧
    (nativeResizeSwapchain sampleDriver 1 sampleDevice 2 sampleSwapchain 5 1280 720).info.swapchain
      = 21 :=
  have h := (nativeResizeSwapchain_old_swapchain sampleDriver 1 sampleDevice 2 sampleSwapchain 5
    1280 720 (by decide) (by decide) (by decide) (by decide) rfl rfl (by decide)).2.2 rfl
  ⟨h.1, h.2.1⟩

/-! ## Layout barriers of the input texture -/

theorem barriersOf_append (a b : List Call) :
    barriersOf (a ++ b) = barriersOf a ++ barriersOf b := by
  simp [barriersOf, List.filterMap_append]

theorem barriersOf_recordAndSubmitUpload (drv : UploadDriver) (deviceInfo : DeviceInfo)
    (stagingBuffer stagingMemory image : Handle) (width height : Nat)
    (oldLayout : VkImageLayout) :
    barriersOf (recordAndSubmitUpload drv deviceInfo stagingBuffer stagingMemory image width
        height oldLayout) =
      [{ image := image, oldLayout := oldLayout,
         newLayout := VkImageLayout.TRANSFER_DST_OPTIMAL },
       { image := image, oldLayout := VkImageLayout.TRANSFER_DST_OPTIMAL,
         newLayout := VkImageLayout.SHADER_READ_ONLY_OPTIMAL }] := by
  simp [barriersOf, recordAndSubmitUpload]

theorem barriersOf_uncheckedStaging (drv : UploadDriver) (deviceInfo : DeviceInfo)
    (imageSize : Nat) : barriersOf (uncheckedStaging drv deviceInfo imageSize) = [] := by
  simp [barriersOf, uncheckedStaging, stagingMemoryQueries]

theorem barriersOf_nativeCreateInputTexture (drv : TextureDriver) (deviceInfo : DeviceInfo)
    (width height : Int) (textureInfo : InputTextureInfo)
    (hcreate : (nativeCreateInputTexture drv deviceInfo width height).1 = some textureInfo) :
    barriersOf (nativeCreateInputTexture drv deviceInfo width height).2 =
      creationBarriers textureInfo.image := by
  unfold nativeCreateInputTexture at hcreate ⊢
  by_cases h1 : drv.createImage.1 = VK_SUCCESS
  · by_cases h2 : drv.allocateMemory.1 = VK_SUCCESS
    · by_cases h3 : drv.createImageView.1 = VK_SUCCESS
      · simp only [h1, h2, h3, ne_eq, not_true_eq_false, if_false, Option.some.injEq] at hcreate ⊢
        subst hcreate
        simp only [barriersOf_append, barriersOf_recordAndSubmitUpload,
          barriersOf_uncheckedStaging]
        simp [barriersOf, creationBarriers]
      · simp [h1, h2, h3] at hcreate
    · simp [h1, h2] at hcreate
  · simp [h1] at hcreate

theorem barriersOf_update (deviceHandle : Handle) (deviceInfo : DeviceInfo)
    (textureHandle : Handle) (textureInfo : InputTextureInfo) (u : TextureUpdate)
    (hdev : deviceHandle ≠ 0) (htex : textureHandle ≠ 0)
    (hsize : u.correctlySized textureInfo = true) :
    barriersOf (u.run deviceHandle deviceInfo textureHandle textureInfo) =
      if u.completes = true then updateBarriers textureInfo.image else [] := by
  cases u with
  | pixels drv dataArray =>
    have hlen : dataArray.length = expectedSize textureInfo := by
      simpa [TextureUpdate.correctlySized] using hsize
    by_cases h1 : drv.createBuffer.1 = VK_SUCCESS
    · by_cases h2 : drv.allocateMemory.1 = VK_SUCCESS
      · simp only [TextureUpdate.run, nativeUpdateInputTexture, hdev, htex, hlen, h1, h2,
          TextureUpdate.completes, or_self, ne_eq, not_true_eq_false, if_false, and_self,
          decide_True, if_true, barriersOf_append, barriersOf_recordAndSubmitUpload]
        simp [barriersOf, updateBarriers, stagingMemoryQueries]
      · simp [TextureUpdate.run, nativeUpdateInputTexture, hdev, htex, hlen, h1, h2,
          TextureUpdate.completes, barriersOf, stagingMemoryQueries]
    · simp [TextureUpdate.run, nativeUpdateInputTexture, hdev, htex, hlen, h1,
        TextureUpdate.completes, barriersOf]
  | color drv r g b a =>
    simp only [TextureUpdate.run, nativeUpdateInputTextureColor, hdev, htex,
      TextureUpdate.completes, or_self, if_false, if_true, barriersOf_append,
      barriersOf_recordAndSubmitUpload, barriersOf_uncheckedStaging]
    simp [updateBarriers]

theorem barriersOf_runTextureUpdates (deviceHandle : Handle) (deviceInfo : DeviceInfo)
    (textureHandle : Handle) (textureInfo : InputTextureInfo)
    (hdev : deviceHandle ≠ 0) (htex : textureHandle ≠ 0) :
    ∀ updates : List TextureUpdate,
      (∀ u, u ∈ updates → u.correctlySized textureInfo = true) →
      barriersOf (runTextureUpdates deviceHandle deviceInfo textureHandle textureInfo updates) =
        repeatedUpdateBarriers textureInfo.image
          (updates.filter fun u => u.completes).length := by
  intro updates
  induction updates with
  | nil => intro _; simp [runTextureUpdates, barriersOf, repeatedUpdateBarriers]
  | cons u rest ih =>
    intro hsize
    have hu := barriersOf_update deviceHandle deviceInfo textureHandle textureInfo u hdev htex
      (hsize u (List.mem_cons_self u rest))
    have hrest := ih fun v hv => hsize v (List.mem_cons_of_mem u hv)
    rw [runTextureUpdates, barriersOf_append, hu, hrest]
    by_cases hc : u.completes = true
    · simp [hc, repeatedUpdateBarriers]
    · simp [hc]

theorem layoutsChained_append_pair (b1 b2 : VkImageMemoryBarrier)
    (h12 : b2.oldLayout = b1.newLayout) :
    ∀ l : List VkImageMemoryBarrier, layoutsChained l →
      finalLayout l = some b1.oldLayout → layoutsChained (l ++ [b1, b2]) := by
  intro l
  induction l with
  | nil => intro _ hlast; simp [finalLayout] at hlast
  | cons a rest ih =>
    intro hl hlast
    cases rest with
    | nil =>
      simp [finalLayout] at hlast
      simp [layoutsChained, hlast, h12]
    | cons b rest' =>
      have hb : finalLayout (b :: rest') = some b1.oldLayout := by
        simpa [finalLayout, List.getLast?_cons_cons] using hlast
      exact ⟨hl.1, ih hl.2 hb⟩

theorem finalLayout_append_pair (l : List VkImageMemoryBarrier) (b1 b2 : VkImageMemoryBarrier) :
    finalLayout (l ++ [b1, b2]) = some b2.newLayout := by
  simp [finalLayout]

theorem layoutsChained_repeated (image : Handle) :
    ∀ (n : Nat) (l : List VkImageMemoryBarrier), layoutsChained l →
      finalLayout l = some VkImageLayout.SHADER_READ_ONLY_OPTIMAL →
      layoutsChained (l ++ repeatedUpdateBarriers image n) ∧
      finalLayout (l ++ repeatedUpdateBarriers image n) =
        some VkImageLayout.SHADER_READ_ONLY_OPTIMAL := by
  intro n
  induction n with
  | zero => intro l hl hlast; simpa [repeatedUpdateBarriers] using ⟨hl, hlast⟩
  | succ n ih =>
    intro l hl hlast
    have hstep := layoutsChained_append_pair
      { image := image, oldLayout := VkImageLayout.SHADER_READ_ONLY_OPTIMAL,
        newLayout := VkImageLayout.TRANSFER_DST_OPTIMAL }
      { image := image, oldLayout := VkImageLayout.TRANSFER_DST_OPTIMAL,
        newLayout := VkImageLayout.SHADER_READ_ONLY_OPTIMAL } rfl l hl hlast
    have hfin := finalLayout_append_pair l
      { image := image, oldLayout := VkImageLayout.SHADER_READ_ONLY_OPTIMAL,
        newLayout := VkImageLayout.TRANSFER_DST_OPTIMAL }
      { image := image, oldLayout := VkImageLayout.TRANSFER_DST_OPTIMAL,
        newLayout := VkImageLayout.SHADER_READ_ONLY_OPTIMAL }
    have h := ih _ hstep hfin
    simpa [repeatedUpdateBarriers, updateBarriers, List.append_assoc] using h

/-- C7: for a texture created by `nativeCreateInputTexture` and then updated any
number of times with correctly sized arrays or colours, the recorded layout
barriers are UNDEFINED -> TRANSFER_DST_OPTIMAL -> SHADER_READ_ONLY_OPTIMAL for
the creation, followed by SHADER_READ_ONLY_OPTIMAL -> TRANSFER_DST_OPTIMAL ->
SHADER_READ_ONLY_OPTIMAL for each update that the driver lets reach its command
recording; every barrier starts from the layout the one before it ended in, and
the last barrier ends in SHADER_READ_ONLY_OPTIMAL. -/
theorem input_texture_layout_sequence (drv : TextureDriver)
    (deviceHandle : Handle) (deviceInfo : DeviceInfo) (width height : Int)
    (textureHandle : Handle) (textureInfo : InputTextureInfo) (updates : List TextureUpdate)
    (hdev : deviceHandle ≠ 0) (htex : textureHandle ≠ 0)
    (hcreate : (nativeCreateInputTexture drv deviceInfo width height).1 = some textureInfo)
    (hsize : ∀ u, u ∈ updates → u.correctlySized textureInfo = true) :
    barriersOf ((nativeCreateInputTexture drv deviceInfo width height).2 ++
        runTextureUpdates deviceHandle deviceInfo textureHandle textureInfo updates) =
      creationBarriers textureInfo.image ++
        repeatedUpdateBarriers textureInfo.image
          (updates.filter fun u => u.completes).length ∧
    layoutsChained (barriersOf ((nativeCreateInputTexture drv deviceInfo width height).2 ++
        runTextureUpdates deviceHandle deviceInfo textureHandle textureInfo updates)) ∧
    finalLayout (barriersOf ((nativeCreateInputTexture drv deviceInfo width height).2 ++
        runTextureUpdates deviceHandle deviceInfo textureHandle textureInfo updates)) =
      some VkImageLayout.SHADER_READ_ONLY_OPTIMAL := by
  have hseq : barriersOf ((nativeCreateInputTexture drv deviceInfo width height).2 ++
        runTextureUpdates deviceHandle deviceInfo textureHandle textureInfo updates) =
      creationBarriers textureInfo.image ++
        repeatedUpdateBarriers textureInfo.image
          (updates.filter fun u => u.completes).length := by
    rw [barriersOf_append, barriersOf_nativeCreateInputTexture drv deviceInfo width height
      textureInfo hcreate, barriersOf_runTextureUpdates deviceHandle deviceInfo textureHandle
      textureInfo hdev htex updates hsize]
  rw [hseq]
  exact ⟨rfl, layoutsChained_repeated textureInfo.image _ (creationBarriers textureInfo.image)
    (by simp [creationBarriers, layoutsChained]) (by simp [creationBarriers, finalLayout])⟩

theorem input_texture_layout_sequence_witness :
    barriersOf ((nativeCreateInputTexture sampleTextureDriver sampleDevice 2 2).2 ++
        runTextureUpdates 1 sampleDevice 3 sampleTexture sampleUpdates) =
      creationBarriers 70 ++ (updateBarriers 70 ++ updateBarriers 70) ∧
    finalLayout (barriersOf ((nativeCreateInputTexture sampleTextureDriver sampleDevice 2 2).2 ++
        runTextureUpdates 1 sampleDevice 3 sampleTexture sampleUpdates)) =
      some VkImageLayout.SHADER_READ_ONLY_OPTIMAL :=
  have h := input_texture_layout_sequence sampleTextureDriver 1 sampleDevice 2 2 3 sampleTexture
    sampleUpdates (by decide) (by decide) (by decide) (by decide)
  ⟨h.1, h.2.2⟩

/-! ## Where the code departs from the specification -/

/-- C1: a resize on a swapchain of three images, for which the driver reports
two images for the new swapchain and every call succeeds, returns true with two
image views and two framebuffers but still three (old) images in the record;
`nativeGetSwapchainImageCount` answers 3. -/
theorem nativeResizeSwapchain_keeps_old_images :
    (nativeResizeSwapchain shrinkingDriver 1 sampleDevice 2 sampleSwapchain 5 1280 720).ret
      = true ∧
    (nativeResizeSwapchain shrinkingDriver 1 sampleDevice 2 sampleSwapchain 5 1280 720).info =
      { swapchain := 21, images := [30, 31, 32], imageViews := [140, 141],
        framebuffers := [150, 151], format := ⟨44, 0⟩, extent := ⟨1280, 720⟩ } ∧
    nativeGetSwapchainImageCount
      (nativeResizeSwapchain shrinkingDriver 1 sampleDevice 2 sampleSwapchain 5 1280 720).info
      = 3 := by
  decide

/-- C6: on a texture of 32768 x 32768 pixels (2^32 bytes) the expected size
wraps to 0, so an empty array, whose length is not the product, passes the size
check: a staging buffer of size 0 is created and the upload is recorded and
submitted. -/
theorem nativeUpdateInputTexture_wraps_size :
    ([] : List Int).length ≠ hugeTexture.width * hugeTexture.height * 4 ∧
    expectedSize hugeTexture = 0 ∧
    nativeUpdateInputTexture sampleUploadDriver 1 sampleDevice 3 hugeTexture [] =
      [Call.vkCreateBuffer 10 0] ++ stagingMemoryQueries sampleDevice 60 ++
      [Call.vkAllocateMemory 10, Call.vkBindBufferMemory 10 60 61, Call.vkMapMemory 10 61 0,
       Call.vkUnmapMemory 10 61] ++
      recordAndSubmitUpload sampleUploadDriver sampleDevice 60 61 70 32768 32768
        VkImageLayout.SHADER_READ_ONLY_OPTIMAL := by
  decide

/-- C10: on a device whose graphics and present queue families are 0 and 1, the
creation request of `nativeResizeSwapchain` uses exclusive sharing and lists no
family index, where the request of `nativeCreateSwapchain` on the same device
uses concurrent sharing over both families. -/
theorem nativeResizeSwapchain_requests_exclusive :
    (swapchainRequests (nativeResizeSwapchain sampleDriver 1 sampleSplitDevice 2 sampleSwapchain
      5 1280 720).calls).map sharingOf = [(VkSharingMode.EXCLUSIVE, [])] ∧
    (swapchainRequests (nativeCreateSwapchain sampleDriver sampleSplitDevice).2).map sharingOf =
      [(VkSharingMode.CONCURRENT, [0, 1])] := by
  decide

/-! ## Descriptor update and push constants -/

/-- C18: on a non-null float array `nativePushConstants` records a command
exactly when both handles are non-zero and the array has 32 elements (the
runtime having given access to the elements): the command pushes 128 bytes at
offset 0 for the vertex stage, which is the one range declared by
`nativeCreatePipelineLayout`; a null array records nothing. -/
theorem nativePushConstants_guards (elementsPinned : Bool)
    (commandBufferHandle pipelineLayoutHandle : Handle) (values : List Nat)
    (drv : VkResult × Handle) (deviceHandle : Handle) (deviceInfo : DeviceInfo)
    (descriptorSetLayoutHandle : Handle) :
    nativePushConstants elementsPinned commandBufferHandle pipelineLayoutHandle (some values) =
      (if commandBufferHandle ≠ 0 ∧ pipelineLayoutHandle ≠ 0 ∧ values.length = 32 ∧
          elementsPinned = true then
        [Call.vkCmdPushConstants commandBufferHandle pipelineLayoutHandle
          VK_SHADER_STAGE_VERTEX_BIT 0 128 values]
      else []) ∧
    nativePushConstants elementsPinned commandBufferHandle pipelineLayoutHandle none = [] ∧
    declaredPushConstantRanges (nativeCreatePipelineLayout drv deviceHandle deviceInfo
        descriptorSetLayoutHandle).2 =
      [{ stageFlags := VK_SHADER_STAGE_VERTEX_BIT, offset := 0, size := 128 }] ∧
    pushedRanges [Call.vkCmdPushConstants commandBufferHandle pipelineLayoutHandle
        VK_SHADER_STAGE_VERTEX_BIT 0 128 values] =
      declaredPushConstantRanges (nativeCreatePipelineLayout drv deviceHandle deviceInfo
        descriptorSetLayoutHandle).2 := by
  have hdecl : declaredPushConstantRanges (nativeCreatePipelineLayout drv deviceHandle deviceInfo
        descriptorSetLayoutHandle).2 =
      [{ stageFlags := VK_SHADER_STAGE_VERTEX_BIT, offset := 0, size := 128 }] := by
    by_cases hr : drv.1 = VK_SUCCESS <;>
      simp [nativeCreatePipelineLayout, declaredPushConstantRanges, hr, sizeofFloat]
  refine ⟨?_, ?_, hdecl, ?_⟩
  · unfold nativePushConstants
    by_cases h1 : commandBufferHandle = 0
    · simp [h1]
    · by_cases h2 : pipelineLayoutHandle = 0
      · simp [h1, h2]
      · by_cases h3 : values.length = 32
        · cases elementsPinned <;> simp [h1, h2, h3, sizeofFloat]
        · simp [h1, h2, h3]
  · unfold nativePushConstants
    by_cases h : commandBufferHandle = 0 ∨ pipelineLayoutHandle = 0 <;> simp [h]
  · rw [hdecl]
    simp [pushedRanges]

/-! ## The shape of a resize -/

theorem nativeResizeSwapchain_of_created (drv : SwapchainDriver)
    (deviceHandle : Handle) (deviceInfo : DeviceInfo)
    (swapchainHandle : Handle) (swapchainInfo : SwapchainInfo)
    (renderPassHandle : Handle) (width height : Int)
    (hw : 0 < width) (hh : 0 < height) (hdev : deviceHandle ≠ 0) (hsc : swapchainHandle ≠ 0)
    (hidle : drv.waitIdle = VK_SUCCESS) (hcaps : drv.capsResult = VK_SUCCESS)
    (hc : drv.createResult = VK_SUCCESS) :
    nativeResizeSwapchain drv deviceHandle deviceInfo swapchainHandle swapchainInfo
        renderPassHandle width height =
      resizeRebuild drv deviceInfo (resizedRecord drv swapchainInfo width height)
        renderPassHandle drv.newSwapchain (resizeExtent drv.caps width height)
        (resizeCallsToCreation deviceInfo swapchainInfo drv.caps width height ++
          destroyOldSwapchain deviceInfo swapchainInfo.swapchain) := by
  have hdim : ¬ (width ≤ 0 ∨ height ≤ 0) := by omega
  have hhandles : ¬ (deviceHandle = 0 ∨ swapchainHandle = 0) := by
    intro h; rcases h with h | h
    · exact hdev h
    · exact hsc h
  unfold nativeResizeSwapchain resizeCallsToCreation destroyOldSwapchain resizedRecord
  rw [if_neg hdim, if_neg hhandles]
  simp only [hidle, hcaps, hc, ne_eq, not_true_eq_false, not_false_eq_true, if_false, if_true]

theorem nativeResizeSwapchain_of_not_created (drv : SwapchainDriver)
    (deviceHandle : Handle) (deviceInfo : DeviceInfo)
    (swapchainHandle : Handle) (swapchainInfo : SwapchainInfo)
    (renderPassHandle : Handle) (width height : Int)
    (hw : 0 < width) (hh : 0 < height) (hdev : deviceHandle ≠ 0) (hsc : swapchainHandle ≠ 0)
    (hidle : drv.waitIdle = VK_SUCCESS) (hcaps : drv.capsResult = VK_SUCCESS)
    (hc : drv.createResult ≠ VK_SUCCESS) :
    nativeResizeSwapchain drv deviceHandle deviceInfo swapchainHandle swapchainInfo
        renderPassHandle width height =
      { ret := false, info := { swapchainInfo with framebuffers := [], imageViews := [] },
        calls := resizeCallsToCreation deviceInfo swapchainInfo drv.caps width height } := by
  have hdim : ¬ (width ≤ 0 ∨ height ≤ 0) := by omega
  have hhandles : ¬ (deviceHandle = 0 ∨ swapchainHandle = 0) := by
    intro h; rcases h with h | h
    · exact hdev h
    · exact hsc h
  unfold nativeResizeSwapchain resizeCallsToCreation
  rw [if_neg hdim, if_neg hhandles]
  simp only [hidle, hcaps, hc, ne_eq, not_true_eq_false, not_false_eq_true, if_false, if_true]

theorem swapchainRequests_resizeCallsToCreation (deviceInfo : DeviceInfo)
    (swapchainInfo : SwapchainInfo) (surfaceCapabilities : VkSurfaceCapabilitiesKHR)
    (width height : Int) :
    swapchainRequests (resizeCallsToCreation deviceInfo swapchainInfo surfaceCapabilities
        width height) =
      [resizeSwapchainRequest deviceInfo swapchainInfo surfaceCapabilities
        (resizeExtent surfaceCapabilities width height) swapchainInfo.swapchain] := by
  have hfb := destroyedSwapchains_destroyFramebuffers deviceInfo.device
    (swapchainInfo.framebuffers.filter (· ≠ VK_NULL_HANDLE))
  have hiv := destroyedSwapchains_destroyImageViews deviceInfo.device
    (swapchainInfo.imageViews.filter (· ≠ VK_NULL_HANDLE))
  unfold resizeCallsToCreation
  simp only [swapchainRequests_append, hfb.2, hiv.2]
  simp [swapchainRequests]

theorem swapchainRequests_nativeResizeSwapchain (drv : SwapchainDriver)
    (deviceHandle : Handle) (deviceInfo : DeviceInfo)
    (swapchainHandle : Handle) (swapchainInfo : SwapchainInfo)
    (renderPassHandle : Handle) (width height : Int)
    (hw : 0 < width) (hh : 0 < height) (hdev : deviceHandle ≠ 0) (hsc : swapchainHandle ≠ 0)
    (hidle : drv.waitIdle = VK_SUCCESS) (hcaps : drv.capsResult = VK_SUCCESS) :
    swapchainRequests (nativeResizeSwapchain drv deviceHandle deviceInfo swapchainHandle
        swapchainInfo renderPassHandle width height).calls =
      [resizeSwapchainRequest deviceInfo swapchainInfo drv.caps
        (resizeExtent drv.caps width height) swapchainInfo.swapchain] := by
  by_cases hc : drv.createResult = VK_SUCCESS
  · rw [nativeResizeSwapchain_of_created drv deviceHandle deviceInfo swapchainHandle
      swapchainInfo renderPassHandle width height hw hh hdev hsc hidle hcaps hc]
    obtain ⟨_, tail, hcalls, _, hr⟩ := resizeRebuild_calls drv deviceInfo
      (resizedRecord drv swapchainInfo width height) renderPassHandle drv.newSwapchain
      (resizeExtent drv.caps width height)
      (resizeCallsToCreation deviceInfo swapchainInfo drv.caps width height ++
        destroyOldSwapchain deviceInfo swapchainInfo.swapchain)
    rw [hcalls, swapchainRequests_append, swapchainRequests_append,
      swapchainRequests_resizeCallsToCreation, hr]
    unfold destroyOldSwapchain
    split <;> simp [swapchainRequests]
  · rw [nativeResizeSwapchain_of_not_created drv deviceHandle deviceInfo swapchainHandle
      swapchainInfo renderPassHandle width height hw hh hdev hsc hidle hcaps hc]
    exact swapchainRequests_resizeCallsToCreation deviceInfo swapchainInfo drv.caps width height

theorem createImageViewsLoop_requests (drv : Nat → VkResult × Handle) (device : Handle)
    (format : Nat) : ∀ (images : List Handle) (i : Nat) (views : List Handle),
      swapchainRequests (createImageViewsLoop drv device format images i views).2 = [] ∧
      destroyedImageViews (createImageViewsLoop drv device format images i views).2 = [] := by
  intro images
  induction images with
  | nil => intro i views; simp [createImageViewsLoop, swapchainRequests, destroyedImageViews]
  | cons image rest ih =>
    intro i views
    have h := ih (i + 1) (views.set i (drv i).2)
    unfold swapchainRequests destroyedImageViews at h ⊢
    simp [createImageViewsLoop, h.1, h.2]

theorem swapchainRequests_nativeCreateSwapchain (drv : SwapchainDriver)
    (deviceInfo : DeviceInfo) :
    swapchainRequests (nativeCreateSwapchain drv deviceInfo).2 =
      [createSwapchainRequest deviceInfo drv.caps
        (selectSurfaceFormat (drv.formats.headD ⟨0, 0⟩) drv.formats)
        (if drv.caps.currentExtent.width = UINT32_MAX then ⟨1920, 1080⟩
          else drv.caps.currentExtent)] := by
  unfold nativeCreateSwapchain
  by_cases hc : drv.createResult = VK_SUCCESS
  · have h := (createImageViewsLoop_requests drv.imageView deviceInfo.device
      (selectSurfaceFormat (drv.formats.headD ⟨0, 0⟩) drv.formats).format
      ((List.range drv.imageCount).map drv.image) 0
      (List.replicate drv.imageCount VK_NULL_HANDLE)).1
    simp only [hc, ne_eq, not_true_eq_false, if_false, swapchainRequests_append, h]
    simp [swapchainRequests]
  · simp only [hc, ne_eq, not_false_eq_true, if_true, swapchainRequests_append]
    simp [swapchainRequests]

/-! ## Extent and image count of the requests -/

theorem clamp_bounds (v lo hi : Nat) (h : lo ≤ hi) : lo ≤ clamp v lo hi ∧ clamp v lo hi ≤ hi := by
  unfold clamp
  split
  · exact ⟨Nat.le_refl lo, h⟩
  · split <;> omega

theorem resizeExtent_eq_chooseSwapExtent (surfaceCapabilities : VkSurfaceCapabilitiesKHR)
    (width height : Int) (hw : 0 < width) (hw2 : width < 2 ^ 31) (hh : 0 < height)
    (hh2 : height < 2 ^ 31) :
    resizeExtent surfaceCapabilities width height =
      chooseSwapExtent surfaceCapabilities width.toNat height.toNat := by
  have h1 : toUInt32 width = width.toNat := by unfold toUInt32; omega
  have h2 : toUInt32 height = height.toNat := by unfold toUInt32; omega
  simp [resizeExtent, chooseSwapExtent, h1, h2]

/-- C19: the extent requested by `nativeResizeSwapchain` is the one the helper
`chooseSwapExtent` gives for the requested size: the surface's current extent
when its width is not `0xFFFFFFFF`, and otherwise the requested width and height
clamped to the surface's minimum and maximum per axis, which lies within these
bounds whenever the minimum does not exceed the maximum. -/
theorem nativeResizeSwapchain_extent (drv : SwapchainDriver)
    (deviceHandle : Handle) (deviceInfo : DeviceInfo)
    (swapchainHandle : Handle) (swapchainInfo : SwapchainInfo)
    (renderPassHandle : Handle) (width height : Int)
    (hw : 0 < width) (hw2 : width < 2 ^ 31) (hh : 0 < height) (hh2 : height < 2 ^ 31)
    (hdev : deviceHandle ≠ 0) (hsc : swapchainHandle ≠ 0)
    (hidle : drv.waitIdle = VK_SUCCESS) (hcaps : drv.capsResult = VK_SUCCESS) :
    (swapchainRequests (nativeResizeSwapchain drv deviceHandle deviceInfo swapchainHandle
        swapchainInfo renderPassHandle width height).calls).map (fun info => info.imageExtent) =
      [chooseSwapExtent drv.caps width.toNat height.toNat] ∧
    (drv.caps.currentExtent.width ≠ 0xFFFFFFFF →
      chooseSwapExtent drv.caps width.toNat height.toNat = drv.caps.currentExtent) ∧
    (drv.caps.currentExtent.width = 0xFFFFFFFF →
      chooseSwapExtent drv.caps width.toNat height.toNat =
        { width := clamp width.toNat drv.caps.minImageExtent.width
            drv.caps.maxImageExtent.width
          height := clamp height.toNat drv.caps.minImageExtent.height
            drv.caps.maxImageExtent.height } ∧
      (drv.caps.minImageExtent.width ≤ drv.caps.maxImageExtent.width →
        drv.caps.minImageExtent.height ≤ drv.caps.maxImageExtent.height →
        drv.caps.minImageExtent.width ≤
            (chooseSwapExtent drv.caps width.toNat height.toNat).width ∧
          (chooseSwapExtent drv.caps width.toNat height.toNat).width ≤
            drv.caps.maxImageExtent.width ∧
          drv.caps.minImageExtent.height ≤
            (chooseSwapExtent drv.caps width.toNat height.toNat).height ∧
          (chooseSwapExtent drv.caps width.toNat height.toNat).height ≤
            drv.caps.maxImageExtent.height)) := by
  refine ⟨?_, ?_, ?_⟩
  · rw [swapchainRequests_nativeResizeSwapchain drv deviceHandle deviceInfo swapchainHandle
      swapchainInfo renderPassHandle width height hw hh hdev hsc hidle hcaps,
      resizeExtent_eq_chooseSwapExtent drv.caps width height hw hw2 hh hh2]
    simp [resizeSwapchainRequest]
  · intro hdef
    have hdef' : drv.caps.currentExtent.width ≠ UINT32_MAX := hdef
    simp [chooseSwapExtent, hdef']
  · intro hundef
    have hundef' : drv.caps.currentExtent.width = UINT32_MAX := hundef
    have heq : chooseSwapExtent drv.caps width.toNat height.toNat =
        { width := clamp width.toNat drv.caps.minImageExtent.width
            drv.caps.maxImageExtent.width
          height := clamp height.toNat drv.caps.minImageExtent.height
            drv.caps.maxImageExtent.height } := by
      simp [chooseSwapExtent, hundef']
    refine ⟨heq, fun hwb hhb => ?_⟩
    rw [heq]
    exact ⟨(clamp_bounds _ _ _ hwb).1, (clamp_bounds _ _ _ hwb).2,
      (clamp_bounds _ _ _ hhb).1, (clamp_bounds _ _ _ hhb).2⟩

theorem nativeResizeSwapchain_extent_witness :
    (swapchainRequests (nativeResizeSwapchain undefinedExtentDriver 1 sampleDevice 2
        sampleSwapchain 5 8000 32).calls).map (fun info => info.imageExtent) =
      [chooseSwapExtent undefinedExtentDriver.caps 8000 32] ∧
    chooseSwapExtent undefinedExtentDriver.caps 8000 32 = ⟨4096, 64⟩ :=
  have h := nativeResizeSwapchain_extent undefinedExtentDriver 1 sampleDevice 2 sampleSwapchain 5
    8000 32 (by decide) (by decide) (by decide) (by decide) (by decide) (by decide) rfl rfl
  ⟨h.1, by decide⟩

theorem getSwapchainImageCount_eq_requestedImageCount (capabilities : VkSurfaceCapabilitiesKHR) :
    requestedImageCount capabilities = getSwapchainImageCount capabilities := rfl

theorem getSwapchainImageCount_spec (capabilities : VkSurfaceCapabilitiesKHR)
    (hmin : capabilities.minImageCount < 4294967295) :
    getSwapchainImageCount capabilities = specImageCount capabilities := by
  have hmod : (capabilities.minImageCount + 1) % 2 ^ 32 = capabilities.minImageCount + 1 := by
    omega
  unfold getSwapchainImageCount specImageCount
  simp only [hmod]
  by_cases hmax : capabilities.maxImageCount > 0
  · by_cases hgt : capabilities.minImageCount + 1 > capabilities.maxImageCount
    · simp [hmax, hgt]; omega
    · simp [hmax, hgt]; omega
  · simp [hmax]

/-- C20 (as amended): for every capabilities value whose minimum image count is
below `0xFFFFFFFF`, the image count requested by `nativeCreateSwapchain`, by
`nativeResizeSwapchain` and computed by `getSwapchainImageCount` is one number:
`min(minImageCount + 1, maxImageCount)` when `maxImageCount > 0`, and
`minImageCount + 1` when `maxImageCount` is 0. -/
theorem requested_image_count (drv : SwapchainDriver)
    (deviceHandle : Handle) (deviceInfo : DeviceInfo)
    (swapchainHandle : Handle) (swapchainInfo : SwapchainInfo)
    (renderPassHandle : Handle) (width height : Int)
    (hmin : drv.caps.minImageCount < 4294967295)
    (hw : 0 < width) (hh : 0 < height) (hdev : deviceHandle ≠ 0) (hsc : swapchainHandle ≠ 0)
    (hidle : drv.waitIdle = VK_SUCCESS) (hcaps : drv.capsResult = VK_SUCCESS) :
    getSwapchainImageCount drv.caps = specImageCount drv.caps ∧
    (swapchainRequests (nativeCreateSwapchain drv deviceInfo).2).map
      (fun info => info.minImageCount) = [specImageCount drv.caps] ∧
    (swapchainRequests (nativeResizeSwapchain drv deviceHandle deviceInfo swapchainHandle
        swapchainInfo renderPassHandle width height).calls).map
      (fun info => info.minImageCount) = [specImageCount drv.caps] := by
  have hspec := getSwapchainImageCount_spec drv.caps hmin
  refine ⟨hspec, ?_, ?_⟩
  · rw [swapchainRequests_nativeCreateSwapchain, ← hspec,
      ← getSwapchainImageCount_eq_requestedImageCount]
    simp [createSwapchainRequest]
  · rw [swapchainRequests_nativeResizeSwapchain drv deviceHandle deviceInfo swapchainHandle
      swapchainInfo renderPassHandle width height hw hh hdev hsc hidle hcaps, ← hspec,
      ← getSwapchainImageCount_eq_requestedImageCount]
    simp [resizeSwapchainRequest]

theorem requested_image_count_witness :
    getSwapchainImageCount sampleDriver.caps = 3 ∧
    (swapchainRequests (nativeCreateSwapchain sampleDriver sampleDevice).2).map
      (fun info => info.minImageCount) = [3] ∧
    (swapchainRequests (nativeResizeSwapchain sampleDriver 1 sampleDevice 2 sampleSwapchain 5
      1280 720).calls).map (fun info => info.minImageCount) = [3] :=
  requested_image_count sampleDriver 1 sampleDevice 2 sampleSwapchain 5 1280 720
    (by decide) (by decide) (by decide) (by decide) (by decide) rfl rfl

/-- C20, as stated, fails where the 32-bit sum wraps: for a minimum image count
of `0xFFFFFFFF` and a maximum of 8 the three computations give 0, not
`min(minImageCount + 1, maxImageCount) = 8`. -/
theorem requested_image_count_wraps :
    specImageCount wrappingCaps = 8 ∧
    getSwapchainImageCount wrappingCaps = 0 ∧
    (swapchainRequests (nativeCreateSwapchain wrappingDriver sampleDevice).2).map
      (fun info => info.minImageCount) = [0] ∧
    (swapchainRequests (nativeResizeSwapchain wrappingDriver 1 sampleDevice 2 sampleSwapchain 5
      1280 720).calls).map (fun info => info.minImageCount) = [0] := by
  decide

/-! ## Unchecked results and handles -/

theorem destroyedImageViews_append (a b : List Call) :
    destroyedImageViews (a ++ b) = destroyedImageViews a ++ destroyedImageViews b := by
  simp [destroyedImageViews, List.filterMap_append]

/-- C11: whether `nativeCreateSwapchain` returns a record depends on the result
of the swapchain creation only, and it never destroys an image view; with a
driver that fails the second of three image views it returns a record whose
second view is the null handle left by the failed creation. -/
theorem nativeCreateSwapchain_ignores_view_failure (drv : SwapchainDriver)
    (deviceInfo : DeviceInfo) :
    (nativeCreateSwapchain drv deviceInfo).1.isSome = decide (drv.createResult = VK_SUCCESS) ∧
    destroyedImageViews (nativeCreateSwapchain drv deviceInfo).2 = [] ∧
    (nativeCreateSwapchain viewFailingDriver sampleDevice).1 =
      some { swapchain := 21, images := [130, 131, 132], imageViews := [140, 0, 142],
             framebuffers := [], format := ⟨44, 0⟩, extent := ⟨1280, 720⟩ } := by
  refine ⟨?_, ?_, by decide⟩
  · unfold nativeCreateSwapchain
    by_cases hc : drv.createResult = VK_SUCCESS <;> simp [hc]
  · unfold nativeCreateSwapchain
    by_cases hc : drv.createResult = VK_SUCCESS
    · have h := (createImageViewsLoop_requests drv.imageView deviceInfo.device
        (selectSurfaceFormat (drv.formats.headD ⟨0, 0⟩) drv.formats).format
        ((List.range drv.imageCount).map drv.image) 0
        (List.replicate drv.imageCount VK_NULL_HANDLE)).2
      simp only [hc, ne_eq, not_true_eq_false, if_false, destroyedImageViews_append, h]
      simp [destroyedImageViews]
    · simp [hc, destroyedImageViews]

/-- C13: `nativeCreateDevice` does not look at the result of the surface
creation nor at the value returned by `findQueueFamily`: with a failed surface
creation (null surface) it returns a record holding the null surface, and with
no present-capable family it returns a record whose present family is
`0xFFFFFFFF`. -/
theorem nativeCreateDevice_unchecked_steps :
    (nativeCreateDevice surfacelessDriver 9).1 =
      some { device := 81, physicalDevice := 80, graphicsQueue := 90, presentQueue := 90,
             graphicsQueueFamily := 0, presentQueueFamily := 0, surface := 0 } ∧
    (nativeCreateDevice presentlessDriver 9).1 =
      some { device := 81, physicalDevice := 80, graphicsQueue := 90,
             presentQueue := 90 + 4294967295, graphicsQueueFamily := 0,
             presentQueueFamily := 4294967295, surface := 14 } := by
  decide

/-- C14: called with device handle 0, `nativeCreateShaderModule` and
`nativeCreateFramebuffers` return the sentinel without a driver call, but
`nativeCreateRenderPass`, `nativeCreateCommandPool`,
`nativeCreateDescriptorSetLayout`, `nativeCreatePipelineLayout` and
`nativeCreateSwapchain` read the device through the handle and call the driver
with it. -/
theorem creation_with_null_device_handle (elementsPinned : Bool) (drv : VkResult × Handle)
    (frameDrv : Nat → VkResult × Handle) (swapDrv : SwapchainDriver)
    (deviceInfo : DeviceInfo) (codeArray : Option (List Int))
    (swapchainHandle : Handle) (swapchainInfo : SwapchainInfo)
    (renderPass descriptorSetLayoutHandle : Handle) :
    nativeCreateShaderModule elementsPinned drv 0 deviceInfo codeArray = (0, []) ∧
    nativeCreateFramebuffers frameDrv 0 deviceInfo swapchainHandle swapchainInfo renderPass =
      { ret := false, info := swapchainInfo, calls := [] } ∧
    (nativeCreateRenderPass drv 0 deviceInfo).2 =
      [Call.vkCreateRenderPass deviceInfo.device VK_FORMAT_B8G8R8A8_UNORM] ∧
    (nativeCreateCommandPool drv 0 deviceInfo).2 =
      [Call.vkCreateCommandPool deviceInfo.device deviceInfo.graphicsQueueFamily] ∧
    (nativeCreateDescriptorSetLayout drv 0 deviceInfo).2 =
      [Call.vkCreateDescriptorSetLayout deviceInfo.device
        [{ binding := 0, descriptorType := VK_DESCRIPTOR_TYPE_COMBINED_IMAGE_SAMPLER,
           descriptorCount := 1, stageFlags := VK_SHADER_STAGE_FRAGMENT_BIT }]] ∧
    (nativeCreatePipelineLayout drv 0 deviceInfo descriptorSetLayoutHandle).2 =
      [Call.vkCreatePipelineLayout deviceInfo.device [descriptorSetLayoutHandle]
        [{ stageFlags := VK_SHADER_STAGE_VERTEX_BIT, offset := 0, size := 128 }]] ∧
    (swapchainRequests (nativeCreateSwapchain swapDrv deviceInfo).2).length = 1 := by
  refine ⟨by simp [nativeCreateShaderModule], by simp [nativeCreateFramebuffers], ?_, ?_, ?_, ?_,
    ?_⟩
  · by_cases hr : drv.1 = VK_SUCCESS <;> simp [nativeCreateRenderPass, hr]
  · by_cases hr : drv.1 = VK_SUCCESS <;> simp [nativeCreateCommandPool, hr]
  · by_cases hr : drv.1 = VK_SUCCESS <;> simp [nativeCreateDescriptorSetLayout, hr]
  · by_cases hr : drv.1 = VK_SUCCESS <;> simp [nativeCreatePipelineLayout, hr, sizeofFloat]
  · rw [swapchainRequests_nativeCreateSwapchain]
    rfl

/-- C15: `nativeBeginRenderPass` records nothing for an index outside the
framebuffer list, but `nativeGetSwapchainImageView` has no such check: on a
swapchain of three image views, index 3 and index -1 read outside the vector
instead of returning 0. -/
theorem nativeGetSwapchainImageView_unchecked :
    nativeBeginRenderPass 6 5 3 sampleSwapchain = [] ∧
    nativeBeginRenderPass 6 5 (-1) sampleSwapchain = [] ∧
    nativeGetSwapchainImageView sampleSwapchain 2 = some 42 ∧
    nativeGetSwapchainImageView sampleSwapchain 3 = none ∧
    nativeGetSwapchainImageView sampleSwapchain (-1) = none := by
  decide

/-- C16: with two frame slots, slot 0 created and the second semaphore of slot 1
failing, `nativeCreateSyncObjects` returns false after destroying the three
objects of slot 0 only: the first semaphore of slot 1 (handle 201) has been
created and is not destroyed. -/
theorem nativeCreateSyncObjects_leaks_current_slot :
    (nativeCreateSyncObjects slotOneFailingDriver sampleDevice 2 [0, 0] [0, 0] [0, 0]).ret
      = false ∧
    (nativeCreateSyncObjects slotOneFailingDriver sampleDevice 2 [0, 0] [0, 0] [0, 0]).calls =
      [Call.vkCreateSemaphore 10, Call.vkCreateSemaphore 10, Call.vkCreateFence 10 1,
       Call.vkCreateSemaphore 10, Call.vkCreateSemaphore 10,
       Call.vkDestroySemaphore 10 200, Call.vkDestroySemaphore 10 210,
       Call.vkDestroyFence 10 220] ∧
    (slotOneFailingDriver.imageAvailable 1 = (0, 201)) ∧
    Call.vkDestroySemaphore 10 201 ∉
      (nativeCreateSyncObjects slotOneFailingDriver sampleDevice 2 [0, 0] [0, 0] [0, 0]).calls := by
  decide

/-! ## A failed framebuffer in a resize -/

theorem destroyedFramebuffers_append (a b : List Call) :
    destroyedFramebuffers (a ++ b) = destroyedFramebuffers a ++ destroyedFramebuffers b := by
  simp [destroyedFramebuffers, List.filterMap_append]

theorem destroyedFramebuffers_destroyFramebuffers (device : Handle) (l : List Handle) :
    destroyedFramebuffers (l.map (Call.vkDestroyFramebuffer device)) = l := by
  induction l with
  | nil => simp [destroyedFramebuffers]
  | cons a l ih =>
    unfold destroyedFramebuffers at ih ⊢
    simp [ih]

theorem destroyedFramebuffers_destroyImageViews (device : Handle) (l : List Handle) :
    destroyedFramebuffers (l.map (Call.vkDestroyImageView device)) = [] := by
  induction l with
  | nil => simp [destroyedFramebuffers]
  | cons a l ih =>
    unfold destroyedFramebuffers at ih ⊢
    simp [ih]

theorem destroyedFramebuffers_resizeCallsToCreation (deviceInfo : DeviceInfo)
    (swapchainInfo : SwapchainInfo) (surfaceCapabilities : VkSurfaceCapabilitiesKHR)
    (width height : Int) :
    destroyedFramebuffers (resizeCallsToCreation deviceInfo swapchainInfo surfaceCapabilities
        width height) = swapchainInfo.framebuffers.filter (· ≠ VK_NULL_HANDLE) := by
  unfold resizeCallsToCreation
  simp only [destroyedFramebuffers_append, destroyedFramebuffers_destroyFramebuffers,
    destroyedFramebuffers_destroyImageViews]
  simp [destroyedFramebuffers]

theorem resizeImageViewsLoop_ok (drv : Nat → VkResult × Handle) (device : Handle)
    (format : Nat) : ∀ (images : List Handle) (k : Nat) (views : List Handle),
      (∀ j, k ≤ j → j < k + images.length → (drv j).1 = VK_SUCCESS) →
      (resizeImageViewsLoop drv device format images k views).1 = true ∧
      (resizeImageViewsLoop drv device format images k views).2.1.length = views.length ∧
      destroyedFramebuffers (resizeImageViewsLoop drv device format images k views).2.2 = [] := by
  intro images
  induction images with
  | nil => intro k views _; simp [resizeImageViewsLoop, destroyedFramebuffers]
  | cons image rest ih =>
    intro k views hok
    have hk : (drv k).1 = VK_SUCCESS := hok k (Nat.le_refl k) (by simp)
    have h := ih (k + 1) (views.set k (drv k).2)
      (fun j hj hlt => hok j (by omega) (by simp at hlt ⊢; omega))
    unfold destroyedFramebuffers at h ⊢
    simp [resizeImageViewsLoop, hk, h.1, h.2.1, h.2.2]

theorem resizeFramebuffersLoop_fail (drv : Nat → VkResult × Handle) (device renderPass : Handle)
    (newExtent : VkExtent2D) (i : Nat) (hfail : (drv i).1 ≠ VK_SUCCESS) :
    ∀ (views : List Handle) (k : Nat) (fbs : List Handle),
      k ≤ i → i < k + views.length →
      (∀ j, k ≤ j → j < i → (drv j).1 = VK_SUCCESS) →
      (resizeFramebuffersLoop drv device renderPass newExtent views k fbs).1 = false ∧
      (resizeFramebuffersLoop drv device renderPass newExtent views k fbs).2.1.length =
        fbs.length ∧
      (∀ j, (resizeFramebuffersLoop drv device renderPass newExtent views k fbs).2.1.getD j
          VK_NULL_HANDLE =
        if k ≤ j ∧ j ≤ i ∧ j < fbs.length then (drv j).2 else fbs.getD j VK_NULL_HANDLE) ∧
      destroyedFramebuffers
        (resizeFramebuffersLoop drv device renderPass newExtent views k fbs).2.2 = [] := by
  intro views
  induction views with
  | nil => intro k fbs hk hi; simp at hi; omega
  | cons view rest ih =>
    intro k fbs hk hi hok
    rcases Nat.eq_or_lt_of_le hk with hki | hki
    · subst hki
      have hstep : resizeFramebuffersLoop drv device renderPass newExtent (view :: rest) k fbs =
          (false, fbs.set k (drv k).2, [framebufferRequest device renderPass newExtent view]) := by
        simp [resizeFramebuffersLoop, hfail, framebufferRequest]
      rw [hstep]
      refine ⟨rfl, by simp, ?_, by simp [destroyedFramebuffers, framebufferRequest]⟩
      intro j
      by_cases hj : j = k
      · subst hj
        by_cases hlen : j < fbs.length
        · rw [if_pos ⟨Nat.le_refl j, Nat.le_refl j, hlen⟩]
          exact getD_set_self fbs j _ hlen
        · have hneg : ¬ (j ≤ j ∧ j ≤ j ∧ j < fbs.length) := by omega
          rw [if_neg hneg, List.set_eq_of_length_le (by omega)]
      · rw [getD_set_of_ne fbs k j _ hj]
        have hneg : ¬ (k ≤ j ∧ j ≤ k ∧ j < fbs.length) := by omega
        rw [if_neg hneg]
    · have hsucc : (drv k).1 = VK_SUCCESS := hok k (Nat.le_refl k) hki
      have hrec := ih (k + 1) (fbs.set k (drv k).2) hki (by simp at hi ⊢; omega)
        (fun j hj hji => hok j (by omega) hji)
      have hstep : resizeFramebuffersLoop drv device renderPass newExtent (view :: rest) k fbs =
          ((resizeFramebuffersLoop drv device renderPass newExtent rest (k + 1)
              (fbs.set k (drv k).2)).1,
           (resizeFramebuffersLoop drv device renderPass newExtent rest (k + 1)
              (fbs.set k (drv k).2)).2.1,
           framebufferRequest device renderPass newExtent view ::
             (resizeFramebuffersLoop drv device renderPass newExtent rest (k + 1)
              (fbs.set k (drv k).2)).2.2) := by
        simp [resizeFramebuffersLoop, hsucc, framebufferRequest]
      rw [hstep]
      refine ⟨hrec.1, by simpa using hrec.2.1, ?_, ?_⟩
      · intro j
        have hj := hrec.2.2.1 j
        simp only [List.length_set] at hj
        rw [hj]
        by_cases hjk : j = k
        · subst hjk
          have h1 : ¬ (j + 1 ≤ j ∧ j ≤ i ∧ j < fbs.length) := by omega
          rw [if_neg h1]
          by_cases hlen : j < fbs.length
          · rw [if_pos ⟨Nat.le_refl j, hk, hlen⟩]
            exact getD_set_self fbs j _ hlen
          · have h2 : ¬ (j ≤ j ∧ j ≤ i ∧ j < fbs.length) := by omega
            rw [if_neg h2, List.set_eq_of_length_le (by omega)]
        · rw [getD_set_of_ne fbs k j _ hjk]
          by_cases hc : k + 1 ≤ j ∧ j ≤ i ∧ j < fbs.length
          · have h2 : k ≤ j ∧ j ≤ i ∧ j < fbs.length := by omega
            rw [if_pos hc, if_pos h2]
          · have h2 : ¬ (k ≤ j ∧ j ≤ i ∧ j < fbs.length) := by omega
            rw [if_neg hc, if_neg h2]
      · have h := hrec.2.2.2
        unfold destroyedFramebuffers at h ⊢
        simp [framebufferRequest, h]

theorem vectorResize_nil (n : Nat) :
    vectorResize [] n = List.replicate n VK_NULL_HANDLE := by
  simp [vectorResize]

theorem resizeRebuild_framebuffer_failure (drv : SwapchainDriver) (deviceInfo : DeviceInfo)
    (info : SwapchainInfo) (renderPass newSwapchain : Handle) (newExtent : VkExtent2D)
    (calls : List Call) (i : Nat)
    (hnoviews : info.imageViews = []) (hnofbs : info.framebuffers = [])
    (hviews : ∀ j, j < drv.imageCount → (drv.imageView j).1 = VK_SUCCESS)
    (hi : i < drv.imageCount)
    (hok : ∀ j, j < i → (drv.framebuffer j).1 = VK_SUCCESS)
    (hfail : (drv.framebuffer i).1 ≠ VK_SUCCESS) :
    (resizeRebuild drv deviceInfo info renderPass newSwapchain newExtent calls).ret = false ∧
    destroyedFramebuffers
      (resizeRebuild drv deviceInfo info renderPass newSwapchain newExtent calls).calls =
      destroyedFramebuffers calls ∧
    (resizeRebuild drv deviceInfo info renderPass newSwapchain newExtent
      calls).info.framebuffers.length = drv.imageCount ∧
    ∀ j, (resizeRebuild drv deviceInfo info renderPass newSwapchain newExtent
        calls).info.framebuffers.getD j VK_NULL_HANDLE =
      if j ≤ i then (drv.framebuffer j).2 else VK_NULL_HANDLE := by
  have hv := resizeImageViewsLoop_ok drv.imageView deviceInfo.device info.format.format
    ((List.range drv.imageCount).map drv.image) 0 (vectorResize info.imageViews drv.imageCount)
    (fun j _ hj => hviews j (by simpa using hj))
  have hvlen : (resizeImageViewsLoop drv.imageView deviceInfo.device info.format.format
      ((List.range drv.imageCount).map drv.image) 0
      (vectorResize info.imageViews drv.imageCount)).2.1.length = drv.imageCount := by
    rw [hv.2.1, hnoviews, vectorResize_nil]; simp
  have hf := resizeFramebuffersLoop_fail drv.framebuffer deviceInfo.device renderPass newExtent
    i hfail
    (resizeImageViewsLoop drv.imageView deviceInfo.device info.format.format
      ((List.range drv.imageCount).map drv.image) 0
      (vectorResize info.imageViews drv.imageCount)).2.1 0
    (vectorResize info.framebuffers drv.imageCount) (Nat.zero_le i)
    (by rw [hvlen]; omega) (fun j _ hj => hok j hj)
  have hflen : (vectorResize info.framebuffers drv.imageCount).length = drv.imageCount := by
    rw [hnofbs, vectorResize_nil]; simp
  unfold resizeRebuild
  simp only [hv.1, Bool.true_eq_false, if_false]
  refine ⟨hf.1, ?_, by rw [hf.2.1, hflen], ?_⟩
  · simp only [destroyedFramebuffers_append, hv.2.2, hf.2.2.2]
    simp [destroyedFramebuffers]
  · intro j
    have hj := hf.2.2.1 j
    rw [hflen] at hj
    rw [hj]
    by_cases hji : j ≤ i
    · have hc : 0 ≤ j ∧ j ≤ i ∧ j < drv.imageCount := ⟨Nat.zero_le j, hji, by omega⟩
      rw [if_pos hc, if_pos hji]
    · have hc : ¬ (0 ≤ j ∧ j ≤ i ∧ j < drv.imageCount) := by omega
      rw [if_neg hc, if_neg hji, hnofbs, vectorResize_nil]
      simp only [List.getD_eq_getElem?_getD, List.getElem?_replicate]
      split <;> rfl

/-- C12 (as amended): when a resize has rebuilt its image views and framebuffer
creation first fails at index `i`, the call returns false at once and rolls
nothing back: the only framebuffers it has destroyed are the old ones of step 2,
and the framebuffer list of the record is left with one slot per image, holding
the framebuffers created for the indices below `i`, the content left by the
failed creation at `i`, and null handles above. -/
theorem nativeResizeSwapchain_framebuffer_failure (drv : SwapchainDriver)
    (deviceHandle : Handle) (deviceInfo : DeviceInfo)
    (swapchainHandle : Handle) (swapchainInfo : SwapchainInfo)
    (renderPassHandle : Handle) (width height : Int) (i : Nat)
    (hw : 0 < width) (hh : 0 < height) (hdev : deviceHandle ≠ 0) (hsc : swapchainHandle ≠ 0)
    (hidle : drv.waitIdle = VK_SUCCESS) (hcaps : drv.capsResult = VK_SUCCESS)
    (hc : drv.createResult = VK_SUCCESS)
    (hviews : ∀ j, j < drv.imageCount → (drv.imageView j).1 = VK_SUCCESS)
    (hi : i < drv.imageCount)
    (hok : ∀ j, j < i → (drv.framebuffer j).1 = VK_SUCCESS)
    (hfail : (drv.framebuffer i).1 ≠ VK_SUCCESS) :
    (nativeResizeSwapchain drv deviceHandle deviceInfo swapchainHandle swapchainInfo
      renderPassHandle width height).ret = false ∧
    destroyedFramebuffers (nativeResizeSwapchain drv deviceHandle deviceInfo swapchainHandle
      swapchainInfo renderPassHandle width height).calls =
      swapchainInfo.framebuffers.filter (· ≠ VK_NULL_HANDLE) ∧
    (nativeResizeSwapchain drv deviceHandle deviceInfo swapchainHandle swapchainInfo
      renderPassHandle width height).info.framebuffers.length = drv.imageCount ∧
    ∀ j, (nativeResizeSwapchain drv deviceHandle deviceInfo swapchainHandle swapchainInfo
        renderPassHandle width height).info.framebuffers.getD j VK_NULL_HANDLE =
      if j ≤ i then (drv.framebuffer j).2 else VK_NULL_HANDLE := by
  rw [nativeResizeSwapchain_of_created drv deviceHandle deviceInfo swapchainHandle swapchainInfo
    renderPassHandle width height hw hh hdev hsc hidle hcaps hc]
  have h := resizeRebuild_framebuffer_failure drv deviceInfo
    (resizedRecord drv swapchainInfo width height) renderPassHandle drv.newSwapchain
    (resizeExtent drv.caps width height)
    (resizeCallsToCreation deviceInfo swapchainInfo drv.caps width height ++
      destroyOldSwapchain deviceInfo swapchainInfo.swapchain) i rfl rfl hviews hi hok hfail
  refine ⟨h.1, ?_, h.2.2.1, h.2.2.2⟩
  rw [h.2.1, destroyedFramebuffers_append, destroyedFramebuffers_resizeCallsToCreation]
  unfold destroyOldSwapchain
  split <;> simp [destroyedFramebuffers]

theorem nativeResizeSwapchain_framebuffer_failure_witness :
    (nativeResizeSwapchain framebufferFailingDriver 1 sampleDevice 2 sampleSwapchain 5 1280
      720).ret = false ∧
    destroyedFramebuffers (nativeResizeSwapchain framebufferFailingDriver 1 sampleDevice 2
      sampleSwapchain 5 1280 720).calls = [50, 51, 52] ∧
    (nativeResizeSwapchain framebufferFailingDriver 1 sampleDevice 2 sampleSwapchain 5 1280
      720).info.framebuffers.length = 3 :=
  have h := nativeResizeSwapchain_framebuffer_failure framebufferFailingDriver 1 sampleDevice 2
    sampleSwapchain 5 1280 720 2 (by decide) (by decide) (by decide) (by decide) rfl rfl rfl
    (by intro j _; rfl) (by decide)
    (by intro j hj; have hne : j ≠ 2 := Nat.ne_of_lt hj
        simp [framebufferFailingDriver, hne, VK_SUCCESS])
    (by decide)
  ⟨h.1, h.2.1, h.2.2.1⟩

/-- C12, as stated, fails: with a driver that fails the third framebuffer of a
resize, the call returns false having destroyed the three old framebuffers only;
the two framebuffers created in the call (150 and 151) are not destroyed and
stay in the record. -/
theorem nativeResizeSwapchain_no_framebuffer_rollback :
    (nativeResizeSwapchain framebufferFailingDriver 1 sampleDevice 2 sampleSwapchain 5 1280
      720).ret = false ∧
    (nativeResizeSwapchain framebufferFailingDriver 1 sampleDevice 2 sampleSwapchain 5 1280
      720).info.framebuffers = [150, 151, 0] ∧
    destroyedFramebuffers (nativeResizeSwapchain framebufferFailingDriver 1 sampleDevice 2
      sampleSwapchain 5 1280 720).calls = [50, 51, 52] := by
  decide

/-! ## Surface format and extent of the creation -/

theorem selectSurfaceFormat_eq_find (current : VkSurfaceFormatKHR) :
    ∀ formats : List VkSurfaceFormatKHR,
      selectSurfaceFormat current formats = (formats.find? isPreferredFormat).getD current := by
  intro formats
  induction formats with
  | nil => rfl
  | cons format rest ih =>
    by_cases h : format.format = VK_FORMAT_B8G8R8A8_UNORM ∧
        format.colorSpace = VK_COLOR_SPACE_SRGB_NONLINEAR_KHR
    · simp [selectSurfaceFormat, List.find?, isPreferredFormat, h]
    · simp [selectSurfaceFormat, List.find?, isPreferredFormat, h, ih]

theorem chooseSurfaceFormatLoop_eq_find :
    ∀ formats : List VkSurfaceFormatKHR,
      chooseSurfaceFormatLoop formats = formats.find? isPreferredFormat := by
  intro formats
  induction formats with
  | nil => rfl
  | cons format rest ih =>
    by_cases h : format.format = VK_FORMAT_B8G8R8A8_UNORM ∧
        format.colorSpace = VK_COLOR_SPACE_SRGB_NONLINEAR_KHR
    · simp [chooseSurfaceFormatLoop, List.find?, isPreferredFormat, h]
    · simp [chooseSurfaceFormatLoop, List.find?, isPreferredFormat, h, ih]

theorem specSurfaceFormat_mem (formats : List VkSurfaceFormatKHR) (selected : VkSurfaceFormatKHR)
    (h : specSurfaceFormat formats = some selected) : selected ∈ formats := by
  unfold specSurfaceFormat at h
  cases hf : formats.find? isPreferredFormat with
  | some format =>
    rw [hf] at h
    injection h with h
    exact h ▸ List.mem_of_find?_eq_some hf
  | none =>
    rw [hf] at h
    exact List.mem_of_mem_head? h

/-- C21: for every non-empty list of surface formats, the helper
`chooseSurfaceFormat` and the selection of `nativeCreateSwapchain` pick the
first element whose format is B8G8R8A8_UNORM with colour space SRGB_NONLINEAR,
and the first element of the list when no element has that pair; the selected
value is a member of the list, it is the format of the creation request and the
format stored in the returned record. -/
theorem surface_format_selection (drv : SwapchainDriver) (deviceInfo : DeviceInfo)
    (hne : drv.formats ≠ []) :
    ∃ selected, specSurfaceFormat drv.formats = some selected ∧ selected ∈ drv.formats ∧
      chooseSurfaceFormat drv.formats = some selected ∧
      requestedSurfaceFormats (nativeCreateSwapchain drv deviceInfo).2 = [selected] ∧
      ∀ info, (nativeCreateSwapchain drv deviceInfo).1 = some info → info.format = selected := by
  obtain ⟨first, rest, hf⟩ := List.exists_cons_of_ne_nil hne
  have hsel : specSurfaceFormat drv.formats =
      some (selectSurfaceFormat (drv.formats.headD ⟨0, 0⟩) drv.formats) := by
    rw [selectSurfaceFormat_eq_find]
    unfold specSurfaceFormat
    cases hfind : drv.formats.find? isPreferredFormat with
    | some format => rfl
    | none => rw [hf]; rfl
  refine ⟨selectSurfaceFormat (drv.formats.headD ⟨0, 0⟩) drv.formats, hsel,
    specSurfaceFormat_mem _ _ hsel, ?_, ?_, ?_⟩
  · rw [← hsel]
    unfold chooseSurfaceFormat specSurfaceFormat
    rw [chooseSurfaceFormatLoop_eq_find]
  · unfold requestedSurfaceFormats
    rw [swapchainRequests_nativeCreateSwapchain]
    rfl
  · intro info hinfo
    unfold nativeCreateSwapchain at hinfo
    by_cases hc : drv.createResult = VK_SUCCESS
    · simp only [hc, ne_eq, not_true_eq_false, if_false] at hinfo
      injection hinfo with hinfo
      rw [← hinfo]
    · simp only [hc, ne_eq, not_false_eq_true, if_true] at hinfo
      exact absurd hinfo (by simp)

theorem surface_format_selection_witness :
    preferredSecondDriver.formats ≠ [] ∧
    ∃ selected, specSurfaceFormat preferredSecondDriver.formats = some selected ∧
      selected ∈ preferredSecondDriver.formats ∧
      chooseSurfaceFormat preferredSecondDriver.formats = some selected ∧
      requestedSurfaceFormats (nativeCreateSwapchain preferredSecondDriver sampleDevice).2 =
        [selected] ∧
      ∀ info, (nativeCreateSwapchain preferredSecondDriver sampleDevice).1 = some info →
        info.format = selected :=
  ⟨by decide, surface_format_selection preferredSecondDriver sampleDevice (by decide)⟩

/-- C22: the swapchain creation requests the surface's current extent when it
is defined and the fallback 1920x1080 exactly when the current width is
0xFFFFFFFF, and the record returned on success stores the extent that was
requested. -/
theorem nativeCreateSwapchain_extent (drv : SwapchainDriver) (deviceInfo : DeviceInfo) :
    requestedExtents (nativeCreateSwapchain drv deviceInfo).2 =
      [if drv.caps.currentExtent.width = 4294967295 then fallbackExtent
        else drv.caps.currentExtent] ∧
    (nativeCreateSwapchain drv deviceInfo).1.map (fun info => [info.extent]) =
      if drv.createResult = VK_SUCCESS then
        some (requestedExtents (nativeCreateSwapchain drv deviceInfo).2)
      else none := by
  have hreq : requestedExtents (nativeCreateSwapchain drv deviceInfo).2 =
      [if drv.caps.currentExtent.width = UINT32_MAX then ⟨1920, 1080⟩
        else drv.caps.currentExtent] := by
    unfold requestedExtents
    rw [swapchainRequests_nativeCreateSwapchain]
    rfl
  refine ⟨hreq, ?_⟩
  rw [hreq]
  unfold nativeCreateSwapchain
  by_cases hc : drv.createResult = VK_SUCCESS
  · simp only [hc, ne_eq, not_true_eq_false, if_false, if_true, Option.map_some']
  · simp only [hc, ne_eq, not_false_eq_true, if_true, if_false, Option.map_none']

theorem vectorResize_length (v : List Handle) (n : Nat) : (vectorResize v n).length = n := by
  simp [vectorResize]
  omega

/-! ## Lists of a swapchain after creation and after a resize -/

theorem getD_set_ne_imp (l : List Handle) (k j : Nat) (h : Handle)
    (hne : (l.set k h).getD j VK_NULL_HANDLE ≠ l.getD j VK_NULL_HANDLE) :
    j = k ∧ (l.set k h).getD j VK_NULL_HANDLE = h := by
  by_cases hj : j = k
  · subst hj
    by_cases hlt : j < l.length
    · exact ⟨rfl, getD_set_self l j h hlt⟩
    · rw [List.set_eq_of_length_le (by omega)] at hne
      exact absurd rfl hne
  · exact absurd (getD_set_of_ne l k j h hj) hne

theorem resizeImageViewsLoop_entries (drv : Nat → VkResult × Handle) (device : Handle)
    (format : Nat) : ∀ (images : List Handle) (k : Nat) (views : List Handle),
      (resizeImageViewsLoop drv device format images k views).2.1.length = views.length ∧
      (∀ c, c ∈ (resizeImageViewsLoop drv device format images k views).2.2 →
        ∃ image, c = Call.vkCreateImageView device image format) ∧
      ∀ j, (resizeImageViewsLoop drv device format images k views).2.1.getD j VK_NULL_HANDLE ≠
          views.getD j VK_NULL_HANDLE →
        k ≤ j ∧ j < k + images.length ∧
        (resizeImageViewsLoop drv device format images k views).2.1.getD j VK_NULL_HANDLE =
          (drv j).2 ∧
        Call.vkCreateImageView device (images.getD (j - k) VK_NULL_HANDLE) format ∈
          (resizeImageViewsLoop drv device format images k views).2.2 := by
  intro images
  induction images with
  | nil =>
    intro k views
    refine ⟨rfl, ?_, ?_⟩
    · intro c hc; exact absurd hc (List.not_mem_nil c)
    · intro j hne; exact absurd rfl hne
  | cons image rest ih =>
    intro k views
    by_cases hk : (drv k).1 = VK_SUCCESS
    · have hstep : resizeImageViewsLoop drv device format (image :: rest) k views =
          ((resizeImageViewsLoop drv device format rest (k + 1) (views.set k (drv k).2)).1,
           (resizeImageViewsLoop drv device format rest (k + 1) (views.set k (drv k).2)).2.1,
           Call.vkCreateImageView device image format ::
             (resizeImageViewsLoop drv device format rest (k + 1)
               (views.set k (drv k).2)).2.2) := by
        simp [resizeImageViewsLoop, hk]
      rw [hstep]
      have h := ih (k + 1) (views.set k (drv k).2)
      refine ⟨by rw [h.1, List.length_set], ?_, ?_⟩
      · intro c hc
        rcases List.mem_cons.mp hc with hc | hc
        · exact ⟨image, hc⟩
        · exact h.2.1 c hc
      · intro j hne
        show k ≤ j ∧ j < k + (image :: rest).length ∧
          (resizeImageViewsLoop drv device format rest (k + 1)
            (views.set k (drv k).2)).2.1.getD j VK_NULL_HANDLE = (drv j).2 ∧
          Call.vkCreateImageView device ((image :: rest).getD (j - k) VK_NULL_HANDLE) format ∈
            Call.vkCreateImageView device image format ::
              (resizeImageViewsLoop drv device format rest (k + 1)
                (views.set k (drv k).2)).2.2
        by_cases hrec : (resizeImageViewsLoop drv device format rest (k + 1)
            (views.set k (drv k).2)).2.1.getD j VK_NULL_HANDLE =
            (views.set k (drv k).2).getD j VK_NULL_HANDLE
        · have hne1 : (views.set k (drv k).2).getD j VK_NULL_HANDLE ≠
              views.getD j VK_NULL_HANDLE := by
            intro heq
            exact hne (by
              show (resizeImageViewsLoop drv device format rest (k + 1)
                (views.set k (drv k).2)).2.1.getD j VK_NULL_HANDLE = _
              rw [hrec, heq])
          have hs := getD_set_ne_imp views k j _ hne1
          refine ⟨by omega, by simp only [List.length_cons]; omega, ?_, ?_⟩
          · rw [hrec, hs.2, hs.1]
          · rw [hs.1, Nat.sub_self]
            exact List.mem_cons_self _ _
        · have hi := h.2.2 j hrec
          refine ⟨by omega, by simp only [List.length_cons]; omega, hi.2.2.1, ?_⟩
          have hjk : j - k = (j - (k + 1)) + 1 := by omega
          rw [hjk]
          exact List.mem_cons_of_mem _ hi.2.2.2
    · have hstep : resizeImageViewsLoop drv device format (image :: rest) k views =
          (false, views.set k (drv k).2, [Call.vkCreateImageView device image format]) := by
        simp [resizeImageViewsLoop, hk]
      rw [hstep]
      refine ⟨List.length_set _ _ _, ?_, ?_⟩
      · intro c hc
        exact ⟨image, List.mem_singleton.mp hc⟩
      · intro j hne
        have hs := getD_set_ne_imp views k j _ hne
        refine ⟨by omega, by simp only [List.length_cons]; omega, ?_, ?_⟩
        · show (views.set k (drv k).2).getD j VK_NULL_HANDLE = (drv j).2
          rw [hs.2, hs.1]
        · rw [hs.1, Nat.sub_self]
          exact List.mem_singleton.mpr rfl

theorem resizeFramebuffersLoop_entries (drv : Nat → VkResult × Handle)
    (device renderPass : Handle) (newExtent : VkExtent2D) :
    ∀ (views : List Handle) (k : Nat) (fbs : List Handle),
      (resizeFramebuffersLoop drv device renderPass newExtent views k fbs).2.1.length =
        fbs.length ∧
      (∀ c, c ∈ (resizeFramebuffersLoop drv device renderPass newExtent views k fbs).2.2 →
        ∃ view, c = framebufferRequest device renderPass newExtent view) ∧
      ∀ j, (resizeFramebuffersLoop drv device renderPass newExtent views k fbs).2.1.getD j
          VK_NULL_HANDLE ≠ fbs.getD j VK_NULL_HANDLE →
        k ≤ j ∧ j < k + views.length ∧
        (resizeFramebuffersLoop drv device renderPass newExtent views k fbs).2.1.getD j
          VK_NULL_HANDLE = (drv j).2 ∧
        framebufferRequest device renderPass newExtent (views.getD (j - k) VK_NULL_HANDLE) ∈
          (resizeFramebuffersLoop drv device renderPass newExtent views k fbs).2.2 := by
  intro views
  induction views with
  | nil =>
    intro k fbs
    refine ⟨rfl, ?_, ?_⟩
    · intro c hc; exact absurd hc (List.not_mem_nil c)
    · intro j hne; exact absurd rfl hne
  | cons view rest ih =>
    intro k fbs
    by_cases hk : (drv k).1 = VK_SUCCESS
    · have hstep : resizeFramebuffersLoop drv device renderPass newExtent (view :: rest) k fbs =
          ((resizeFramebuffersLoop drv device renderPass newExtent rest (k + 1)
              (fbs.set k (drv k).2)).1,
           (resizeFramebuffersLoop drv device renderPass newExtent rest (k + 1)
              (fbs.set k (drv k).2)).2.1,
           framebufferRequest device renderPass newExtent view ::
             (resizeFramebuffersLoop drv device renderPass newExtent rest (k + 1)
               (fbs.set k (drv k).2)).2.2) := by
        simp [resizeFramebuffersLoop, hk, framebufferRequest]
      rw [hstep]
      have h := ih (k + 1) (fbs.set k (drv k).2)
      refine ⟨by rw [h.1, List.length_set], ?_, ?_⟩
      · intro c hc
        rcases List.mem_cons.mp hc with hc | hc
        · exact ⟨view, hc⟩
        · exact h.2.1 c hc
      · intro j hne
        show k ≤ j ∧ j < k + (view :: rest).length ∧
          (resizeFramebuffersLoop drv device renderPass newExtent rest (k + 1)
            (fbs.set k (drv k).2)).2.1.getD j VK_NULL_HANDLE = (drv j).2 ∧
          framebufferRequest device renderPass newExtent
              ((view :: rest).getD (j - k) VK_NULL_HANDLE) ∈
            framebufferRequest device renderPass newExtent view ::
              (resizeFramebuffersLoop drv device renderPass newExtent rest (k + 1)
                (fbs.set k (drv k).2)).2.2
        by_cases hrec : (resizeFramebuffersLoop drv device renderPass newExtent rest (k + 1)
            (fbs.set k (drv k).2)).2.1.getD j VK_NULL_HANDLE =
            (fbs.set k (drv k).2).getD j VK_NULL_HANDLE
        · have hne1 : (fbs.set k (drv k).2).getD j VK_NULL_HANDLE ≠
              fbs.getD j VK_NULL_HANDLE := by
            intro heq
            exact hne (by
              show (resizeFramebuffersLoop drv device renderPass newExtent rest (k + 1)
                (fbs.set k (drv k).2)).2.1.getD j VK_NULL_HANDLE = _
              rw [hrec, heq])
          have hs := getD_set_ne_imp fbs k j _ hne1
          refine ⟨by omega, by simp only [List.length_cons]; omega, ?_, ?_⟩
          · rw [hrec, hs.2, hs.1]
          · rw [hs.1, Nat.sub_self]
            exact List.mem_cons_self _ _
        · have hi := h.2.2 j hrec
          refine ⟨by omega, by simp only [List.length_cons]; omega, hi.2.2.1, ?_⟩
          have hjk : j - k = (j - (k + 1)) + 1 := by omega
          rw [hjk]
          exact List.mem_cons_of_mem _ hi.2.2.2
    · have hstep : resizeFramebuffersLoop drv device renderPass newExtent (view :: rest) k fbs =
          (false, fbs.set k (drv k).2,
           [framebufferRequest device renderPass newExtent view]) := by
        simp [resizeFramebuffersLoop, hk, framebufferRequest]
      rw [hstep]
      refine ⟨List.length_set _ _ _, ?_, ?_⟩
      · intro c hc
        exact ⟨view, List.mem_singleton.mp hc⟩
      · intro j hne
        have hs := getD_set_ne_imp fbs k j _ hne
        refine ⟨by omega, by simp only [List.length_cons]; omega, ?_, ?_⟩
        · show (fbs.set k (drv k).2).getD j VK_NULL_HANDLE = (drv j).2
          rw [hs.2, hs.1]
        · rw [hs.1, Nat.sub_self]
          exact List.mem_singleton.mpr rfl

theorem createImageViewsLoop_length (drv : Nat → VkResult × Handle) (device : Handle)
    (format : Nat) : ∀ (images : List Handle) (i : Nat) (views : List Handle),
      (createImageViewsLoop drv device format images i views).1.length = views.length := by
  intro images
  induction images with
  | nil => intro i views; rfl
  | cons image rest ih =>
    intro i views
    have h := ih (i + 1) (views.set i (drv i).2)
    simp only [createImageViewsLoop]
    rw [h, List.length_set]

theorem createFramebuffersLoop_ok (drv : Nat → VkResult × Handle) (device renderPass : Handle)
    (extent : VkExtent2D) : ∀ (views : List Handle) (k : Nat) (fbs : List Handle),
      (createFramebuffersLoop drv device renderPass extent views k fbs).1 = true →
      k + views.length ≤ fbs.length →
      (createFramebuffersLoop drv device renderPass extent views k fbs).2.1.length = fbs.length ∧
      (createFramebuffersLoop drv device renderPass extent views k fbs).2.2 =
        views.map (framebufferRequest device renderPass extent) ∧
      ∀ j, (createFramebuffersLoop drv device renderPass extent views k fbs).2.1.getD j
          VK_NULL_HANDLE =
        if k ≤ j ∧ j < k + views.length then (drv j).2 else fbs.getD j VK_NULL_HANDLE := by
  intro views
  induction views with
  | nil =>
    intro k fbs _ _
    refine ⟨rfl, rfl, ?_⟩
    intro j
    have hn : ¬ (k ≤ j ∧ j < k + ([] : List Handle).length) := by
      simp only [List.length_nil, Nat.add_zero]; omega
    rw [if_neg hn]
    rfl
  | cons view rest ih =>
    intro k fbs htrue hlen
    have hlen1 : k + 1 + rest.length ≤ fbs.length := by
      simp only [List.length_cons] at hlen; omega
    by_cases hk : (drv k).1 = VK_SUCCESS
    · have hstep : createFramebuffersLoop drv device renderPass extent (view :: rest) k fbs =
          ((createFramebuffersLoop drv device renderPass extent rest (k + 1)
              (fbs.set k (drv k).2)).1,
           (createFramebuffersLoop drv device renderPass extent rest (k + 1)
              (fbs.set k (drv k).2)).2.1,
           framebufferRequest device renderPass extent view ::
             (createFramebuffersLoop drv device renderPass extent rest (k + 1)
              (fbs.set k (drv k).2)).2.2) := by
        simp [createFramebuffersLoop, hk, framebufferRequest]
      rw [hstep] at htrue ⊢
      have h := ih (k + 1) (fbs.set k (drv k).2) htrue (by rw [List.length_set]; exact hlen1)
      refine ⟨by rw [h.1, List.length_set], by rw [h.2.1]; rfl, ?_⟩
      intro j
      show (createFramebuffersLoop drv device renderPass extent rest (k + 1)
              (fbs.set k (drv k).2)).2.1.getD j VK_NULL_HANDLE = _
      rw [h.2.2 j]
      simp only [List.length_cons]
      by_cases hj : j = k
      · subst hj
        rw [if_neg (by omega), if_pos (by omega)]
        exact getD_set_self fbs j _ (by omega)
      · rw [getD_set_of_ne fbs k j _ hj]
        by_cases hr : k + 1 ≤ j ∧ j < k + 1 + rest.length
        · rw [if_pos hr, if_pos (by omega)]
        · rw [if_neg hr, if_neg (by omega)]
    · have hstep : (createFramebuffersLoop drv device renderPass extent (view :: rest) k fbs).1 =
          false := by
        simp [createFramebuffersLoop, hk]
      rw [hstep] at htrue
      exact absurd htrue (by decide)

/-- C23: after a successful `nativeCreateSwapchain` and a `nativeCreateFramebuffers`
that returns true on the resulting record, the image, image-view and framebuffer
lists have one length, the framebuffer creations are one per image view, in
order, each with that image view as its single attachment, the extent of the
swapchain and one layer, and framebuffer `i` is the handle the `i`-th creation
produced. -/
theorem created_swapchain_lists_agree (drv : SwapchainDriver)
    (framebufferDrv : Nat → VkResult × Handle) (deviceInfo : DeviceInfo) (info : SwapchainInfo)
    (deviceHandle swapchainHandle renderPass : Handle)
    (hcreate : (nativeCreateSwapchain drv deviceInfo).1 = some info)
    (hfb : (nativeCreateFramebuffers framebufferDrv deviceHandle deviceInfo swapchainHandle
      info renderPass).ret = true) :
    (nativeCreateFramebuffers framebufferDrv deviceHandle deviceInfo swapchainHandle
      info renderPass).info.images.length =
    (nativeCreateFramebuffers framebufferDrv deviceHandle deviceInfo swapchainHandle
      info renderPass).info.imageViews.length ∧
    (nativeCreateFramebuffers framebufferDrv deviceHandle deviceInfo swapchainHandle
      info renderPass).info.imageViews.length =
    (nativeCreateFramebuffers framebufferDrv deviceHandle deviceInfo swapchainHandle
      info renderPass).info.framebuffers.length ∧
    (nativeCreateFramebuffers framebufferDrv deviceHandle deviceInfo swapchainHandle
      info renderPass).calls =
    (nativeCreateFramebuffers framebufferDrv deviceHandle deviceInfo swapchainHandle
      info renderPass).info.imageViews.map
        (framebufferRequest deviceInfo.device renderPass info.extent) ∧
    ∀ i, i < info.imageViews.length →
      (nativeCreateFramebuffers framebufferDrv deviceHandle deviceInfo swapchainHandle
        info renderPass).info.framebuffers[i]? = some (framebufferDrv i).2 := by
  have himages : info.images.length = info.imageViews.length := by
    unfold nativeCreateSwapchain at hcreate
    by_cases hc : drv.createResult = VK_SUCCESS
    · simp only [hc, ne_eq, not_true_eq_false, if_false] at hcreate
      injection hcreate with hcreate
      rw [← hcreate]
      simp only [createImageViewsLoop_length, List.length_map, List.length_range,
        List.length_replicate]
    · simp only [hc, ne_eq, not_false_eq_true, if_true] at hcreate
      exact absurd hcreate (by simp)
  by_cases hnull : deviceHandle = 0 ∨ swapchainHandle = 0 ∨ renderPass = 0
  · have hret : (nativeCreateFramebuffers framebufferDrv deviceHandle deviceInfo swapchainHandle
        info renderPass).ret = false := by
      simp [nativeCreateFramebuffers, hnull]
    rw [hret] at hfb
    exact absurd hfb (by decide)
  · have hval : nativeCreateFramebuffers framebufferDrv deviceHandle deviceInfo swapchainHandle
        info renderPass =
        { ret := (createFramebuffersLoop framebufferDrv deviceInfo.device renderPass info.extent
            info.imageViews 0 (vectorResize info.framebuffers info.imageViews.length)).1,
          info := { info with framebuffers :=
            (createFramebuffersLoop framebufferDrv deviceInfo.device renderPass info.extent
              info.imageViews 0 (vectorResize info.framebuffers info.imageViews.length)).2.1 },
          calls := (createFramebuffersLoop framebufferDrv deviceInfo.device renderPass info.extent
            info.imageViews 0 (vectorResize info.framebuffers info.imageViews.length)).2.2 } := by
      simp [nativeCreateFramebuffers, hnull]
    rw [hval] at hfb ⊢
    have h := createFramebuffersLoop_ok framebufferDrv deviceInfo.device renderPass info.extent
      info.imageViews 0 (vectorResize info.framebuffers info.imageViews.length) hfb
      (by rw [vectorResize_length]; omega)
    rw [vectorResize_length] at h
    refine ⟨himages, h.1.symm, h.2.1, ?_⟩
    intro i hi
    have hg := h.2.2 i
    rw [if_pos (by omega)] at hg
    show (createFramebuffersLoop framebufferDrv deviceInfo.device renderPass info.extent
      info.imageViews 0 (vectorResize info.framebuffers info.imageViews.length)).2.1[i]? = _
    rw [List.getD_eq_getElem?_getD] at hg
    have hlt : i < (createFramebuffersLoop framebufferDrv deviceInfo.device renderPass info.extent
      info.imageViews 0 (vectorResize info.framebuffers info.imageViews.length)).2.1.length := by
      rw [h.1]; exact hi
    rw [List.getElem?_eq_getElem hlt] at hg ⊢
    simp only [Option.getD_some] at hg
    rw [hg]

theorem created_swapchain_lists_agree_witness :
    (nativeCreateSwapchain sampleDriver sampleDevice).1 = some createdSwapchain ∧
    (nativeCreateFramebuffers sampleDriver.framebuffer 1 sampleDevice 2 createdSwapchain
      5).ret = true ∧
    (nativeCreateFramebuffers sampleDriver.framebuffer 1 sampleDevice 2 createdSwapchain
      5).info.images.length =
    (nativeCreateFramebuffers sampleDriver.framebuffer 1 sampleDevice 2 createdSwapchain
      5).info.imageViews.length ∧
    (nativeCreateFramebuffers sampleDriver.framebuffer 1 sampleDevice 2 createdSwapchain
      5).info.imageViews.length =
    (nativeCreateFramebuffers sampleDriver.framebuffer 1 sampleDevice 2 createdSwapchain
      5).info.framebuffers.length ∧
    (nativeCreateFramebuffers sampleDriver.framebuffer 1 sampleDevice 2 createdSwapchain
      5).calls =
    (nativeCreateFramebuffers sampleDriver.framebuffer 1 sampleDevice 2 createdSwapchain
      5).info.imageViews.map (framebufferRequest sampleDevice.device 5 createdSwapchain.extent) ∧
    ∀ i, i < createdSwapchain.imageViews.length →
      (nativeCreateFramebuffers sampleDriver.framebuffer 1 sampleDevice 2 createdSwapchain
        5).info.framebuffers[i]? = some (sampleDriver.framebuffer i).2 :=
  ⟨by decide, by decide,
    created_swapchain_lists_agree sampleDriver sampleDriver.framebuffer sampleDevice
      createdSwapchain 1 2 5 (by decide) (by decide)⟩

/-! ## Release of the transient objects of an upload -/

theorem recordAndSubmitUpload_release (drv : UploadDriver) (deviceInfo : DeviceInfo)
    (image : Handle) (width height : Nat) (oldLayout : VkImageLayout) :
    recordAndSubmitUpload drv deviceInfo drv.createBuffer.2 drv.allocateMemory.2
        image width height oldLayout =
      (recordAndSubmitUpload drv deviceInfo drv.createBuffer.2 drv.allocateMemory.2
        image width height oldLayout).take 8 ++ waitThenRelease drv deviceInfo ∧
    ((recordAndSubmitUpload drv deviceInfo drv.createBuffer.2 drv.allocateMemory.2
        image width height oldLayout).take 8).filter Call.isTransientRelease = [] ∧
    ((recordAndSubmitUpload drv deviceInfo drv.createBuffer.2 drv.allocateMemory.2
        image width height oldLayout).take 8).filter Call.isQueueWaitIdle = [] :=
  ⟨rfl, rfl, rfl⟩

/-- C24: a pixel update that passes its size check and gets its staging buffer
and staging memory, and every colour update, end with the queue-idle wait
followed by the release, once each, of the temporary command buffer, the
temporary command pool, the staging buffer and the staging memory the call
created; no release and no queue-idle wait comes before. The entry points do not
read the result of the submission, so this holds whatever the driver answers
to it. -/
theorem upload_releases_transients (drv : UploadDriver)
    (deviceHandle : Handle) (deviceInfo : DeviceInfo)
    (textureHandle : Handle) (textureInfo : InputTextureInfo)
    (dataArray : List Int) (r g b a : Int)
    (hdev : deviceHandle ≠ 0) (htex : textureHandle ≠ 0)
    (hsize : dataArray.length = expectedSize textureInfo)
    (hbuffer : drv.createBuffer.1 = VK_SUCCESS) (hmemory : drv.allocateMemory.1 = VK_SUCCESS) :
    (∃ issued, nativeUpdateInputTexture drv deviceHandle deviceInfo textureHandle textureInfo
        dataArray = issued ++ waitThenRelease drv deviceInfo ∧
      issued.filter Call.isTransientRelease = [] ∧ issued.filter Call.isQueueWaitIdle = []) ∧
    (∃ issued, nativeUpdateInputTextureColor drv deviceHandle deviceInfo textureHandle textureInfo
        r g b a = issued ++ waitThenRelease drv deviceInfo ∧
      issued.filter Call.isTransientRelease = [] ∧ issued.filter Call.isQueueWaitIdle = []) := by
  have hrel := recordAndSubmitUpload_release drv deviceInfo textureInfo.image textureInfo.width
    textureInfo.height VkImageLayout.SHADER_READ_ONLY_OPTIMAL
  constructor
  · refine ⟨[Call.vkCreateBuffer deviceInfo.device (expectedSize textureInfo)] ++
        stagingMemoryQueries deviceInfo drv.createBuffer.2 ++
        [Call.vkAllocateMemory deviceInfo.device] ++
        [Call.vkBindBufferMemory deviceInfo.device drv.createBuffer.2 drv.allocateMemory.2,
         Call.vkMapMemory deviceInfo.device drv.allocateMemory.2 (expectedSize textureInfo),
         Call.vkUnmapMemory deviceInfo.device drv.allocateMemory.2] ++
        (recordAndSubmitUpload drv deviceInfo drv.createBuffer.2 drv.allocateMemory.2
          textureInfo.image textureInfo.width textureInfo.height
          VkImageLayout.SHADER_READ_ONLY_OPTIMAL).take 8, ?_, ?_, ?_⟩
    · have hval : nativeUpdateInputTexture drv deviceHandle deviceInfo textureHandle textureInfo
          dataArray =
          [Call.vkCreateBuffer deviceInfo.device (expectedSize textureInfo)] ++
          stagingMemoryQueries deviceInfo drv.createBuffer.2 ++
          [Call.vkAllocateMemory deviceInfo.device] ++
          [Call.vkBindBufferMemory deviceInfo.device drv.createBuffer.2 drv.allocateMemory.2,
           Call.vkMapMemory deviceInfo.device drv.allocateMemory.2 (expectedSize textureInfo),
           Call.vkUnmapMemory deviceInfo.device drv.allocateMemory.2] ++
          recordAndSubmitUpload drv deviceInfo drv.createBuffer.2 drv.allocateMemory.2
            textureInfo.image textureInfo.width textureInfo.height
            VkImageLayout.SHADER_READ_ONLY_OPTIMAL := by
        simp [nativeUpdateInputTexture, hdev, htex, hsize, hbuffer, hmemory]
      rw [hval, List.append_assoc _ (List.take 8 _) _, ← hrel.1]
    · rw [List.filter_append, hrel.2.1]; rfl
    · rw [List.filter_append, hrel.2.2]; rfl
  · refine ⟨uncheckedStaging drv deviceInfo (expectedSize textureInfo) ++
        (recordAndSubmitUpload drv deviceInfo drv.createBuffer.2 drv.allocateMemory.2
          textureInfo.image textureInfo.width textureInfo.height
          VkImageLayout.SHADER_READ_ONLY_OPTIMAL).take 8, ?_, ?_, ?_⟩
    · have hval : nativeUpdateInputTextureColor drv deviceHandle deviceInfo textureHandle
          textureInfo r g b a =
          uncheckedStaging drv deviceInfo (expectedSize textureInfo) ++
          recordAndSubmitUpload drv deviceInfo drv.createBuffer.2 drv.allocateMemory.2
            textureInfo.image textureInfo.width textureInfo.height
            VkImageLayout.SHADER_READ_ONLY_OPTIMAL := by
        simp [nativeUpdateInputTextureColor, hdev, htex]
      rw [hval, List.append_assoc, ← hrel.1]
    · rw [List.filter_append, hrel.2.1]; rfl
    · rw [List.filter_append, hrel.2.2]; rfl

theorem upload_releases_transients_witness :
    (1 : Handle) ≠ 0 ∧ (2 : Handle) ≠ 0 ∧ samplePixels.length = expectedSize sampleTexture ∧
    sampleUploadDriver.createBuffer.1 = VK_SUCCESS ∧
    sampleUploadDriver.allocateMemory.1 = VK_SUCCESS ∧
    (∃ issued, nativeUpdateInputTexture sampleUploadDriver 1 sampleDevice 2 sampleTexture
        samplePixels = issued ++ waitThenRelease sampleUploadDriver sampleDevice ∧
      issued.filter Call.isTransientRelease = [] ∧ issued.filter Call.isQueueWaitIdle = []) ∧
    (∃ issued, nativeUpdateInputTextureColor sampleUploadDriver 1 sampleDevice 2 sampleTexture
        255 0 0 255 = issued ++ waitThenRelease sampleUploadDriver sampleDevice ∧
      issued.filter Call.isTransientRelease = [] ∧ issued.filter Call.isQueueWaitIdle = []) :=
  ⟨by decide, by decide, by decide, by decide, by decide,
    upload_releases_transients sampleUploadDriver 1 sampleDevice 2 sampleTexture samplePixels
      255 0 0 255 (by decide) (by decide) (by decide) (by decide) (by decide)⟩

/-! ## Handles held by the record after a resize -/

theorem getD_replicate_null (n j : Nat) :
    (List.replicate n VK_NULL_HANDLE).getD j VK_NULL_HANDLE = VK_NULL_HANDLE := by
  simp only [List.getD_eq_getElem?_getD, List.getElem?_replicate]
  split <;> rfl

theorem getD_of_getElem? (l : List Handle) (j : Nat) (e : Handle) (h : l[j]? = some e) :
    l.getD j VK_NULL_HANDLE = e := by
  rw [List.getD_eq_getElem?_getD, h]
  rfl

theorem destroyed_of_creations (calls : List Call)
    (h : ∀ c, c ∈ calls → (∃ device image format, c = Call.vkCreateImageView device image format) ∨
      (∃ device info, c = Call.vkCreateFramebuffer device info) ∨
      (∃ device swapchain, c = Call.vkGetSwapchainImagesKHR device swapchain)) :
    destroyedFramebuffers calls = [] ∧ destroyedImageViews calls = [] ∧
    destroyedSwapchains calls = [] := by
  unfold destroyedFramebuffers destroyedImageViews destroyedSwapchains
  refine ⟨?_, ?_, ?_⟩ <;>
  · rw [List.filterMap_eq_nil_iff]
    intro c hc
    rcases h c hc with ⟨_, _, _, h⟩ | ⟨_, _, h⟩ | ⟨_, _, h⟩ <;> rw [h]

/-- The record and the calls of steps 10 to 12 of the resize, started from a
record whose owned lists were cleared. -/
theorem resizeRebuild_record (drv : SwapchainDriver) (deviceInfo : DeviceInfo)
    (info : SwapchainInfo) (renderPass newSwapchain : Handle) (newExtent : VkExtent2D)
    (calls : List Call) (hnoviews : info.imageViews = []) (hnofbs : info.framebuffers = []) :
    (resizeRebuild drv deviceInfo info renderPass newSwapchain newExtent calls).info.swapchain =
      info.swapchain ∧
    (resizeRebuild drv deviceInfo info renderPass newSwapchain newExtent calls).info.extent =
      info.extent ∧
    (resizeRebuild drv deviceInfo info renderPass newSwapchain newExtent calls).info.images =
      info.images ∧
    (resizeRebuild drv deviceInfo info renderPass newSwapchain newExtent
      calls).info.imageViews.length = drv.imageCount ∧
    ((resizeRebuild drv deviceInfo info renderPass newSwapchain newExtent calls).ret = true →
      (resizeRebuild drv deviceInfo info renderPass newSwapchain newExtent
        calls).info.framebuffers.length = drv.imageCount) ∧
    ∃ tail, (resizeRebuild drv deviceInfo info renderPass newSwapchain newExtent calls).calls =
        calls ++ tail ∧
      destroyedFramebuffers tail = [] ∧ destroyedImageViews tail = [] ∧
      destroyedSwapchains tail = [] ∧
      (∀ j e, (resizeRebuild drv deviceInfo info renderPass newSwapchain newExtent
          calls).info.imageViews[j]? = some e → e ≠ VK_NULL_HANDLE →
        e = (drv.imageView j).2 ∧
        Call.vkCreateImageView deviceInfo.device (drv.image j) info.format.format ∈ tail) ∧
      ∀ j e, (resizeRebuild drv deviceInfo info renderPass newSwapchain newExtent
          calls).info.framebuffers[j]? = some e → e ≠ VK_NULL_HANDLE →
        e = (drv.framebuffer j).2 ∧
        ∃ view, (resizeRebuild drv deviceInfo info renderPass newSwapchain newExtent
            calls).info.imageViews[j]? = some view ∧
          framebufferRequest deviceInfo.device renderPass newExtent view ∈ tail := by
  have hv := resizeImageViewsLoop_entries drv.imageView deviceInfo.device info.format.format
    ((List.range drv.imageCount).map drv.image) 0 (List.replicate drv.imageCount VK_NULL_HANDLE)
  have hviewEntries : ∀ j e, (resizeImageViewsLoop drv.imageView deviceInfo.device
        info.format.format ((List.range drv.imageCount).map drv.image) 0
        (List.replicate drv.imageCount VK_NULL_HANDLE)).2.1[j]? = some e → e ≠ VK_NULL_HANDLE →
      e = (drv.imageView j).2 ∧
      Call.vkCreateImageView deviceInfo.device (drv.image j) info.format.format ∈
        (resizeImageViewsLoop drv.imageView deviceInfo.device
          info.format.format ((List.range drv.imageCount).map drv.image) 0
          (List.replicate drv.imageCount VK_NULL_HANDLE)).2.2 := by
    intro j e hje he
    have hg := getD_of_getElem? _ j e hje
    have hi := hv.2.2 j (by rw [hg, getD_replicate_null]; exact he)
    rw [hg] at hi
    refine ⟨hi.2.2.1, ?_⟩
    have hjn : j < drv.imageCount := by
      have := hi.2.1
      simp only [List.length_map, List.length_range] at this
      omega
    have himg : ((List.range drv.imageCount).map drv.image).getD (j - 0) VK_NULL_HANDLE =
        drv.image j := by
      simp [List.getD_eq_getElem?_getD, hjn]
    rw [← himg]
    exact hi.2.2.2
  by_cases hvok : (resizeImageViewsLoop drv.imageView deviceInfo.device
        info.format.format ((List.range drv.imageCount).map drv.image) 0
        (List.replicate drv.imageCount VK_NULL_HANDLE)).1 = false
  · have hval : resizeRebuild drv deviceInfo info renderPass newSwapchain newExtent calls =
        { ret := false,
          info := { info with imageViews := (resizeImageViewsLoop drv.imageView deviceInfo.device
            info.format.format ((List.range drv.imageCount).map drv.image) 0
            (List.replicate drv.imageCount VK_NULL_HANDLE)).2.1 },
          calls := calls ++ [Call.vkGetSwapchainImagesKHR deviceInfo.device newSwapchain,
            Call.vkGetSwapchainImagesKHR deviceInfo.device newSwapchain] ++
            (resizeImageViewsLoop drv.imageView deviceInfo.device
              info.format.format ((List.range drv.imageCount).map drv.image) 0
              (List.replicate drv.imageCount VK_NULL_HANDLE)).2.2 } := by
      simp [resizeRebuild, hnoviews, vectorResize_nil, hvok]
    rw [hval]
    refine ⟨rfl, rfl, rfl, ?_, ?_, ?_⟩
    · show (resizeImageViewsLoop drv.imageView deviceInfo.device
            info.format.format ((List.range drv.imageCount).map drv.image) 0
            (List.replicate drv.imageCount VK_NULL_HANDLE)).2.1.length = drv.imageCount
      rw [hv.1, List.length_replicate]
    · intro h; exact Bool.noConfusion h
    · refine ⟨[Call.vkGetSwapchainImagesKHR deviceInfo.device newSwapchain,
            Call.vkGetSwapchainImagesKHR deviceInfo.device newSwapchain] ++
            (resizeImageViewsLoop drv.imageView deviceInfo.device
              info.format.format ((List.range drv.imageCount).map drv.image) 0
              (List.replicate drv.imageCount VK_NULL_HANDLE)).2.2,
          by simp only [List.append_assoc], ?_⟩
      have hd := destroyed_of_creations
        ([Call.vkGetSwapchainImagesKHR deviceInfo.device newSwapchain,
            Call.vkGetSwapchainImagesKHR deviceInfo.device newSwapchain] ++
            (resizeImageViewsLoop drv.imageView deviceInfo.device
              info.format.format ((List.range drv.imageCount).map drv.image) 0
              (List.replicate drv.imageCount VK_NULL_HANDLE)).2.2)
        (by
          intro c hc
          rcases List.mem_append.mp hc with hc | hc
          · right; right
            simp only [List.mem_cons, List.mem_singleton, List.not_mem_nil, or_false,
              or_self] at hc
            exact ⟨_, _, hc⟩
          · left
            obtain ⟨image, himage⟩ := hv.2.1 c hc
            exact ⟨_, _, _, himage⟩)
      refine ⟨hd.1, hd.2.1, hd.2.2, ?_, ?_⟩
      · intro j e hje he
        have h := hviewEntries j e hje he
        exact ⟨h.1, List.mem_append_right _ h.2⟩
      · intro j e hje
        rw [show ({ info with imageViews := (resizeImageViewsLoop drv.imageView deviceInfo.device
            info.format.format ((List.range drv.imageCount).map drv.image) 0
            (List.replicate drv.imageCount VK_NULL_HANDLE)).2.1 } : SwapchainInfo).framebuffers =
            [] from hnofbs] at hje
        exact absurd hje (by simp)
  · have hf := resizeFramebuffersLoop_entries drv.framebuffer deviceInfo.device renderPass
      newExtent (resizeImageViewsLoop drv.imageView deviceInfo.device
            info.format.format ((List.range drv.imageCount).map drv.image) 0
            (List.replicate drv.imageCount VK_NULL_HANDLE)).2.1 0
      (List.replicate drv.imageCount VK_NULL_HANDLE)
    have hval : resizeRebuild drv deviceInfo info renderPass newSwapchain newExtent calls =
        { ret := (resizeFramebuffersLoop drv.framebuffer deviceInfo.device renderPass
            newExtent (resizeImageViewsLoop drv.imageView deviceInfo.device
              info.format.format ((List.range drv.imageCount).map drv.image) 0
              (List.replicate drv.imageCount VK_NULL_HANDLE)).2.1 0
            (List.replicate drv.imageCount VK_NULL_HANDLE)).1,
          info := { info with
            imageViews := (resizeImageViewsLoop drv.imageView deviceInfo.device
              info.format.format ((List.range drv.imageCount).map drv.image) 0
              (List.replicate drv.imageCount VK_NULL_HANDLE)).2.1,
            framebuffers := (resizeFramebuffersLoop drv.framebuffer deviceInfo.device renderPass
              newExtent (resizeImageViewsLoop drv.imageView deviceInfo.device
                info.format.format ((List.range drv.imageCount).map drv.image) 0
                (List.replicate drv.imageCount VK_NULL_HANDLE)).2.1 0
              (List.replicate drv.imageCount VK_NULL_HANDLE)).2.1 },
          calls := calls ++ [Call.vkGetSwapchainImagesKHR deviceInfo.device newSwapchain,
            Call.vkGetSwapchainImagesKHR deviceInfo.device newSwapchain] ++
            (resizeImageViewsLoop drv.imageView deviceInfo.device
              info.format.format ((List.range drv.imageCount).map drv.image) 0
              (List.replicate drv.imageCount VK_NULL_HANDLE)).2.2 ++
            (resizeFramebuffersLoop drv.framebuffer deviceInfo.device renderPass
              newExtent (resizeImageViewsLoop drv.imageView deviceInfo.device
                info.format.format ((List.range drv.imageCount).map drv.image) 0
                (List.replicate drv.imageCount VK_NULL_HANDLE)).2.1 0
              (List.replicate drv.imageCount VK_NULL_HANDLE)).2.2 } := by
      simp [resizeRebuild, hnoviews, hnofbs, vectorResize_nil, hvok]
    rw [hval]
    refine ⟨rfl, rfl, rfl, ?_, ?_, ?_⟩
    · show (resizeImageViewsLoop drv.imageView deviceInfo.device
            info.format.format ((List.range drv.imageCount).map drv.image) 0
            (List.replicate drv.imageCount VK_NULL_HANDLE)).2.1.length = drv.imageCount
      rw [hv.1, List.length_replicate]
    · intro _
      show (resizeFramebuffersLoop drv.framebuffer deviceInfo.device renderPass
              newExtent (resizeImageViewsLoop drv.imageView deviceInfo.device
                info.format.format ((List.range drv.imageCount).map drv.image) 0
                (List.replicate drv.imageCount VK_NULL_HANDLE)).2.1 0
              (List.replicate drv.imageCount VK_NULL_HANDLE)).2.1.length = drv.imageCount
      rw [hf.1, List.length_replicate]
    · refine ⟨[Call.vkGetSwapchainImagesKHR deviceInfo.device newSwapchain,
            Call.vkGetSwapchainImagesKHR deviceInfo.device newSwapchain] ++
            (resizeImageViewsLoop drv.imageView deviceInfo.device
              info.format.format ((List.range drv.imageCount).map drv.image) 0
              (List.replicate drv.imageCount VK_NULL_HANDLE)).2.2 ++
            (resizeFramebuffersLoop drv.framebuffer deviceInfo.device renderPass
              newExtent (resizeImageViewsLoop drv.imageView deviceInfo.device
                info.format.format ((List.range drv.imageCount).map drv.image) 0
                (List.replicate drv.imageCount VK_NULL_HANDLE)).2.1 0
              (List.replicate drv.imageCount VK_NULL_HANDLE)).2.2,
          by simp only [List.append_assoc], ?_⟩
      have hd := destroyed_of_creations
        ([Call.vkGetSwapchainImagesKHR deviceInfo.device newSwapchain,
            Call.vkGetSwapchainImagesKHR deviceInfo.device newSwapchain] ++
            (resizeImageViewsLoop drv.imageView deviceInfo.device
              info.format.format ((List.range drv.imageCount).map drv.image) 0
              (List.replicate drv.imageCount VK_NULL_HANDLE)).2.2 ++
            (resizeFramebuffersLoop drv.framebuffer deviceInfo.device renderPass
              newExtent (resizeImageViewsLoop drv.imageView deviceInfo.device
                info.format.format ((List.range drv.imageCount).map drv.image) 0
                (List.replicate drv.imageCount VK_NULL_HANDLE)).2.1 0
              (List.replicate drv.imageCount VK_NULL_HANDLE)).2.2)
        (by
          intro c hc
          rcases List.mem_append.mp hc with hc | hc
          · rcases List.mem_append.mp hc with hc | hc
            · right; right
              simp only [List.mem_cons, List.mem_singleton, List.not_mem_nil, or_false,
                or_self] at hc
              exact ⟨_, _, hc⟩
            · left
              obtain ⟨image, himage⟩ := hv.2.1 c hc
              exact ⟨_, _, _, himage⟩
          · right; left
            obtain ⟨view, hview⟩ := hf.2.1 c hc
            exact ⟨_, _, hview⟩)
      refine ⟨hd.1, hd.2.1, hd.2.2, ?_, ?_⟩
      · intro j e hje he
        have h := hviewEntries j e hje he
        exact ⟨h.1, List.mem_append_left _ (List.mem_append_right _ h.2)⟩
      · intro j e hje he
        have hje1 : (resizeFramebuffersLoop drv.framebuffer deviceInfo.device renderPass
              newExtent (resizeImageViewsLoop drv.imageView deviceInfo.device
                info.format.format ((List.range drv.imageCount).map drv.image) 0
                (List.replicate drv.imageCount VK_NULL_HANDLE)).2.1 0
              (List.replicate drv.imageCount VK_NULL_HANDLE)).2.1[j]? = some e := hje
        have hg := getD_of_getElem? _ j e hje1
        have hi := hf.2.2 j (by rw [hg, getD_replicate_null]; exact he)
        rw [hg] at hi
        refine ⟨hi.2.2.1, ?_⟩
        have hjn : j < (resizeImageViewsLoop drv.imageView deviceInfo.device
                info.format.format ((List.range drv.imageCount).map drv.image) 0
                (List.replicate drv.imageCount VK_NULL_HANDLE)).2.1.length := by
          have := hi.2.1
          omega
        refine ⟨(resizeImageViewsLoop drv.imageView deviceInfo.device
                info.format.format ((List.range drv.imageCount).map drv.image) 0
                (List.replicate drv.imageCount VK_NULL_HANDLE)).2.1.getD (j - 0) VK_NULL_HANDLE,
          ?_, List.mem_append_right _ hi.2.2.2⟩
        show (resizeImageViewsLoop drv.imageView deviceInfo.device
                info.format.format ((List.range drv.imageCount).map drv.image) 0
                (List.replicate drv.imageCount VK_NULL_HANDLE)).2.1[j]? = _
        rw [Nat.sub_zero, List.getD_eq_getElem?_getD, List.getElem?_eq_getElem hjn]
        rfl

theorem destroyedImageViews_destroyImageViews (device : Handle) (l : List Handle) :
    destroyedImageViews (l.map (Call.vkDestroyImageView device)) = l := by
  induction l with
  | nil => simp [destroyedImageViews]
  | cons a l ih =>
    unfold destroyedImageViews at ih ⊢
    simp [ih]

theorem destroyedImageViews_destroyFramebuffers (device : Handle) (l : List Handle) :
    destroyedImageViews (l.map (Call.vkDestroyFramebuffer device)) = [] := by
  induction l with
  | nil => simp [destroyedImageViews]
  | cons a l ih =>
    unfold destroyedImageViews at ih ⊢
    simp [ih]

/-- What the calls of a resize up to the capability query destroy: the non-null
framebuffers and image views of the record, no swapchain. -/
theorem destroyed_resizeQueried (deviceInfo : DeviceInfo) (swapchainInfo : SwapchainInfo) :
    destroyedFramebuffers ([Call.vkDeviceWaitIdle deviceInfo.device] ++
      (swapchainInfo.framebuffers.filter (· ≠ VK_NULL_HANDLE)).map
        (Call.vkDestroyFramebuffer deviceInfo.device) ++
      (swapchainInfo.imageViews.filter (· ≠ VK_NULL_HANDLE)).map
        (Call.vkDestroyImageView deviceInfo.device) ++
      [Call.vkGetPhysicalDeviceSurfaceCapabilitiesKHR deviceInfo.physicalDevice
        deviceInfo.surface]) = swapchainInfo.framebuffers.filter (· ≠ VK_NULL_HANDLE) ∧
    destroyedImageViews ([Call.vkDeviceWaitIdle deviceInfo.device] ++
      (swapchainInfo.framebuffers.filter (· ≠ VK_NULL_HANDLE)).map
        (Call.vkDestroyFramebuffer deviceInfo.device) ++
      (swapchainInfo.imageViews.filter (· ≠ VK_NULL_HANDLE)).map
        (Call.vkDestroyImageView deviceInfo.device) ++
      [Call.vkGetPhysicalDeviceSurfaceCapabilitiesKHR deviceInfo.physicalDevice
        deviceInfo.surface]) = swapchainInfo.imageViews.filter (· ≠ VK_NULL_HANDLE) ∧
    destroyedSwapchains ([Call.vkDeviceWaitIdle deviceInfo.device] ++
      (swapchainInfo.framebuffers.filter (· ≠ VK_NULL_HANDLE)).map
        (Call.vkDestroyFramebuffer deviceInfo.device) ++
      (swapchainInfo.imageViews.filter (· ≠ VK_NULL_HANDLE)).map
        (Call.vkDestroyImageView deviceInfo.device) ++
      [Call.vkGetPhysicalDeviceSurfaceCapabilitiesKHR deviceInfo.physicalDevice
        deviceInfo.surface]) = [] := by
  refine ⟨?_, ?_, ?_⟩
  · simp only [destroyedFramebuffers_append, destroyedFramebuffers_destroyFramebuffers,
      destroyedFramebuffers_destroyImageViews]
    simp [destroyedFramebuffers]
  · simp only [destroyedImageViews_append, destroyedImageViews_destroyFramebuffers,
      destroyedImageViews_destroyImageViews]
    simp [destroyedImageViews]
  · simp only [destroyedSwapchains_append, (destroyedSwapchains_destroyFramebuffers _ _).1,
      (destroyedSwapchains_destroyImageViews _ _).1]
    simp [destroyedSwapchains]

theorem destroyed_resizeCallsToCreation (deviceInfo : DeviceInfo)
    (swapchainInfo : SwapchainInfo) (surfaceCapabilities : VkSurfaceCapabilitiesKHR)
    (width height : Int) :
    destroyedFramebuffers (resizeCallsToCreation deviceInfo swapchainInfo surfaceCapabilities
        width height) = swapchainInfo.framebuffers.filter (· ≠ VK_NULL_HANDLE) ∧
    destroyedImageViews (resizeCallsToCreation deviceInfo swapchainInfo surfaceCapabilities
        width height) = swapchainInfo.imageViews.filter (· ≠ VK_NULL_HANDLE) ∧
    destroyedSwapchains (resizeCallsToCreation deviceInfo swapchainInfo surfaceCapabilities
        width height) = [] := by
  have h := destroyed_resizeQueried deviceInfo swapchainInfo
  unfold resizeCallsToCreation
  rw [destroyedFramebuffers_append, destroyedImageViews_append, destroyedSwapchains_append,
    h.1, h.2.1, h.2.2]
  simp [destroyedFramebuffers, destroyedImageViews, destroyedSwapchains]

theorem destroyed_destroyOldSwapchain (deviceInfo : DeviceInfo) (oldSwapchain : Handle)
    (hold : oldSwapchain ≠ VK_NULL_HANDLE) :
    destroyedFramebuffers (destroyOldSwapchain deviceInfo oldSwapchain) = [] ∧
    destroyedImageViews (destroyOldSwapchain deviceInfo oldSwapchain) = [] ∧
    destroyedSwapchains (destroyOldSwapchain deviceInfo oldSwapchain) = [oldSwapchain] := by
  simp [destroyOldSwapchain, hold, destroyedFramebuffers, destroyedImageViews,
    destroyedSwapchains]

theorem nativeResizeSwapchain_of_true (drv : SwapchainDriver)
    (deviceHandle : Handle) (deviceInfo : DeviceInfo)
    (swapchainHandle : Handle) (swapchainInfo : SwapchainInfo)
    (renderPassHandle : Handle) (width height : Int)
    (htrue : (nativeResizeSwapchain drv deviceHandle deviceInfo swapchainHandle swapchainInfo
      renderPassHandle width height).ret = true) :
    0 < width ∧ 0 < height ∧ deviceHandle ≠ 0 ∧ swapchainHandle ≠ 0 ∧
    drv.waitIdle = VK_SUCCESS ∧ drv.capsResult = VK_SUCCESS ∧ drv.createResult = VK_SUCCESS := by
  by_cases hdim : width ≤ 0 ∨ height ≤ 0
  · have h : (nativeResizeSwapchain drv deviceHandle deviceInfo swapchainHandle swapchainInfo
        renderPassHandle width height).ret = false := by
      simp [nativeResizeSwapchain, hdim]
    rw [h] at htrue; exact Bool.noConfusion htrue
  by_cases hnull : deviceHandle = 0 ∨ swapchainHandle = 0
  · have h : (nativeResizeSwapchain drv deviceHandle deviceInfo swapchainHandle swapchainInfo
        renderPassHandle width height).ret = false := by
      simp [nativeResizeSwapchain, hdim, hnull]
    rw [h] at htrue; exact Bool.noConfusion htrue
  by_cases hidle : drv.waitIdle = VK_SUCCESS
  swap
  · have h : (nativeResizeSwapchain drv deviceHandle deviceInfo swapchainHandle swapchainInfo
        renderPassHandle width height).ret = false := by
      simp [nativeResizeSwapchain, hdim, hnull, hidle]
    rw [h] at htrue; exact Bool.noConfusion htrue
  by_cases hcaps : drv.capsResult = VK_SUCCESS
  swap
  · have h : (nativeResizeSwapchain drv deviceHandle deviceInfo swapchainHandle swapchainInfo
        renderPassHandle width height).ret = false := by
      simp [nativeResizeSwapchain, hdim, hnull, hidle, hcaps]
    rw [h] at htrue; exact Bool.noConfusion htrue
  by_cases hc : drv.createResult = VK_SUCCESS
  swap
  · have h : (nativeResizeSwapchain drv deviceHandle deviceInfo swapchainHandle swapchainInfo
        renderPassHandle width height).ret = false := by
      simp [nativeResizeSwapchain, hdim, hnull, hidle, hcaps, hc]
    rw [h] at htrue; exact Bool.noConfusion htrue
  refine ⟨by omega, by omega, ?_, ?_, hidle, hcaps, hc⟩
  · intro h; exact hnull (Or.inl h)
  · intro h; exact hnull (Or.inr h)

/-- The record after a resize that returned true. -/
theorem nativeResizeSwapchain_true_record (drv : SwapchainDriver)
    (deviceHandle : Handle) (deviceInfo : DeviceInfo)
    (swapchainHandle : Handle) (swapchainInfo : SwapchainInfo)
    (renderPassHandle : Handle) (width height : Int)
    (htrue : (nativeResizeSwapchain drv deviceHandle deviceInfo swapchainHandle swapchainInfo
      renderPassHandle width height).ret = true) :
    (nativeResizeSwapchain drv deviceHandle deviceInfo swapchainHandle swapchainInfo
      renderPassHandle width height).info.extent = resizeExtent drv.caps width height ∧
    (nativeResizeSwapchain drv deviceHandle deviceInfo swapchainHandle swapchainInfo
      renderPassHandle width height).info.images = swapchainInfo.images ∧
    (nativeResizeSwapchain drv deviceHandle deviceInfo swapchainHandle swapchainInfo
      renderPassHandle width height).info.imageViews.length = drv.imageCount ∧
    (nativeResizeSwapchain drv deviceHandle deviceInfo swapchainHandle swapchainInfo
      renderPassHandle width height).info.framebuffers.length = drv.imageCount := by
  obtain ⟨hw, hh, hdev, hsc, hidle, hcaps, hc⟩ := nativeResizeSwapchain_of_true drv deviceHandle
    deviceInfo swapchainHandle swapchainInfo renderPassHandle width height htrue
  have hval := nativeResizeSwapchain_of_created drv deviceHandle deviceInfo swapchainHandle
    swapchainInfo renderPassHandle width height hw hh hdev hsc hidle hcaps hc
  rw [hval] at htrue ⊢
  have h := resizeRebuild_record drv deviceInfo (resizedRecord drv swapchainInfo width height)
    renderPassHandle drv.newSwapchain (resizeExtent drv.caps width height)
    (resizeCallsToCreation deviceInfo swapchainInfo drv.caps width height ++
      destroyOldSwapchain deviceInfo swapchainInfo.swapchain) rfl rfl
  exact ⟨h.2.1, h.2.2.1, h.2.2.2.1, h.2.2.2.2.1 htrue⟩

/-- C25: two resizes in a row to the size the surface already reports as its
current extent, answered by drivers that report the same capabilities and image
count, both returning true, leave the same extent, namely that size, and the
same image count after the first and after the second call, whether it is read
through `nativeGetSwapchainImageCount` (the length of the image list, which a
resize leaves as it was), as the length of the image-view list or as the length
of the framebuffer list. -/
theorem nativeResizeSwapchain_twice (first second : SwapchainDriver)
    (deviceHandle : Handle) (deviceInfo : DeviceInfo)
    (swapchainHandle : Handle) (swapchainInfo : SwapchainInfo)
    (renderPassHandle : Handle) (width height : Int)
    (hdefined : first.caps.currentExtent.width ≠ UINT32_MAX)
    (hsize : first.caps.currentExtent = ⟨toUInt32 width, toUInt32 height⟩)
    (hcaps : second.caps = first.caps) (hcount : second.imageCount = first.imageCount)
    (hfirst : (nativeResizeSwapchain first deviceHandle deviceInfo swapchainHandle swapchainInfo
      renderPassHandle width height).ret = true)
    (hsecond : (nativeResizeSwapchain second deviceHandle deviceInfo swapchainHandle
      (nativeResizeSwapchain first deviceHandle deviceInfo swapchainHandle swapchainInfo
        renderPassHandle width height).info renderPassHandle width height).ret = true) :
    (nativeResizeSwapchain first deviceHandle deviceInfo swapchainHandle swapchainInfo
      renderPassHandle width height).info.extent = ⟨toUInt32 width, toUInt32 height⟩ ∧
    (nativeResizeSwapchain second deviceHandle deviceInfo swapchainHandle
      (nativeResizeSwapchain first deviceHandle deviceInfo swapchainHandle swapchainInfo
        renderPassHandle width height).info renderPassHandle width height).info.extent =
      (nativeResizeSwapchain first deviceHandle deviceInfo swapchainHandle swapchainInfo
        renderPassHandle width height).info.extent ∧
    nativeGetSwapchainImageCount (nativeResizeSwapchain second deviceHandle deviceInfo
      swapchainHandle (nativeResizeSwapchain first deviceHandle deviceInfo swapchainHandle
        swapchainInfo renderPassHandle width height).info renderPassHandle width height).info =
      nativeGetSwapchainImageCount (nativeResizeSwapchain first deviceHandle deviceInfo
        swapchainHandle swapchainInfo renderPassHandle width height).info ∧
    (nativeResizeSwapchain second deviceHandle deviceInfo swapchainHandle
      (nativeResizeSwapchain first deviceHandle deviceInfo swapchainHandle swapchainInfo
        renderPassHandle width height).info renderPassHandle width height).info.imageViews.length =
      (nativeResizeSwapchain first deviceHandle deviceInfo swapchainHandle swapchainInfo
        renderPassHandle width height).info.imageViews.length ∧
    (nativeResizeSwapchain second deviceHandle deviceInfo swapchainHandle
      (nativeResizeSwapchain first deviceHandle deviceInfo swapchainHandle swapchainInfo
        renderPassHandle width height).info renderPassHandle width
        height).info.framebuffers.length =
      (nativeResizeSwapchain first deviceHandle deviceInfo swapchainHandle swapchainInfo
        renderPassHandle width height).info.framebuffers.length := by
  have h1 := nativeResizeSwapchain_true_record first deviceHandle deviceInfo swapchainHandle
    swapchainInfo renderPassHandle width height hfirst
  have h2 := nativeResizeSwapchain_true_record second deviceHandle deviceInfo swapchainHandle
    _ renderPassHandle width height hsecond
  have hext : resizeExtent first.caps width height = ⟨toUInt32 width, toUInt32 height⟩ := by
    unfold resizeExtent
    rw [if_pos hdefined, hsize]
  refine ⟨by rw [h1.1, hext], by rw [h2.1, h1.1, hcaps], ?_, ?_, ?_⟩
  · unfold nativeGetSwapchainImageCount
    rw [h2.2.1]
  · rw [h2.2.2.1, h1.2.2.1, hcount]
  · rw [h2.2.2.2, h1.2.2.2, hcount]

theorem nativeResizeSwapchain_twice_witness :
    sampleDriver.caps.currentExtent.width ≠ UINT32_MAX ∧
    sampleDriver.caps.currentExtent = ⟨toUInt32 1280, toUInt32 720⟩ ∧
    secondResizeDriver.caps = sampleDriver.caps ∧
    secondResizeDriver.imageCount = sampleDriver.imageCount ∧
    (nativeResizeSwapchain sampleDriver 1 sampleDevice 2 sampleSwapchain 5 1280 720).ret = true ∧
    (nativeResizeSwapchain secondResizeDriver 1 sampleDevice 2
      (nativeResizeSwapchain sampleDriver 1 sampleDevice 2 sampleSwapchain 5 1280 720).info
      5 1280 720).ret = true ∧
    (nativeResizeSwapchain sampleDriver 1 sampleDevice 2 sampleSwapchain 5 1280 720).info.extent =
      ⟨toUInt32 1280, toUInt32 720⟩ ∧
    (nativeResizeSwapchain secondResizeDriver 1 sampleDevice 2
      (nativeResizeSwapchain sampleDriver 1 sampleDevice 2 sampleSwapchain 5 1280 720).info
      5 1280 720).info.extent =
      (nativeResizeSwapchain sampleDriver 1 sampleDevice 2 sampleSwapchain 5 1280
        720).info.extent :=
  ⟨by decide, by decide, rfl, rfl, by decide, by decide,
    (nativeResizeSwapchain_twice sampleDriver secondResizeDriver 1 sampleDevice 2
      sampleSwapchain 5 1280 720 (by decide) (by decide) rfl rfl (by decide) (by decide)).1,
    (nativeResizeSwapchain_twice sampleDriver secondResizeDriver 1 sampleDevice 2
      sampleSwapchain 5 1280 720 (by decide) (by decide) rfl rfl (by decide) (by decide)).2.1⟩

/-- C29: on every return path of `nativeResizeSwapchain` past the device-idle
wait, for a record that holds a swapchain, the calls destroyed exactly the
non-null framebuffers and image views the record held on entry, every non-null
image view and framebuffer of the record at return is the handle written by a
creation request issued during the call for its index, and either the record
holds the new swapchain and the old one was destroyed, or it still holds the old
one and no swapchain was destroyed. -/
theorem nativeResizeSwapchain_owned_handles (drv : SwapchainDriver)
    (deviceHandle : Handle) (deviceInfo : DeviceInfo)
    (swapchainHandle : Handle) (swapchainInfo : SwapchainInfo)
    (renderPassHandle : Handle) (width height : Int)
    (hw : 0 < width) (hh : 0 < height) (hdev : deviceHandle ≠ 0) (hsc : swapchainHandle ≠ 0)
    (hidle : drv.waitIdle = VK_SUCCESS)
    (hold : swapchainInfo.swapchain ≠ VK_NULL_HANDLE) :
    destroyedFramebuffers (nativeResizeSwapchain drv deviceHandle deviceInfo swapchainHandle
      swapchainInfo renderPassHandle width height).calls =
      swapchainInfo.framebuffers.filter (· ≠ VK_NULL_HANDLE) ∧
    destroyedImageViews (nativeResizeSwapchain drv deviceHandle deviceInfo swapchainHandle
      swapchainInfo renderPassHandle width height).calls =
      swapchainInfo.imageViews.filter (· ≠ VK_NULL_HANDLE) ∧
    (∀ j e, (nativeResizeSwapchain drv deviceHandle deviceInfo swapchainHandle
        swapchainInfo renderPassHandle width height).info.imageViews[j]? = some e →
      e ≠ VK_NULL_HANDLE →
      e = (drv.imageView j).2 ∧
      Call.vkCreateImageView deviceInfo.device (drv.image j) swapchainInfo.format.format ∈
        (nativeResizeSwapchain drv deviceHandle deviceInfo swapchainHandle
          swapchainInfo renderPassHandle width height).calls) ∧
    (∀ j e, (nativeResizeSwapchain drv deviceHandle deviceInfo swapchainHandle
        swapchainInfo renderPassHandle width height).info.framebuffers[j]? = some e →
      e ≠ VK_NULL_HANDLE →
      e = (drv.framebuffer j).2 ∧
      ∃ view, (nativeResizeSwapchain drv deviceHandle deviceInfo swapchainHandle
          swapchainInfo renderPassHandle width height).info.imageViews[j]? = some view ∧
        framebufferRequest deviceInfo.device renderPassHandle
            (resizeExtent drv.caps width height) view ∈
          (nativeResizeSwapchain drv deviceHandle deviceInfo swapchainHandle
            swapchainInfo renderPassHandle width height).calls) ∧
    (((nativeResizeSwapchain drv deviceHandle deviceInfo swapchainHandle
        swapchainInfo renderPassHandle width height).info.swapchain = drv.newSwapchain ∧
      destroyedSwapchains (nativeResizeSwapchain drv deviceHandle deviceInfo swapchainHandle
        swapchainInfo renderPassHandle width height).calls = [swapchainInfo.swapchain]) ∨
     ((nativeResizeSwapchain drv deviceHandle deviceInfo swapchainHandle
        swapchainInfo renderPassHandle width height).info.swapchain = swapchainInfo.swapchain ∧
      destroyedSwapchains (nativeResizeSwapchain drv deviceHandle deviceInfo swapchainHandle
        swapchainInfo renderPassHandle width height).calls = [])) := by
  have hq := destroyed_resizeQueried deviceInfo swapchainInfo
  have hcr := destroyed_resizeCallsToCreation deviceInfo swapchainInfo drv.caps width height
  by_cases hcaps : drv.capsResult = VK_SUCCESS
  swap
  · have hval : nativeResizeSwapchain drv deviceHandle deviceInfo swapchainHandle swapchainInfo
        renderPassHandle width height =
        { ret := false, info := { swapchainInfo with framebuffers := [], imageViews := [] },
          calls := [Call.vkDeviceWaitIdle deviceInfo.device] ++
            (swapchainInfo.framebuffers.filter (· ≠ VK_NULL_HANDLE)).map
              (Call.vkDestroyFramebuffer deviceInfo.device) ++
            (swapchainInfo.imageViews.filter (· ≠ VK_NULL_HANDLE)).map
              (Call.vkDestroyImageView deviceInfo.device) ++
            [Call.vkGetPhysicalDeviceSurfaceCapabilitiesKHR deviceInfo.physicalDevice
              deviceInfo.surface] } := by
      have hdim : ¬ (width ≤ 0 ∨ height ≤ 0) := by omega
      simp [nativeResizeSwapchain, hdim, hdev, hsc, hidle, hcaps]
    rw [hval]
    refine ⟨hq.1, hq.2.1, ?_, ?_, Or.inr ⟨rfl, hq.2.2⟩⟩
    · intro j e hje; exact absurd hje (by simp)
    · intro j e hje; exact absurd hje (by simp)
  by_cases hc : drv.createResult = VK_SUCCESS
  swap
  · rw [nativeResizeSwapchain_of_not_created drv deviceHandle deviceInfo swapchainHandle
      swapchainInfo renderPassHandle width height hw hh hdev hsc hidle hcaps hc]
    refine ⟨hcr.1, hcr.2.1, ?_, ?_, Or.inr ⟨rfl, hcr.2.2⟩⟩
    · intro j e hje; exact absurd hje (by simp)
    · intro j e hje; exact absurd hje (by simp)
  rw [nativeResizeSwapchain_of_created drv deviceHandle deviceInfo swapchainHandle
    swapchainInfo renderPassHandle width height hw hh hdev hsc hidle hcaps hc]
  have hd := destroyed_destroyOldSwapchain deviceInfo swapchainInfo.swapchain hold
  obtain ⟨hswap, _, _, _, _, tail, hcalls, hfb, hiv, hsw, hviews, hfbs⟩ :=
    resizeRebuild_record drv deviceInfo (resizedRecord drv swapchainInfo width height)
      renderPassHandle drv.newSwapchain (resizeExtent drv.caps width height)
      (resizeCallsToCreation deviceInfo swapchainInfo drv.caps width height ++
        destroyOldSwapchain deviceInfo swapchainInfo.swapchain) rfl rfl
  rw [hcalls]
  refine ⟨?_, ?_, ?_, ?_, Or.inl ⟨hswap, ?_⟩⟩
  · rw [destroyedFramebuffers_append, destroyedFramebuffers_append, hcr.1, hd.1, hfb]
    simp
  · rw [destroyedImageViews_append, destroyedImageViews_append, hcr.2.1, hd.2.1, hiv]
    simp
  · intro j e hje he
    have h := hviews j e hje he
    exact ⟨h.1, List.mem_append_right _ h.2⟩
  · intro j e hje he
    obtain ⟨h1, view, h2, h3⟩ := hfbs j e hje he
    exact ⟨h1, view, h2, List.mem_append_right _ h3⟩
  · rw [destroyedSwapchains_append, destroyedSwapchains_append, hcr.2.2, hd.2.2, hsw]
    simp

theorem nativeResizeSwapchain_owned_handles_witness :
    (0 : Int) < 1280 ∧ (0 : Int) < 720 ∧ (1 : Handle) ≠ 0 ∧ (2 : Handle) ≠ 0 ∧
    viewFailingDriver.waitIdle = VK_SUCCESS ∧ sampleSwapchain.swapchain ≠ VK_NULL_HANDLE ∧
    (nativeResizeSwapchain viewFailingDriver 1 sampleDevice 2 sampleSwapchain 5 1280
      720).ret = false ∧
    (nativeResizeSwapchain viewFailingDriver 1 sampleDevice 2 sampleSwapchain 5 1280
      720).info.imageViews = [140, 0, 0] ∧
    destroyedFramebuffers (nativeResizeSwapchain viewFailingDriver 1 sampleDevice 2
      sampleSwapchain 5 1280 720).calls =
      sampleSwapchain.framebuffers.filter (· ≠ VK_NULL_HANDLE) ∧
    destroyedImageViews (nativeResizeSwapchain viewFailingDriver 1 sampleDevice 2
      sampleSwapchain 5 1280 720).calls =
      sampleSwapchain.imageViews.filter (· ≠ VK_NULL_HANDLE) :=
  ⟨by decide, by decide, by decide, by decide, by decide, by decide, by decide, by decide,
    (nativeResizeSwapchain_owned_handles viewFailingDriver 1 sampleDevice 2 sampleSwapchain 5
      1280 720 (by decide) (by decide) (by decide) (by decide) (by decide) (by decide)).1,
    (nativeResizeSwapchain_owned_handles viewFailingDriver 1 sampleDevice 2 sampleSwapchain 5
      1280 720 (by decide) (by decide) (by decide) (by decide) (by decide) (by decide)).2.1⟩

/-! ## The search helpers return the first suitable index -/

theorem findQueueFamilyLoop_none (presentSupport : Nat → Bool) (physicalDevice : Handle)
    (flags : Nat) (surface : Handle) : ∀ (families : List Nat) (k : Nat),
      (∀ j queueFlags, families[j]? = some queueFlags →
        ¬ (queueFlags &&& flags ≠ 0 ∧
          (surface ≠ VK_NULL_HANDLE → presentSupport (k + j) = true))) →
      (findQueueFamilyLoop presentSupport physicalDevice flags surface families k).1 =
        UINT32_MAX := by
  intro families
  induction families with
  | nil => intro k _; rfl
  | cons queueFlags rest ih =>
    intro k hnone
    have h0 := hnone 0 queueFlags (by simp)
    have hrest := ih (k + 1) (fun j q hj => by
      have := hnone (j + 1) q (by simpa using hj)
      rwa [show k + (j + 1) = k + 1 + j by omega] at this)
    by_cases hflags : queueFlags &&& flags ≠ 0
    · have hsurf : surface ≠ VK_NULL_HANDLE := by
        intro hs
        exact h0 ⟨hflags, fun h => absurd hs h⟩
      have hps : presentSupport k ≠ true := by
        intro hp
        exact h0 ⟨hflags, fun _ => hp⟩
      simp only [findQueueFamilyLoop, hflags, hsurf, hps, ne_eq, not_false_eq_true, if_true,
        if_false]
      exact hrest
    · simp only [findQueueFamilyLoop, hflags, if_false]
      exact hrest

theorem findQueueFamilyLoop_first (presentSupport : Nat → Bool) (physicalDevice : Handle)
    (flags : Nat) (surface : Handle) : ∀ (families : List Nat) (k j : Nat) (queueFlags : Nat),
      families[j]? = some queueFlags →
      queueFlags &&& flags ≠ 0 →
      (surface ≠ VK_NULL_HANDLE → presentSupport (k + j) = true) →
      (∀ j' q, j' < j → families[j']? = some q →
        ¬ (q &&& flags ≠ 0 ∧ (surface ≠ VK_NULL_HANDLE → presentSupport (k + j') = true))) →
      (findQueueFamilyLoop presentSupport physicalDevice flags surface families k).1 =
        k + j := by
  intro families
  induction families with
  | nil => intro k j q hj; exact absurd hj (by simp)
  | cons first rest ih =>
    intro k j q hj hflags hsupp hmin
    cases j with
    | zero =>
      have hq : first = q := by simpa using hj
      subst hq
      by_cases hsurf : surface ≠ VK_NULL_HANDLE
      · have hp := hsupp hsurf
        simp only [Nat.add_zero] at hp
        simp only [findQueueFamilyLoop, hflags, hsurf, hp, ne_eq, not_false_eq_true, if_true]
        rfl
      · simp only [findQueueFamilyLoop, hflags, hsurf, ne_eq, not_false_eq_true, if_true,
          if_false]
        rfl
    | succ j =>
      have h0 := hmin 0 first (by omega) (by simp)
      have hrest := ih (k + 1) j q (by simpa using hj) hflags
        (by rwa [show k + 1 + j = k + (j + 1) by omega])
        (fun j' q' hlt hj' => by
          have := hmin (j' + 1) q' (by omega) (by simpa using hj')
          rwa [show k + (j' + 1) = k + 1 + j' by omega] at this)
      rw [show k + (j + 1) = k + 1 + j by omega]
      by_cases hf : first &&& flags ≠ 0
      · have hsurf : surface ≠ VK_NULL_HANDLE := by
          intro hs
          exact h0 ⟨hf, fun h => absurd hs h⟩
        have hps : presentSupport k ≠ true := by
          intro hp
          exact h0 ⟨hf, fun _ => hp⟩
        simp only [findQueueFamilyLoop, hf, hsurf, hps, ne_eq, not_false_eq_true, if_true,
          if_false]
        exact hrest
      · simp only [findQueueFamilyLoop, hf, if_false]
        exact hrest

theorem findQueueFamily_least (queueFamilies : List Nat) (presentSupport : Nat → Bool)
    (physicalDevice : Handle) (flags : Nat) (surface : Handle)
    (hcount : queueFamilies.length ≤ UINT32_MAX) :
    ((∃ i, suitableQueueFamily queueFamilies presentSupport flags surface i) →
      suitableQueueFamily queueFamilies presentSupport flags surface
        (findQueueFamily queueFamilies presentSupport physicalDevice flags surface).1 ∧
      ∀ i, suitableQueueFamily queueFamilies presentSupport flags surface i →
        (findQueueFamily queueFamilies presentSupport physicalDevice flags surface).1 ≤ i) ∧
    ((findQueueFamily queueFamilies presentSupport physicalDevice flags surface).1 = UINT32_MAX ↔
      ¬ ∃ i, suitableQueueFamily queueFamilies presentSupport flags surface i) := by
  classical
  have hfound : ∀ hex : ∃ i, suitableQueueFamily queueFamilies presentSupport flags surface i,
      (findQueueFamily queueFamilies presentSupport physicalDevice flags surface).1 =
        Nat.find hex := by
    intro hex
    obtain ⟨q, hq, hflags, hsupp⟩ := Nat.find_spec hex
    have h := findQueueFamilyLoop_first presentSupport physicalDevice flags surface
      queueFamilies 0 (Nat.find hex) q hq hflags (by simpa using hsupp)
      (fun j' q' hlt hj' hgood => by
        apply Nat.find_min hex hlt
        exact ⟨q', hj', hgood.1, by simpa using hgood.2⟩)
    simpa [findQueueFamily] using h
  refine ⟨?_, ?_⟩
  · intro hex
    rw [hfound hex]
    exact ⟨Nat.find_spec hex, fun i hi => Nat.find_min' hex hi⟩
  · constructor
    · intro hmax hex
      rw [hfound hex] at hmax
      obtain ⟨q, hq, _⟩ := Nat.find_spec hex
      have hlt : Nat.find hex < queueFamilies.length := by
        by_contra hge
        rw [List.getElem?_eq_none (by omega)] at hq
        exact absurd hq (by simp)
      omega
    · intro hnone
      have h := findQueueFamilyLoop_none presentSupport physicalDevice flags surface
        queueFamilies 0 (fun j q hj hgood => hnone ⟨j, q, hj, hgood.1, by simpa using hgood.2⟩)
      simpa [findQueueFamily] using h

theorem suitableQueueFamily_lt (queueFamilies : List Nat) (presentSupport : Nat → Bool)
    (flags : Nat) (surface : Handle) (i : Nat)
    (h : suitableQueueFamily queueFamilies presentSupport flags surface i) :
    i < queueFamilies.length := by
  obtain ⟨q, hq, _⟩ := h
  by_contra hge
  rw [List.getElem?_eq_none (by omega)] at hq
  exact absurd hq (by simp)

/-- C27: `findQueueFamily` returns the smallest index of a family whose queue
flags share a bit with the requested flags and which, when a surface is given,
supports presentation to it, and returns UINT32_MAX exactly when there is no such
family (the family count is a 32-bit value). In `nativeCreateDevice`, with a
surface, the graphics family index is at most the present family index, and when
a graphics family is found the two coincide exactly when that family supports
presentation. -/
theorem queue_family_selection (drv : DeviceDriver) (instanceHandle physicalDevice : Handle)
    (flags : Nat) (surface : Handle) (info : DeviceInfo)
    (hcount : drv.queueFamilies.length ≤ UINT32_MAX)
    (hcreated : (nativeCreateDevice drv instanceHandle).1 = some info)
    (hsurface : drv.createSurface.2 ≠ VK_NULL_HANDLE)
    (hfound : info.graphicsQueueFamily ≠ UINT32_MAX) :
    ((∃ i, suitableQueueFamily drv.queueFamilies drv.presentSupport flags surface i) →
      suitableQueueFamily drv.queueFamilies drv.presentSupport flags surface
        (findQueueFamily drv.queueFamilies drv.presentSupport physicalDevice flags surface).1 ∧
      ∀ i, suitableQueueFamily drv.queueFamilies drv.presentSupport flags surface i →
        (findQueueFamily drv.queueFamilies drv.presentSupport physicalDevice flags
          surface).1 ≤ i) ∧
    ((findQueueFamily drv.queueFamilies drv.presentSupport physicalDevice flags surface).1 =
        UINT32_MAX ↔
      ¬ ∃ i, suitableQueueFamily drv.queueFamilies drv.presentSupport flags surface i) ∧
    info.graphicsQueueFamily ≤ info.presentQueueFamily ∧
    (info.graphicsQueueFamily = info.presentQueueFamily ↔
      drv.presentSupport info.graphicsQueueFamily = true) := by
  have hgen := findQueueFamily_least drv.queueFamilies drv.presentSupport physicalDevice flags
    surface hcount
  refine ⟨hgen.1, hgen.2, ?_⟩
  have hg := findQueueFamily_least drv.queueFamilies drv.presentSupport
    (drv.physicalDevices.headD VK_NULL_HANDLE) VK_QUEUE_GRAPHICS_BIT VK_NULL_HANDLE hcount
  have hp := findQueueFamily_least drv.queueFamilies drv.presentSupport
    (drv.physicalDevices.headD VK_NULL_HANDLE) VK_QUEUE_GRAPHICS_BIT drv.createSurface.2 hcount
  have hinfo : info.graphicsQueueFamily =
        (findQueueFamily drv.queueFamilies drv.presentSupport
          (drv.physicalDevices.headD VK_NULL_HANDLE) VK_QUEUE_GRAPHICS_BIT VK_NULL_HANDLE).1 ∧
      info.presentQueueFamily =
        (findQueueFamily drv.queueFamilies drv.presentSupport
          (drv.physicalDevices.headD VK_NULL_HANDLE) VK_QUEUE_GRAPHICS_BIT
          drv.createSurface.2).1 := by
    unfold nativeCreateDevice at hcreated
    by_cases hn : drv.physicalDevices.length = 0
    · simp only [hn, if_true] at hcreated
      exact absurd hcreated (by simp)
    · by_cases hc : drv.createDevice.1 = VK_SUCCESS
      · simp only [hn, hc, if_false, ne_eq, not_true_eq_false] at hcreated
        injection hcreated with hcreated
        rw [← hcreated]
        exact ⟨rfl, rfl⟩
      · simp only [hn, hc, if_false, if_true, ne_eq, not_false_eq_true] at hcreated
        exact absurd hcreated (by simp)
  rw [hinfo.1] at hfound ⊢
  rw [hinfo.2]
  have hexg : ∃ i, suitableQueueFamily drv.queueFamilies drv.presentSupport
      VK_QUEUE_GRAPHICS_BIT VK_NULL_HANDLE i := by
    by_contra hno
    exact hfound (hg.2.mpr hno)
  obtain ⟨hgs, hgmin⟩ := hg.1 hexg
  have hglt := suitableQueueFamily_lt _ _ _ _ _ hgs
  have hweaken : ∀ i, suitableQueueFamily drv.queueFamilies drv.presentSupport
      VK_QUEUE_GRAPHICS_BIT drv.createSurface.2 i →
      suitableQueueFamily drv.queueFamilies drv.presentSupport
        VK_QUEUE_GRAPHICS_BIT VK_NULL_HANDLE i := by
    intro i ⟨q, hq, hf, _⟩
    exact ⟨q, hq, hf, fun h => absurd rfl h⟩
  constructor
  · by_cases hpmax : (findQueueFamily drv.queueFamilies drv.presentSupport
        (drv.physicalDevices.headD VK_NULL_HANDLE) VK_QUEUE_GRAPHICS_BIT
        drv.createSurface.2).1 = UINT32_MAX
    · rw [hpmax]; omega
    · have hexp : ∃ i, suitableQueueFamily drv.queueFamilies drv.presentSupport
          VK_QUEUE_GRAPHICS_BIT drv.createSurface.2 i := by
        by_contra hno
        exact hpmax (hp.2.mpr hno)
      exact hgmin _ (hweaken _ (hp.1 hexp).1)
  · constructor
    · intro heq
      have hpmax : (findQueueFamily drv.queueFamilies drv.presentSupport
          (drv.physicalDevices.headD VK_NULL_HANDLE) VK_QUEUE_GRAPHICS_BIT
          drv.createSurface.2).1 ≠ UINT32_MAX := by
        rw [← heq]; exact hfound
      have hexp : ∃ i, suitableQueueFamily drv.queueFamilies drv.presentSupport
          VK_QUEUE_GRAPHICS_BIT drv.createSurface.2 i := by
        by_contra hno
        exact hpmax (hp.2.mpr hno)
      obtain ⟨q, _, _, hsupp⟩ := (hp.1 hexp).1
      rw [heq]
      exact hsupp hsurface
    · intro hsupp
      obtain ⟨q, hq, hf, _⟩ := hgs
      have hgp : suitableQueueFamily drv.queueFamilies drv.presentSupport
          VK_QUEUE_GRAPHICS_BIT drv.createSurface.2
          (findQueueFamily drv.queueFamilies drv.presentSupport
            (drv.physicalDevices.headD VK_NULL_HANDLE) VK_QUEUE_GRAPHICS_BIT
            VK_NULL_HANDLE).1 := ⟨q, hq, hf, fun _ => hsupp⟩
      obtain ⟨hps, hpmin⟩ := hp.1 ⟨_, hgp⟩
      exact Nat.le_antisymm (hgmin _ (hweaken _ hps)) (hpmin _ hgp)

theorem queue_family_selection_witness :
    threeFamiliesDriver.queueFamilies.length ≤ UINT32_MAX ∧
    (nativeCreateDevice threeFamiliesDriver 1).1 = some threeFamiliesDevice ∧
    threeFamiliesDriver.createSurface.2 ≠ VK_NULL_HANDLE ∧
    threeFamiliesDevice.graphicsQueueFamily ≠ UINT32_MAX ∧
    (findQueueFamily threeFamiliesDriver.queueFamilies threeFamiliesDriver.presentSupport 80
      VK_QUEUE_GRAPHICS_BIT 14).1 = 2 ∧
    threeFamiliesDevice.graphicsQueueFamily ≤ threeFamiliesDevice.presentQueueFamily ∧
    (threeFamiliesDevice.graphicsQueueFamily = threeFamiliesDevice.presentQueueFamily ↔
      threeFamiliesDriver.presentSupport threeFamiliesDevice.graphicsQueueFamily = true) :=
  ⟨by decide, by decide, by decide, by decide, by decide,
    (queue_family_selection threeFamiliesDriver 1 80 VK_QUEUE_GRAPHICS_BIT 14
      threeFamiliesDevice (by decide) (by decide) (by decide) (by decide)).2.2⟩

/-! ## `findMemoryType` -/

theorem findMemoryTypeLoop_none (typeFilter properties : Nat) :
    ∀ (memoryTypes : List Nat) (k : Nat),
      (∀ j propertyFlags, memoryTypes[j]? = some propertyFlags →
        ¬ (typeFilter &&& ((1 <<< (k + j)) % 2 ^ 32) ≠ 0 ∧
          propertyFlags &&& properties = properties)) →
      findMemoryTypeLoop typeFilter properties memoryTypes k = 0 := by
  intro memoryTypes
  induction memoryTypes with
  | nil => intro k _; rfl
  | cons propertyFlags rest ih =>
    intro k hnone
    have h0 := hnone 0 propertyFlags (by simp)
    rw [Nat.add_zero] at h0
    have hrest := ih (k + 1) (fun j q hj => by
      have := hnone (j + 1) q (by simpa using hj)
      rwa [show k + (j + 1) = k + 1 + j by omega] at this)
    simp only [findMemoryTypeLoop, h0, if_false]
    exact hrest

theorem findMemoryTypeLoop_first (typeFilter properties : Nat) :
    ∀ (memoryTypes : List Nat) (k j : Nat) (propertyFlags : Nat),
      memoryTypes[j]? = some propertyFlags →
      typeFilter &&& ((1 <<< (k + j)) % 2 ^ 32) ≠ 0 →
      propertyFlags &&& properties = properties →
      (∀ j' q, j' < j → memoryTypes[j']? = some q →
        ¬ (typeFilter &&& ((1 <<< (k + j')) % 2 ^ 32) ≠ 0 ∧ q &&& properties = properties)) →
      findMemoryTypeLoop typeFilter properties memoryTypes k = k + j := by
  intro memoryTypes
  induction memoryTypes with
  | nil => intro k j q hj; exact absurd hj (by simp)
  | cons first rest ih =>
    intro k j q hj hbit hprops hmin
    cases j with
    | zero =>
      have hq : first = q := by simpa using hj
      subst hq
      rw [Nat.add_zero] at hbit
      have hgood : typeFilter &&& ((1 <<< k) % 2 ^ 32) ≠ 0 ∧ first &&& properties = properties :=
        ⟨hbit, hprops⟩
      rw [findMemoryTypeLoop, if_pos hgood]
      rfl
    | succ j =>
      have h0 := hmin 0 first (by omega) (by simp)
      rw [Nat.add_zero] at h0
      have hrest := ih (k + 1) j q (by simpa using hj)
        (by rwa [show k + 1 + j = k + (j + 1) by omega]) hprops
        (fun j' q' hlt hj' => by
          have := hmin (j' + 1) q' (by omega) (by simpa using hj')
          rwa [show k + (j' + 1) = k + 1 + j' by omega] at this)
      rw [show k + (j + 1) = k + 1 + j by omega]
      simp only [findMemoryTypeLoop, h0, if_false]
      exact hrest

theorem and_shift_ne_zero_iff (typeFilter i : Nat) (hi : i < 32) :
    typeFilter &&& ((1 <<< i) % 2 ^ 32) ≠ 0 ↔ typeFilter.testBit i = true := by
  have hpow : (1 <<< i) % 2 ^ 32 = 2 ^ i := by
    rw [Nat.one_shiftLeft]
    exact Nat.mod_eq_of_lt (Nat.pow_lt_pow_right (by decide) hi)
  rw [hpow, Nat.and_two_pow]
  cases typeFilter.testBit i with
  | true => simp
  | false => simp

/-- C28: `findMemoryType` returns the smallest index below `memoryTypeCount` (at
most 32) whose bit is set in the type filter and whose property flags contain
every requested bit; when there is none it returns 0, which is also what it
returns when memory type 0 is suitable. -/
theorem findMemoryType_smallest (memoryTypes : List Nat) (physicalDevice : Handle)
    (typeFilter properties : Nat) (hcount : memoryTypes.length ≤ 32) :
    ((∃ i, suitableMemoryType memoryTypes typeFilter properties i) →
      suitableMemoryType memoryTypes typeFilter properties
        (findMemoryType memoryTypes physicalDevice typeFilter properties).1 ∧
      ∀ i, suitableMemoryType memoryTypes typeFilter properties i →
        (findMemoryType memoryTypes physicalDevice typeFilter properties).1 ≤ i) ∧
    ((¬ ∃ i, suitableMemoryType memoryTypes typeFilter properties i) →
      (findMemoryType memoryTypes physicalDevice typeFilter properties).1 = 0) ∧
    ((findMemoryType [2] physicalDevice 1 2).1 = 0 ∧ suitableMemoryType [2] 1 2 0) ∧
    ((findMemoryType [0] physicalDevice 1 2).1 = 0 ∧ ¬ suitableMemoryType [0] 1 2 0) := by
  classical
  have hlt : ∀ i q, memoryTypes[i]? = some q → i < 32 := by
    intro i q hq
    by_contra hge
    rw [List.getElem?_eq_none (by omega)] at hq
    exact absurd hq (by simp)
  refine ⟨?_, ?_, ⟨rfl, ⟨2, rfl, by decide, by decide⟩⟩, ⟨rfl, ?_⟩⟩
  · intro hex
    obtain ⟨q, hq, hbit, hprops⟩ := Nat.find_spec hex
    have h := findMemoryTypeLoop_first typeFilter properties memoryTypes 0 (Nat.find hex) q hq
      (by rw [Nat.zero_add]; exact (and_shift_ne_zero_iff _ _ (hlt _ _ hq)).mpr hbit) hprops
      (fun j' q' hj'lt hj' hgood => by
        apply Nat.find_min hex hj'lt
        rw [Nat.zero_add] at hgood
        exact ⟨q', hj', (and_shift_ne_zero_iff _ _ (hlt _ _ hj')).mp hgood.1, hgood.2⟩)
    have hval : (findMemoryType memoryTypes physicalDevice typeFilter properties).1 =
        Nat.find hex := by
      simpa [findMemoryType] using h
    rw [hval]
    exact ⟨Nat.find_spec hex, fun i hi => Nat.find_min' hex hi⟩
  · intro hnone
    exact findMemoryTypeLoop_none typeFilter properties memoryTypes 0
      (fun j q hj hgood => by
        rw [Nat.zero_add] at hgood
        exact hnone ⟨j, q, hj, (and_shift_ne_zero_iff _ _ (hlt _ _ hj)).mp hgood.1, hgood.2⟩)
  · intro ⟨q, hq, _, hprops⟩
    have hq0 : q = 0 := by
      have : (0 : Nat) = q := by simpa using hq
      exact this.symm
    subst hq0
    exact absurd hprops (by decide)

theorem findMemoryType_smallest_witness :
    ([4, 6, 2, 6] : List Nat).length ≤ 32 ∧
    (findMemoryType [4, 6, 2, 6] 11 13 2).1 = 2 ∧
    suitableMemoryType [4, 6, 2, 6] 13 2 (findMemoryType [4, 6, 2, 6] 11 13 2).1 :=
  ⟨by decide, by decide,
    ((findMemoryType_smallest [4, 6, 2, 6] 11 13 2 (by decide)).1
      ⟨2, 2, rfl, by decide, by decide⟩).1⟩

/-! ## The sampler of the test texture -/

/-- C30: every record returned by `nativeCreateTestTexture` stores a null
sampler, although the call created a sampler, so `nativeGetTextureSampler`
returns 0 for it whatever its address, as it does for the texture handle 0. -/
theorem nativeCreateTestTexture_sampler_null (drv : TestTextureDriver) (deviceInfo : DeviceInfo)
    (textureInfo : TextureInfo) (textureHandle : Handle)
    (hcreated : (nativeCreateTestTexture drv deviceInfo).1 = some textureInfo) :
    textureInfo.sampler = VK_NULL_HANDLE ∧
    Call.vkCreateSampler deviceInfo.device ∈ (nativeCreateTestTexture drv deviceInfo).2 ∧
    nativeGetTextureSampler textureHandle textureInfo = 0 ∧
    ∀ other : TextureInfo, nativeGetTextureSampler 0 other = 0 := by
  have hzero : ∀ other : TextureInfo, nativeGetTextureSampler 0 other = 0 := by
    intro other
    simp [nativeGetTextureSampler]
  by_cases hi : drv.createImage.1 = VK_SUCCESS
  swap
  · have hnone : (nativeCreateTestTexture drv deviceInfo).1 = none := by
      simp [nativeCreateTestTexture, hi]
    rw [hnone] at hcreated
    exact absurd hcreated (by simp)
  by_cases hs : drv.createSampler.1 = VK_SUCCESS
  swap
  · have hnone : (nativeCreateTestTexture drv deviceInfo).1 = none := by
      simp [nativeCreateTestTexture, hi, hs]
    rw [hnone] at hcreated
    exact absurd hcreated (by simp)
  have hsome : (nativeCreateTestTexture drv deviceInfo).1 =
      some { image := drv.createImage.2, memory := drv.allocateImageMemory.2,
             imageView := drv.createImageView.2, sampler := VK_NULL_HANDLE,
             width := 1920, height := 1080 } := by
    simp [nativeCreateTestTexture, hi, hs]
  rw [hsome] at hcreated
  injection hcreated with hcreated
  have hsampler : textureInfo.sampler = VK_NULL_HANDLE := by rw [← hcreated]
  refine ⟨hsampler, ?_, ?_, hzero⟩
  · simp [nativeCreateTestTexture, hi, hs]
  · unfold nativeGetTextureSampler
    rw [hsampler]
    split <;> rfl

theorem nativeCreateTestTexture_sampler_null_witness :
    (nativeCreateTestTexture sampleTestTextureDriver sampleDevice).1 = some sampleTestTexture ∧
    sampleTestTexture.sampler = VK_NULL_HANDLE ∧
    Call.vkCreateSampler sampleDevice.device ∈
      (nativeCreateTestTexture sampleTestTextureDriver sampleDevice).2 ∧
    nativeGetTextureSampler 77 sampleTestTexture = 0 ∧
    ∀ other : TextureInfo, nativeGetTextureSampler 0 other = 0 :=
  ⟨by decide, nativeCreateTestTexture_sampler_null sampleTestTextureDriver sampleDevice
    sampleTestTexture 77 (by decide)⟩

/-! ## Fence discipline of the frame loop -/

theorem fenceCreationFlags_append (a b : List Call) :
    fenceCreationFlags (a ++ b) = fenceCreationFlags a ++ fenceCreationFlags b := by
  simp [fenceCreationFlags, List.filterMap_append]

theorem fenceCreationFlags_destroySyncObjects (device : Handle)
    (imageAvailableSems renderFinishedSems fences : List Handle) (i : Nat) :
    fenceCreationFlags (destroySyncObjects device imageAvailableSems renderFinishedSems
      fences i) = [] := by
  unfold fenceCreationFlags
  rw [List.filterMap_eq_nil_iff]
  intro c hc
  unfold destroySyncObjects at hc
  obtain ⟨j, _, hj⟩ := List.mem_flatMap.mp hc
  simp only [List.mem_cons, List.mem_singleton, List.not_mem_nil, or_false] at hj
  rcases hj with h | h | h <;> rw [h]

theorem createSyncObjectsLoop_fence_flags (drv : SyncDriver) (device : Handle) :
    ∀ (remaining i : Nat) (imageAvailableSems renderFinishedSems fences : List Handle),
      ∀ flags, flags ∈ fenceCreationFlags (createSyncObjectsLoop drv device remaining i
          imageAvailableSems renderFinishedSems fences).calls →
        flags = VK_FENCE_CREATE_SIGNALED_BIT := by
  intro remaining
  induction remaining with
  | zero =>
    intro i s1 s2 f flags h
    simp [createSyncObjectsLoop, fenceCreationFlags] at h
  | succ remaining ih =>
    intro i s1 s2 f flags h
    by_cases h1 : (drv.imageAvailable i).1 = VK_SUCCESS
    swap
    · simp only [createSyncObjectsLoop, h1, ne_eq, not_false_eq_true, if_true,
        fenceCreationFlags_append, fenceCreationFlags_destroySyncObjects] at h
      simp [fenceCreationFlags] at h
    by_cases h2 : (drv.renderFinished i).1 = VK_SUCCESS
    swap
    · simp only [createSyncObjectsLoop, h1, h2, ne_eq, not_false_eq_true, not_true_eq_false,
        if_true, if_false, fenceCreationFlags_append, fenceCreationFlags_destroySyncObjects] at h
      simp [fenceCreationFlags] at h
    by_cases h3 : (drv.fence i).1 = VK_SUCCESS
    swap
    · simp only [createSyncObjectsLoop, h1, h2, h3, ne_eq, not_false_eq_true, not_true_eq_false,
        if_true, if_false, fenceCreationFlags_append, fenceCreationFlags_destroySyncObjects] at h
      simp [fenceCreationFlags] at h
      exact h
    simp only [createSyncObjectsLoop, h1, h2, h3, ne_eq, not_true_eq_false, if_false,
      fenceCreationFlags_append] at h
    rcases List.mem_append.mp h with h | h
    · simp [fenceCreationFlags] at h
      exact h
    · exact ih _ _ _ _ flags h

theorem mod_eq_lt_add_le (a b n : Nat) (hlt : a < b) (hmod : a % n = b % n) : a + n ≤ b := by
  have h0 : (b - a) % n = 0 := Nat.sub_mod_eq_zero_of_mod_eq hmod.symm
  have hdvd : n ∣ b - a := Nat.dvd_of_mod_eq_zero h0
  have hle : n ≤ b - a := Nat.le_of_dvd (by omega) hdvd
  omega

theorem FrameLoop.disciplined_start (slots : Nat) :
    FrameLoop.Disciplined slots FrameLoop.start where
  signaledDone := fun j hj => absurd hj (Nat.not_lt_zero j)
  slotDone := fun h => absurd rfl h
  reuseDone := fun j hj => absurd hj (Nat.not_lt_zero _)
  resetHeld := fun h => by cases h
  freshSignaled := fun _ _ _ => rfl

theorem FrameLoop.disciplined_step (slots : Nat) (hslots : 0 < slots) (s t : FrameLoop)
    (e : FrameEvent) (hs : FrameLoop.Disciplined slots s)
    (hstep : FrameLoop.step slots s e = some t) : FrameLoop.Disciplined slots t := by
  cases e with
  | waitForFence =>
    by_cases hc : s.phase = FramePhase.waiting ∧ s.fenceSignaled (s.frame % slots) = true
    · simp only [FrameLoop.step, hc, and_self, if_true, Option.some.injEq] at hstep
      subst hstep
      exact {
        signaledDone := hs.signaledDone
        slotDone := fun _ j hj hmod => hs.signaledDone j hj (by rw [hmod]; exact hc.2)
        reuseDone := hs.reuseDone
        resetHeld := fun h => by cases h
        freshSignaled := fun k hk h => by
          rcases h with h | h
          · exact hs.freshSignaled k hk (Or.inl h)
          · exact absurd h.2 (by simp) }
    · simp only [FrameLoop.step, hc, if_false] at hstep
      exact absurd hstep (by simp)
  | resetFence =>
    by_cases hc : s.phase = FramePhase.resetting
    · simp only [FrameLoop.step, hc, if_true, Option.some.injEq] at hstep
      subst hstep
      exact {
        signaledDone := fun j hj hsig => by
          by_cases hm : j % slots = s.frame % slots
          · simp only [hm, if_true] at hsig
            exact absurd hsig (by simp)
          · simp only [hm, if_false] at hsig
            exact hs.signaledDone j hj hsig
        slotDone := fun _ => hs.slotDone (by rw [hc]; simp)
        reuseDone := hs.reuseDone
        resetHeld := fun _ => by simp
        freshSignaled := fun k hk h => by
          rcases h with h | h
          · have h : s.frame < k := h
            have hne : k ≠ s.frame % slots := by
              rw [Nat.mod_eq_of_lt (by omega)]
              omega
            simp only [hne, if_false]
            exact hs.freshSignaled k hk (Or.inl h)
          · exact absurd h.2 (by simp) }
    · simp only [FrameLoop.step, hc, if_false] at hstep
      exact absurd hstep (by simp)
  | submit =>
    by_cases hc : s.phase = FramePhase.submitting
    · simp only [FrameLoop.step, hc, if_true, Option.some.injEq] at hstep
      subst hstep
      exact {
        signaledDone := fun j hj hsig => by
          rcases Nat.lt_succ_iff_lt_or_eq.mp hj with hlt | heq
          · exact hs.signaledDone j hlt hsig
          · rw [heq, hs.resetHeld hc] at hsig
            exact absurd hsig (by simp)
        slotDone := fun h => absurd rfl h
        reuseDone := fun j hj => by
          by_cases hlt : j + slots < s.frame
          · exact hs.reuseDone j hlt
          · have heq : j + slots = s.frame := by
              have : j + slots < s.frame + 1 := hj
              omega
            refine hs.slotDone (by rw [hc]; simp) j (by omega) ?_
            rw [← heq, Nat.add_mod_right]
        resetHeld := fun h => by cases h
        freshSignaled := fun k hk h => by
          have hlt : s.frame < k := by
            rcases h with h | h
            · exact Nat.lt_of_succ_lt h
            · have : s.frame + 1 = k := h.1
              omega
          exact hs.freshSignaled k hk (Or.inl hlt) }
    · simp only [FrameLoop.step, hc, if_false] at hstep
      exact absurd hstep (by simp)
  | gpuCompletes i =>
    by_cases hc : i < s.frame ∧ s.completed i = false
    · simp only [FrameLoop.step, hc, and_self, if_true, Option.some.injEq] at hstep
      subst hstep
      have hmono : ∀ j, s.completed j = true →
          (if j = i then true else s.completed j) = true := by
        intro j hj
        split
        · rfl
        · exact hj
      exact {
        signaledDone := fun j hj hsig => by
          show (if j = i then true else s.completed j) = true
          have hj : j < s.frame := hj
          by_cases hji : j = i
          · simp [hji]
          · apply hmono
            by_cases hm : j % slots = i % slots
            · rcases Nat.lt_or_gt_of_ne hji with hlt | hgt
              · have := mod_eq_lt_add_le j i slots hlt hm
                exact hs.reuseDone j (by omega)
              · have := mod_eq_lt_add_le i j slots hgt hm.symm
                have hdone := hs.reuseDone i (by omega)
                rw [hc.2] at hdone
                exact absurd hdone (by simp)
            · simp only [hm, if_false] at hsig
              exact hs.signaledDone j hj hsig
        slotDone := fun hph j hj hm => hmono j (hs.slotDone hph j hj hm)
        reuseDone := fun j hj => hmono j (hs.reuseDone j hj)
        resetHeld := fun hph => by
          show (if s.frame % slots = i % slots then true
            else s.fenceSignaled (s.frame % slots)) = false
          have hne : s.frame % slots ≠ i % slots := by
            intro heq
            have hdone := hs.slotDone (by rw [hph]; simp) i hc.1 heq.symm
            rw [hc.2] at hdone
            exact absurd hdone (by simp)
          simp only [hne, if_false]
          exact hs.resetHeld hph
        freshSignaled := fun k hk h => by
          show (if k = i % slots then true else s.fenceSignaled k) = true
          split
          · rfl
          · exact hs.freshSignaled k hk h }
    · simp only [FrameLoop.step, hc, if_false] at hstep
      exact absurd hstep (by simp)

theorem FrameLoop.disciplined_run (slots : Nat) (hslots : 0 < slots) :
    ∀ (events : List FrameEvent) (s t : FrameLoop), FrameLoop.Disciplined slots s →
      FrameLoop.run slots s events = some t → FrameLoop.Disciplined slots t := by
  intro events
  induction events with
  | nil =>
    intro s t hs hrun
    simp only [FrameLoop.run, Option.some.injEq] at hrun
    exact hrun ▸ hs
  | cons e rest ih =>
    intro s t hs hrun
    cases hstep : FrameLoop.step slots s e with
    | none =>
      simp only [FrameLoop.run, hstep] at hrun
      exact absurd hrun (by simp)
    | some u =>
      simp only [FrameLoop.run, hstep] at hrun
      exact ih u t (FrameLoop.disciplined_step slots hslots s u e hs hstep) hrun

/-- C26: in the frame loop with `slots` frame slots, at every moment reached from
the start whatever the GPU's pace, the CPU can issue the submission of frame
`i + slots` only after the GPU has completed submission `i` and the CPU's wait
on the fence of the slot has seen it signaled; every frame submitted `slots`
frames ago is complete; the first wait on each slot can be taken at once. The
wait is `nativeWaitForFence`, a wait without time limit on the fence of the
slot, the submission carries that fence, and every fence `nativeCreateSyncObjects`
creates is created signaled. -/
theorem frame_loop_fence_discipline (slots : Nat) (events : List FrameEvent) (s : FrameLoop)
    (drv : SyncDriver) (deviceInfo : DeviceInfo) (count : Int)
    (imageAvailableSemaphoresArray renderFinishedSemaphoresArray inFlightFencesArray :
      List Handle)
    (fences commandBuffers imageAvailable renderFinished : Nat → Handle)
    (hslots : 0 < slots)
    (hrun : FrameLoop.run slots FrameLoop.start events = some s) :
    ((FrameLoop.step slots s FrameEvent.submit).isSome = true →
      ∀ i, i + slots = s.frame → s.completed i = true) ∧
    (∀ i, i + slots < s.frame → s.completed i = true) ∧
    (s.frame < slots → s.phase = FramePhase.waiting →
      (FrameLoop.step slots s FrameEvent.waitForFence).isSome = true) ∧
    FrameLoop.calls deviceInfo fences commandBuffers imageAvailable renderFinished slots s
      FrameEvent.waitForFence =
      [Call.vkWaitForFences deviceInfo.device [fences (s.frame % slots)] true UINT64_MAX] ∧
    FrameLoop.calls deviceInfo fences commandBuffers imageAvailable renderFinished slots s
      FrameEvent.submit =
      [Call.vkQueueSubmit deviceInfo.graphicsQueue
        [pipelinedSubmitInfo (commandBuffers (s.frame % slots))
          (imageAvailable (s.frame % slots)) (renderFinished (s.frame % slots))]
        (fences (s.frame % slots))] ∧
    ∀ flags, flags ∈ fenceCreationFlags (nativeCreateSyncObjects drv deviceInfo count
        imageAvailableSemaphoresArray renderFinishedSemaphoresArray
        inFlightFencesArray).calls →
      flags = VK_FENCE_CREATE_SIGNALED_BIT := by
  have hs := FrameLoop.disciplined_run slots hslots events FrameLoop.start s
    (FrameLoop.disciplined_start slots) hrun
  refine ⟨?_, hs.reuseDone, ?_, rfl, rfl, ?_⟩
  · intro hsub i hi
    have hph : s.phase = FramePhase.submitting := by
      by_contra hne
      simp [FrameLoop.step, hne] at hsub
    refine hs.slotDone (by rw [hph]; simp) i (by omega) ?_
    rw [← hi, Nat.add_mod_right]
  · intro hlt hph
    have hsig := hs.freshSignaled s.frame hlt (Or.inr ⟨rfl, hph⟩)
    rw [← Nat.mod_eq_of_lt hlt] at hsig
    simp [FrameLoop.step, hph, hsig]
  · intro flags hflags
    exact createSyncObjectsLoop_fence_flags drv deviceInfo.device _ _ _ _ _ flags hflags

theorem frame_loop_fence_discipline_witness :
    0 < 2 ∧ FrameLoop.run 2 FrameLoop.start sampleFrameEvents = some sampleFrameLoop ∧
    sampleFrameLoop.frame = 3 ∧
    (∀ i, i + 2 < sampleFrameLoop.frame → sampleFrameLoop.completed i = true) ∧
    (FrameLoop.run 2 FrameLoop.start
      (sampleFrameEvents.take 6 ++ [FrameEvent.waitForFence])).isSome = false ∧
    fenceCreationFlags (nativeCreateSyncObjects sampleSyncDriver sampleDevice 2 [0, 0] [0, 0]
      [0, 0]).calls = [1, 1] :=
  ⟨by decide, rfl, rfl,
    (frame_loop_fence_discipline 2 sampleFrameEvents sampleFrameLoop sampleSyncDriver
      sampleDevice 2 [0, 0] [0, 0] [0, 0] (fun k => 220 + k) (fun k => 230 + k)
      (fun k => 200 + k) (fun k => 210 + k) (by decide) rfl).2.1,
    rfl, by decide⟩

end VulkanRunner
